import Mathlib

/-!
Verification of the lpass-rs authentication core (`src/lib.rs`, `src/error.rs`,
`src/secure.rs`, `src/xml.rs`, `src/http.rs`, `src/kdf.rs`) against its
natural-language specification.

The Rust sources are shallowly embedded: byte strings are `List Nat` (each
element < 256), machine integers are `Nat` with explicit wrap-around,
fallible operations return `Except Error _`, and `&mut self` methods are
state-passing functions `Session → ... → Session × Except Error Unit`.
The only external effects that can influence the verified control flow are
(a) the bytes a server reply contains, passed in explicitly, and
(b) whether an `mlock` call succeeds, passed in as a boolean oracle
(`lockOk : Nat → Bool`, indexed by allocation site within one operation).

Name aliasing between the spec and `src/error.rs`:
`MalformedResponse` = `BadProtocol`/`XmlError`, `InvalidCredentials` =
`InvalidPassword`, `TransportFailure` = `CurlError`, `HttpStatus` =
`HttpError`, `UnsupportedParameters` = `Unsupported`, `MemoryLockFailed` =
`IoError`.
-/

set_option maxRecDepth 4000000
set_option maxHeartbeats 4000000

namespace LPass

/-- Supported OTP methods (src/lib.rs `enum OtpMethod`). -/
inductive OtpMethod
  | YubiKey
  | GoogleAuthenticator
  | Sesame
  deriving DecidableEq

/-- `OtpMethod::post_var` (src/lib.rs): name of the POST variable used to
send the OTP code. -/
def OtpMethod.post_var : OtpMethod → String
  | OtpMethod.Sesame => "sesameotp"
  | _ => "otp"

/-- Error type of src/error.rs. Payloads of library errors (`io::Error`,
`curl::Error`, openssl and xml-reader errors) are opaque and modelled as a
numeric code. -/
inductive Error
  | BadUsage
  | UserAbort
  | InvalidPassword
  | InvalidUser
  | OtpRequired (m : OtpMethod)
  | IoError (e : Nat)
  | CurlError (e : Nat)
  | OpensslError (e : Nat)
  | HttpError (code : Nat)
  | BadProtocol (msg : String)
  | Unsupported (msg : String)
  | XmlError (e : Nat)
  deriving DecidableEq

deriving instance DecidableEq for Except

/-- Secure storage (src/secure.rs `Storage`): a backing buffer plus the
number of bytes currently in use; `Deref` exposes `storage[0..len]`. -/
structure Storage where
  storage : List Nat
  len : Nat
  deriving DecidableEq

/-- `Storage::empty` (src/secure.rs). -/
def Storage.empty : Storage := ⟨[], 0⟩

/-- `Storage::from_buf` (src/secure.rs): mlock the buffer; fails with an
io error when the OS refuses the lock (`lockOk = false`). -/
def Storage.from_buf (buf : List Nat) (lockOk : Bool) : Except Error Storage :=
  if lockOk then Except.ok ⟨buf, buf.length⟩ else Except.error (Error.IoError 0)

/-- `Storage::from_vec` (src/secure.rs): delegates to `from_buf`. -/
def Storage.from_vec (v : List Nat) (lockOk : Bool) : Except Error Storage :=
  Storage.from_buf v lockOk

/-- `Storage::with_capacity` (src/secure.rs): allocate `capacity` zero
bytes, then reset `len` to 0. -/
def Storage.with_capacity (capacity : Nat) (lockOk : Bool) : Except Error Storage :=
  (Storage.from_vec (List.replicate capacity 0) lockOk).map fun s => { s with len := 0 }

/-- The readable contents of a `Storage`: what `Deref` exposes,
`storage[0..len]`. -/
def Storage.contents (s : Storage) : List Nat := s.storage.take s.len

/-- `impl PartialEq for Storage` (src/secure.rs): compare `self.len()`
(the deref'd slice length) and the zipped bytes. -/
def Storage.eq (a b : Storage) : Bool :=
  a.contents.length == b.contents.length &&
    (a.contents.zip b.contents).all fun p => p.1 == p.2

/-- One round of the SHA-256 compression function (FIPS 180-4, 6.2.2
step 3) on a packed state: `sw = w * 2^256 + s`, where `s` packs the eight
32-bit working variables a..h (a in the highest lane) and `w` packs a
16-word schedule window (the word consumed by this round in the highest
lane). The round also performs one message-schedule extension step
(FIPS 180-4, 6.2.2 step 1), shifting the window and appending the new
word, so that 64 chained rounds see the full W0..W63. Written with bare
`Nat` primitives so the kernel evaluates every operation on GMP literals,
with two algebraic shortcuts: a right-rotation of a 32-bit word `x` by
`n` is read as `(x * (2^32 + 1)) >>> n` in the low 32 bits (the multiply
duplicates the word, so the window at offset `n` wraps), and masks to 32
bits are deferred to the consumers — a value whose upper bits are garbage
is only ever added (carries move upward, away from the low 32 bits that
are kept) or and-ed with a clean 32-bit value, and `a2`, `e2` and `nw`
are masked when stored. -/
def rnd (k sw : Nat) : Nat :=
  let s := Nat.land sw 115792089237316195423570985008687907853269984665640564039457584007913129639935
  let w := Nat.shiftRight sw 256
  let a := Nat.shiftRight s 224
  let b := Nat.shiftRight s 192
  let c := Nat.shiftRight s 160
  let d := Nat.shiftRight s 128
  let e := Nat.land (Nat.shiftRight s 96) 4294967295
  let f := Nat.shiftRight s 64
  let g := Nat.shiftRight s 32
  let w0 := Nat.shiftRight w 480
  let ed := Nat.mul e 4294967297
  let bsig1 := Nat.xor (Nat.xor (Nat.shiftRight ed 6) (Nat.shiftRight ed 11)) (Nat.shiftRight ed 25)
  let ch := Nat.xor (Nat.land e f) (Nat.land (Nat.xor e 4294967295) g)
  let t1 := Nat.add (Nat.add (Nat.add (Nat.add s bsig1) ch) k) w0
  let ad := Nat.mul a 4294967297
  let bsig0 := Nat.xor (Nat.xor (Nat.shiftRight ad 2) (Nat.shiftRight ad 13)) (Nat.shiftRight ad 22)
  let maj := Nat.xor (Nat.xor (Nat.land a b) (Nat.land a c)) (Nat.land b c)
  let t2 := Nat.add bsig0 maj
  let a2 := Nat.land (Nat.add t1 t2) 4294967295
  let e2 := Nat.land (Nat.add d t1) 4294967295
  let w1 := Nat.land (Nat.shiftRight w 448) 4294967295
  let w9 := Nat.shiftRight w 192
  let w14 := Nat.land (Nat.shiftRight w 32) 4294967295
  let wd1 := Nat.mul w1 4294967297
  let ssig0 := Nat.xor (Nat.xor (Nat.shiftRight wd1 7) (Nat.shiftRight wd1 18)) (Nat.shiftRight w1 3)
  let wd14 := Nat.mul w14 4294967297
  let ssig1 := Nat.xor (Nat.xor (Nat.shiftRight wd14 17) (Nat.shiftRight wd14 19)) (Nat.shiftRight w14 10)
  let nw := Nat.land (Nat.add (Nat.add (Nat.add w0 ssig0) w9) ssig1) 4294967295
  let s2 := Nat.lor (Nat.lor (Nat.shiftLeft a2 224)
              (Nat.land (Nat.shiftRight s 32) 0xffffffffffffffffffffffff00000000ffffffffffffffffffffffff))
              (Nat.shiftLeft e2 96)
  let wn := Nat.lor
    (Nat.land (Nat.shiftLeft w 32) 13407807929942597099574024998205846127479365820592393377723561443721764030073546976801874298166903427690031858186486050853753882811946569946433649006084095)
    nw
  Nat.lor (Nat.shiftLeft wn 256) s2

/-- The 64 rounds of one SHA-256 compression, with the round constants
K0..K63 of FIPS 180-4 section 4.2.2 applied in order (innermost first). -/
def rounds64 (s blk : Nat) : Nat :=
  (rnd 3329325298 (rnd 3204031479 (rnd 2756734187 (rnd 2428436474 (rnd 2361852424 (rnd 2227730452 (rnd 2024104815 (rnd 1955562222 (rnd 1747873779 (rnd 1537002063 (rnd 1322822218 (rnd 958139571 (rnd 883997877 (rnd 659060556 (rnd 506948616 (rnd 430227734 (rnd 275423344 (rnd 4094571909 (rnd 3600352804 (rnd 3516065817 (rnd 3345764771 (rnd 3259730800 (rnd 2820302411 (rnd 2730485921 (rnd 2456956037 (rnd 2177026350 (rnd 1986661051 (rnd 1695183700 (rnd 1396182291 (rnd 1294757372 (rnd 773529912 (rnd 666307205 (rnd 338241895 (rnd 113926993 (rnd 3584528711 (rnd 3336571891 (rnd 3210313671 (rnd 2952996808 (rnd 2821834349 (rnd 2554220882 (rnd 1996064986 (rnd 1555081692 (rnd 1249150122 (rnd 770255983 (rnd 604807628 (rnd 264347078 (rnd 4022224774 (rnd 3835390401 (rnd 3248222580 (rnd 2614888103 (rnd 2162078206 (rnd 1925078388 (rnd 1426881987 (rnd 607225278 (rnd 310598401 (rnd 3624381080 (rnd 2870763221 (rnd 2453635748 (rnd 1508970993 (rnd 961987163 (rnd 3921009573 (rnd 3049323471 (rnd 1899447441 (rnd 1116352408 (Nat.lor (Nat.shiftLeft blk 256) s)))))))))))))))))))))))))))))))))))))))))))))))))))))))))))))))))

/-- Lane-wise addition modulo 2^32 of two packed 256-bit states
(FIPS 180-4, 6.2.2 step 4), two interleaved half-width adds: even and odd
32-bit lanes are isolated, added in parallel (every carry lands in the
zeroed 32 bits above its lane) and recombined. -/
def addS (x y : Nat) : Nat :=
  let me := 0x00000000ffffffff00000000ffffffff00000000ffffffff00000000ffffffff
  let mo := 0xffffffff00000000ffffffff00000000ffffffff00000000ffffffff00000000
  Nat.lor
    (Nat.land (Nat.add (Nat.land x me) (Nat.land y me)) me)
    (Nat.land (Nat.add (Nat.land x mo) (Nat.land y mo)) mo)

/-- One application of the SHA-256 compression function to a 512-bit
block (both packed big-endian into `Nat`). -/
def compress (s blk : Nat) : Nat :=
  addS s (Nat.land (rounds64 s blk) 115792089237316195423570985008687907853269984665640564039457584007913129639935)

/-- The initial SHA-256 hash value H(0) (FIPS 180-4 section 5.3.3),
packed. -/
def shaH0 : Nat := 0x6a09e667bb67ae853c6ef372a54ff53a510e527f9b05688c1f83d9ab5be0cd19

/-- The padded message of SHA-256 (FIPS 180-4 section 5.1.1) for a
`len`-byte message whose bytes are packed big-endian into `msg`, split
into 512-bit blocks. -/
def padBlocks (msg len : Nat) : List Nat :=
  let z := (119 - len % 64) % 64
  let total := Nat.lor (Nat.shiftLeft (Nat.lor (Nat.shiftLeft msg 8) 0x80) (8 * z + 64)) (8 * len)
  let nblocks := (len + 9 + z) / 64
  (List.range nblocks).map fun i =>
    Nat.land (Nat.shiftRight total (512 * (nblocks - 1 - i))) (2 ^ 512 - 1)

/-- SHA-256 of a `len`-byte message packed big-endian into `msg`; the
digest is returned packed big-endian. -/
def sha256N (msg len : Nat) : Nat :=
  (padBlocks msg len).foldl compress shaH0

/-- The ipad-masked key block of HMAC (RFC 2104) for a key of at most 64
bytes, packed. -/
def ipadOf (key klen : Nat) : Nat :=
  Nat.xor (Nat.shiftLeft key (8 * (64 - klen)))
    0x3636363636363636363636363636363636363636363636363636363636363636363636363636363636363636363636363636363636363636363636363636363636

/-- The opad-masked key block of HMAC (RFC 2104), packed. -/
def opadOf (key klen : Nat) : Nat :=
  Nat.xor (Nat.shiftLeft key (8 * (64 - klen)))
    0x5c5c5c5c5c5c5c5c5c5c5c5c5c5c5c5c5c5c5c5c5c5c5c5c5c5c5c5c5c5c5c5c5c5c5c5c5c5c5c5c5c5c5c5c5c5c5c5c5c5c5c5c5c5c5c5c5c5c5c5c5c5c5c5c

/-- HMAC-SHA256 (RFC 2104) for a key of at most 64 bytes: digests are
packed big-endian. -/
def hmacN (key klen msg mlen : Nat) : Nat :=
  sha256N (Nat.lor (Nat.shiftLeft (opadOf key klen) 256)
           (sha256N (Nat.lor (Nat.shiftLeft (ipadOf key klen) (8 * mlen)) msg) (64 + mlen))) 96

/-- The padding tail of a SHA-256 message that is one 64-byte block
followed by a 32-byte payload: the 0x80 marker, 23 zero bytes and the
64-bit length 768. -/
def innerTail : Nat := Nat.lor (Nat.shiftLeft 0x80 248) 768

/-- One HMAC-SHA256 application to a 32-byte message, starting from the
precomputed chaining states after the ipad and opad blocks (so exactly
two compressions per call). -/
def hmacFixedStep (ipadS opadS u : Nat) : Nat :=
  compress opadS (Nat.lor (Nat.shiftLeft
    (compress ipadS (Nat.lor (Nat.shiftLeft u 256) innerTail)) 256) innerTail)

/-- One iteration of the PBKDF2 loop (RFC 2898, 5.2, dkLen = hLen):
the 512-bit state packs `U` above the running xor accumulator `T`. -/
def pbkdfStep (ipadS opadS st : Nat) : Nat :=
  Nat.lor (Nat.shiftLeft (hmacFixedStep ipadS opadS (Nat.shiftRight st 256)) 256)
    (Nat.xor
      (Nat.land st 115792089237316195423570985008687907853269984665640564039457584007913129639935)
      (hmacFixedStep ipadS opadS (Nat.shiftRight st 256)))

/-- `n` iterations of the PBKDF2 loop. -/
def pbkdfIter (ipadS opadS n st : Nat) : Nat :=
  Nat.rec st (fun _ ih => pbkdfStep ipadS opadS ih) n

/-- PBKDF2-HMAC-SHA256 with dkLen = 32 (RFC 2898, 5.2): a single output
block T1 = U1 xor ... xor Uc with U1 = HMAC(P, S || INT(1)) and
U(i+1) = HMAC(P, Ui). Password and salt are packed big-endian with their
byte lengths alongside. This is the function computed by openssl
`pkcs5::pbkdf2_hmac(password, salt, iterations, sha256, out32)` as called
in src/kdf.rs. -/
def pbkdf2N (pw pwlen salt saltlen c : Nat) : Nat :=
  Nat.land
    (pbkdfIter (compress shaH0 (ipadOf pw pwlen)) (compress shaH0 (opadOf pw pwlen)) (c - 1)
      (Nat.lor
        (Nat.shiftLeft (hmacN pw pwlen (Nat.lor (Nat.shiftLeft salt 32) 1) (saltlen + 4)) 256)
        (hmacN pw pwlen (Nat.lor (Nat.shiftLeft salt 32) 1) (saltlen + 4))))
    115792089237316195423570985008687907853269984665640564039457584007913129639935

/-- The 32 bytes of a packed big-endian 256-bit digest. -/
def bytesOfDigest (d : Nat) : List Nat :=
  (List.range 32).map fun i => Nat.shiftRight d (8 * (31 - i)) % 256

/-- Pack a byte list big-endian into one `Nat`. -/
def packBytes (bs : List Nat) : Nat :=
  bs.foldl (fun a b => a * 256 + b) 0

/-- SHA-256 on a byte list, bytes in and bytes out. -/
def sha256Bytes (bs : List Nat) : List Nat :=
  bytesOfDigest (sha256N (packBytes bs) bs.length)


/-- One XML element (src/xml.rs `Element`): local name, attributes
(local name → value) and ordered children. Namespaces and prefixes carry no
information in this protocol and are not modelled. -/
inductive Element
  | mk (name : String) (attributes : List (String × String)) (children : List Element)

/-- Element name. -/
def Element.name : Element → String
  | Element.mk n _ _ => n

/-- Element attributes. -/
def Element.attributes : Element → List (String × String)
  | Element.mk _ a _ => a

/-- Element children. -/
def Element.children : Element → List Element
  | Element.mk _ _ c => c

/-- `Element::attribute` (src/xml.rs): first attribute with the given
local name, returning its value. -/
def Element.attribute (e : Element) (name : String) : Option String :=
  (e.attributes.find? fun a => a.1 == name).map fun a => a.2

/-- `Element::child` (src/xml.rs): first child element with the given
local name. -/
def Element.child (e : Element) (name : String) : Option Element :=
  e.children.find? fun c => c.name == name

/-- `Dom::element` (src/xml.rs): walk `path` from the synthetic root,
taking the first same-named child at each step. -/
def domElement (root : Element) (path : List String) : Option Element :=
  path.foldl (fun cur p => cur.bind fun c => c.child p) (some root)

/-- One event of the SAX reader feeding `Dom::do_parse`
(xml-rs `XmlEvent`); events other than element open/close are ignored by
the builder and collapsed into `other`. -/
inductive SaxEvent
  | startElement (name : String) (attributes : List (String × String))
  | endElement (name : String)
  | other

/-- One item of the SAX reader's iterator: an event or a reader error
(opaque payload). -/
inductive SaxItem
  | ok (e : SaxEvent)
  | err (e : Nat)

/-- Outcome of `Dom::do_parse`: a built tree, a propagated reader error,
or a crash — an `unwrap` of an empty stack or a failed `assert!`. -/
inductive ParseOutcome
  | ok (root : Element)
  | error (e : Nat)
  | crash

/-- The synthetic `[root]` element `do_parse` starts from. -/
def rootElem : Element := Element.mk "[root]" [] []

/-- The loop body of `Dom::do_parse` (src/xml.rs): explicit element stack,
top at the head. `StartElement` pushes; `EndElement` pops, asserts the name
matches, and appends the popped element to the children of the new top;
a reader error aborts via `try!`; at the end of input the stack must hold
exactly the root. Every `unwrap`/`assert!` failure is a `crash`. -/
def do_parse_go : List Element → List SaxItem → ParseOutcome
  | stack, [] =>
    match stack with
    | [root] => ParseOutcome.ok root
    | _ => ParseOutcome.crash
  | _, (SaxItem.err e) :: _ => ParseOutcome.error e
  | stack, (SaxItem.ok (SaxEvent.startElement n attrs)) :: rest =>
    do_parse_go (Element.mk n attrs [] :: stack) rest
  | stack, (SaxItem.ok (SaxEvent.endElement n)) :: rest =>
    match stack with
    | [] => ParseOutcome.crash
    | elem :: stack2 =>
      if elem.name ≠ n then ParseOutcome.crash
      else
        match stack2 with
        | [] => ParseOutcome.crash
        | parent :: stack3 =>
          do_parse_go
            (Element.mk parent.name parent.attributes (parent.children ++ [elem]) :: stack3)
            rest
  | stack, (SaxItem.ok SaxEvent.other) :: rest => do_parse_go stack rest

/-- `Dom::do_parse` (src/xml.rs) on a SAX item stream. -/
def do_parse (items : List SaxItem) : ParseOutcome :=
  do_parse_go [rootElem] items

/-- The well-formedness contract of the xml-rs SAX reader, tracked against
a stack of currently open element names: the reader never emits an
`EndElement` that does not match the innermost open `StartElement`, and a
document that ends with unclosed elements (or any other syntax problem)
makes the reader emit an error item, after which `do_parse` returns.
Unbalanced or truncated input therefore always shows up here as a stream
ending in an `err` item. -/
def saxBalanced : List String → List SaxItem → Bool
  | opens, [] => opens.isEmpty
  | _, (SaxItem.err _) :: _ => true
  | opens, (SaxItem.ok (SaxEvent.startElement n _)) :: rest => saxBalanced (n :: opens) rest
  | opens, (SaxItem.ok (SaxEvent.endElement n)) :: rest =>
    match opens with
    | [] => false
    | o :: os => o == n && saxBalanced os rest
  | opens, (SaxItem.ok SaxEvent.other) :: rest => saxBalanced opens rest

/-- Whether a SAX stream contains a reader error item. -/
def hasSaxError (items : List SaxItem) : Bool :=
  items.any fun i =>
    match i with
    | SaxItem.err _ => true
    | _ => false

/-- Rust `u32::from_str` (used at src/lib.rs via `try!(u32::from_str(..))`):
an optional leading `+`, then one or more ASCII digits, value below 2^32.
Anything else (empty, signs, spaces, overflow) is a parse error (`none`). -/
def u32FromStr (s : String) : Option Nat :=
  let ds := if s.data.head? = some '+' then s.data.tail else s.data
  if ds.isEmpty then none
  else if ds.all fun c => c.isDigit then
    let v := ds.foldl (fun a c => a * 10 + (c.toNat - 48)) 0
    if v < 4294967296 then some v else none
  else none

/-- Number of bytes of the UTF-8 sequence introduced by lead byte `b`:
0 marks an invalid lead (0x80-0xc1 continuations and overlong leads,
0xf5-0xff out of range). -/
def utf8LeadLen (b : Nat) : Nat :=
  if 194 ≤ b && b ≤ 223 then 2
  else if 224 ≤ b && b ≤ 239 then 3
  else if 240 ≤ b && b ≤ 244 then 4
  else 0

/-- Validity of the continuation bytes `conts` for lead `b`: right count,
each in 0x80-0xbf, and the first-continuation restrictions that exclude
overlong forms (E0, F0), surrogates (ED) and values above U+10FFFF
(F4). -/
def utf8ContOk (b : Nat) (conts : List Nat) : Bool :=
  conts.length + 1 == utf8LeadLen b &&
  conts.all (fun c => 128 ≤ c && c ≤ 191) &&
  (match conts with
   | c1 :: _ =>
     (b != 224 || 160 ≤ c1) && (b != 237 || c1 ≤ 159) &&
     (b != 240 || 144 ≤ c1) && (b != 244 || c1 ≤ 143)
   | [] => false)

/-- Scalar value of the UTF-8 sequence `b :: conts`. -/
def utf8CharVal (b : Nat) (conts : List Nat) : Nat :=
  conts.foldl (fun a c => a * 64 + (c - 128))
    (b - (if utf8LeadLen b = 2 then 192 else if utf8LeadLen b = 3 then 224 else 240))

/-- Decoding loop with explicit fuel, so that the recursion is structural
and kernel-reducible; `utf8Decode` supplies one unit of fuel per input
byte, which the loop can never exhaust since every step consumes at least
one byte. -/
def utf8DecodeGo : Nat → List Nat → Option (List Char)
  | _, [] => some []
  | 0, _ :: _ => none
  | fuel + 1, b :: rest =>
    if b < 128 then (utf8DecodeGo fuel rest).map fun cs => Char.ofNat b :: cs
    else
      let k := utf8LeadLen b
      if k = 0 then none
      else
        let conts := rest.take (k - 1)
        if utf8ContOk b conts then
          (utf8DecodeGo fuel (rest.drop (k - 1))).map fun cs =>
            Char.ofNat (utf8CharVal b conts) :: cs
        else none

/-- UTF-8 decoding of a byte list (Rust `String::from_utf8`), rejecting
invalid leads, truncated or out-of-range continuation bytes, overlong
forms, surrogates and values above U+10FFFF. -/
def utf8Decode (bs : List Nat) : Option (List Char) :=
  utf8DecodeGo bs.length bs

/-- UTF-8 encoding of one character (Rust `String::into_bytes`, per char). -/
def utf8EncChar (c : Char) : List Nat :=
  let n := c.toNat
  if n < 0x80 then [n]
  else if n < 0x800 then [0xc0 + n / 64, 0x80 + n % 64]
  else if n < 0x10000 then [0xe0 + n / 4096, 0x80 + n / 64 % 64, 0x80 + n % 64]
  else [0xf0 + n / 262144, 0x80 + n / 4096 % 64, 0x80 + n / 64 % 64, 0x80 + n % 64]

/-- UTF-8 bytes of a string (Rust `String::into_bytes` / `as_bytes`). -/
def strBytes (s : String) : List Nat := s.data.flatMap utf8EncChar

/-- The packed crypto-key digest leaving the PBKDF2 inputs explicit:
password bytes as secret, username bytes as salt (src/kdf.rs
`crypto_key`, the `pbkdf2_hmac(password, username.as_bytes(), iterations,
sha256, &mut key)` call). -/
def cryptoKeyDigest (username : String) (password : List Nat) (iterations : Nat) : Nat :=
  pbkdf2N (packBytes password) password.length
    (packBytes (strBytes username)) (strBytes username).length iterations

/-- `kdf::crypto_key` (src/kdf.rs): rejects `iterations < 1000` with
`Unsupported`, otherwise derives the 32-byte local encryption key.
The `SecureStorage::from_vec` allocation of the output buffer is assumed
to lock (a failed lock would return the io error before any derivation). -/
def crypto_key (username : String) (password : List Nat) (iterations : Nat) :
    Except Error (List Nat) :=
  if iterations < 1000 then
    Except.error (Error.Unsupported ("Iteration count too low (" ++ toString iterations ++ ")"))
  else
    Except.ok (bytesOfDigest (cryptoKeyDigest username password iterations))

/-- `kdf::login_key` (src/kdf.rs): rejects `iterations < 1000`, then
hardens the crypto key by one more PBKDF2 application with the password
as salt and a single iteration — the key sent to the server. -/
def login_key (username : String) (password : List Nat) (iterations : Nat) :
    Except Error (List Nat) :=
  if iterations < 1000 then
    Except.error (Error.Unsupported ("Iteration count too low (" ++ toString iterations ++ ")"))
  else
    match crypto_key username password iterations with
    | Except.error e => Except.error e
    | Except.ok decrypt_key =>
      Except.ok (bytesOfDigest
        (pbkdf2N (packBytes decrypt_key) decrypt_key.length
          (packBytes password) password.length 1))


/-- Refinement comparison for the iterations endpoint, following the
spec's words at byte level: the body is an optional ASCII `+` followed by
one or more ASCII digits whose value fits in a u32. -/
def specDecimalU32 (body : List Nat) : Option Nat :=
  let ds := if body.head? = some 43 then body.tail else body
  if ds.isEmpty then none
  else if ds.all fun b => 48 ≤ b && b ≤ 57 then
    let v := ds.foldl (fun a b => a * 10 + (b - 48)) 0
    if v < 4294967296 then some v else none
  else none

/-- Session state (src/lib.rs `struct Session`). -/
structure Session where
  username : String
  server : String
  iterations : Option Nat
  uid : Option Nat
  session_id : Option Storage
  session_token : Option Storage
  crypto_key : Option Storage

/-- `Session::new` (src/lib.rs): lowercases the username, fixes the
server, leaves everything else unset. -/
def Session.new (username : String) : Session :=
  ⟨username.toLower, "lastpass.com", none, none, none, none, none⟩

/-- `Session::is_authenticated` (src/lib.rs). -/
def Session.is_authenticated (s : Session) : Bool :=
  s.session_id.isSome && s.session_token.isSome

/-- `Session::server_iterations` (src/lib.rs): decode the response body of
`iterations.php` as UTF-8 (failure → `BadProtocol "Non-UTF8 string
received"`, the `From<FromUtf8Error>` conversion of src/error.rs), then
parse it with `u32::from_str` (failure → `BadProtocol "Integer conversion
failed"`, the `From<ParseIntError>` conversion). -/
def server_iterations (body : List Nat) : Except Error Nat :=
  match utf8Decode body with
  | none => Except.error (Error.BadProtocol "Non-UTF8 string received")
  | some cs =>
    match u32FromStr (String.mk cs) with
    | none => Except.error (Error.BadProtocol "Integer conversion failed")
    | some n => Except.ok n

/-- `Session::iterations` (src/lib.rs): memoized `server_iterations`;
`body` is the reply the transport would deliver for `iterations.php`. -/
def Session.iterationsOp (s : Session) (body : List Nat) : Session × Except Error Nat :=
  match s.iterations with
  | some i => (s, Except.ok i)
  | none =>
    match server_iterations body with
    | Except.error e => (s, Except.error e)
    | Except.ok n => ({ s with iterations := some n }, Except.ok n)

/-- `Session::finalize_login` (src/lib.rs): read the `uid`, `sessionid`,
`token` and `privatekeyenc` attributes of the `ok` node (each missing one
is a fatal `BadProtocol`), parse `uid` as a u32, then store the uid and the
two secure buffers in order. `lockOk n` tells whether the n-th
`SecureStorage::from_vec` call of this invocation can lock its memory. -/
def finalize_login (s : Session) (lockOk : Nat → Bool) (ok_node : Element) :
    Session × Except Error Unit :=
  match ok_node.attribute "uid" with
  | none => (s, Except.error (Error.BadProtocol "Missing XML attribute uid"))
  | some uid =>
  match ok_node.attribute "sessionid" with
  | none => (s, Except.error (Error.BadProtocol "Missing XML attribute sessionid"))
  | some session_id =>
  match ok_node.attribute "token" with
  | none => (s, Except.error (Error.BadProtocol "Missing XML attribute token"))
  | some token =>
  match ok_node.attribute "privatekeyenc" with
  | none => (s, Except.error (Error.BadProtocol "Missing XML attribute privatekeyenc"))
  | some _private_key_enc =>
  match u32FromStr uid with
  | none => (s, Except.error (Error.BadProtocol "Integer conversion failed"))
  | some u =>
  let s := { s with uid := some u }
  match Storage.from_vec (strBytes session_id) (lockOk 0) with
  | Except.error e => (s, Except.error e)
  | Except.ok sidStore =>
  let s := { s with session_id := some sidStore }
  match Storage.from_vec (strBytes token) (lockOk 1) with
  | Except.error e => (s, Except.error e)
  | Except.ok tokStore =>
  ({ s with session_token := some tokStore }, Except.ok ())

/-- The cause → error mapping of `Session::try_login` (src/lib.rs). -/
def causeToError (cause : String) : Error :=
  if cause = "unknownpassword" then Error.InvalidPassword
  else if cause = "unkownemail" then Error.InvalidUser
  else if cause = "otprequired" ∨ cause = "otpfailed" then
    Error.OtpRequired OtpMethod.YubiKey
  else if cause = "googleauthrequired" ∨ cause = "googleauthfailed" then
    Error.OtpRequired OtpMethod.GoogleAuthenticator
  else if cause = "sesameotprequired" ∨ cause = "sesameotpfailed" then
    Error.OtpRequired OtpMethod.Sesame
  else if cause = "outofbandrequired" ∨ cause = "multifactorresponsefailed" then
    Error.Unsupported ("Out-of-band auth requested: " ++ cause)
  else if cause = "gridrestricted" then
    Error.Unsupported ("Grid-based auth requested: " ++ cause)
  else Error.BadProtocol ("Unknown error: " ++ cause)

/-- The cause strings `try_login` maps to something other than the
catch-all `BadProtocol` branch. -/
def handledCauses : List String :=
  ["unknownpassword", "unkownemail", "otprequired", "otpfailed",
   "googleauthrequired", "googleauthfailed", "sesameotprequired",
   "sesameotpfailed", "outofbandrequired", "multifactorresponsefailed",
   "gridrestricted"]

/-- `Session::try_login` (src/lib.rs) applied to the outcome of one
`login.php` round trip. `resp` is the reply after POST and XML parsing:
an error there (transport, HTTP or XML) propagates via `try!`; otherwise
`resp` carries the parsed DOM root. A `response/ok` subtree is finalized;
a `response/error` subtree is mapped through `causeToError`; anything
else (including a missing `cause`) is `BadProtocol "Invalid XML
received"`. -/
def try_login (s : Session) (lockOk : Nat → Bool) (resp : Except Error Element) :
    Session × Except Error Unit :=
  match resp with
  | Except.error e => (s, Except.error e)
  | Except.ok root =>
    match domElement root ["response", "ok"] with
    | some okNode => finalize_login s lockOk okNode
    | none =>
      match domElement root ["response", "error"] with
      | some errNode =>
        match errNode.attribute "cause" with
        | some cause => (s, Except.error (causeToError cause))
        | none => (s, Except.error (Error.BadProtocol "Invalid XML received"))
      | none => (s, Except.error (Error.BadProtocol "Invalid XML received"))

/-- Result of the OTP retry loop in `Session::login`. -/
inductive LoopExit
  | aborted (s : Session) (m : OtpMethod)
  | finished (s : Session) (res : Except Error Unit)

/-- The `while let Err(Error::OtpRequired(m)) = res` loop of
`Session::login` (src/lib.rs). Each attempt consumes the next server
reply; an `OtpRequired` failure asks the prompt (the next entry of
`otps`) and retries on `some`, or aborts the login with the same error on
`none`. Exhausting `responses` models a transport failure on the next
POST; exhausting `otps` models a prompt that declines. -/
def loginRounds (s : Session) (lockOk : Nat → Bool) :
    List (Except Error Element) → List (Option (List Nat)) → LoopExit
  | [], _ => LoopExit.finished s (Except.error (Error.CurlError 0))
  | r :: rs, otps =>
    match try_login s lockOk r with
    | (s1, Except.error (Error.OtpRequired m)) =>
      match otps with
      | [] => LoopExit.aborted s1 m
      | none :: _ => LoopExit.aborted s1 m
      | some _ :: otps2 => loginRounds s1 lockOk rs otps2
    | (s1, res) => LoopExit.finished s1 res

/-- The final result of the OTP loop, whatever session it left behind. -/
def LoopExit.result : LoopExit → Except Error Unit
  | LoopExit.aborted _ m => Except.error (Error.OtpRequired m)
  | LoopExit.finished _ res => res

/-- `Session::login` (src/lib.rs). The environment is explicit: `iterBody`
is the `iterations.php` reply body, `responses` the successive outcomes of
the `login.php` round trips, `otps` the successive answers of
`otp_prompt`, and `lockOk` the memory-lock oracle handed to
`finalize_login`. The pre-loop key derivation and hex encoding only
influence control flow through the `iterations < 1000` rejection of
src/kdf.rs, which is modelled; their allocations are assumed to lock
(a failed lock there would return early, before any session mutation).
Faithful to the source, the loop's final `res` is dropped: after a
non-`OtpRequired` failure the code still stores `crypto_key` and returns
`Ok(())`. -/
def login (s : Session) (password : List Nat) (iterBody : List Nat)
    (responses : List (Except Error Element)) (otps : List (Option (List Nat)))
    (lockOk : Nat → Bool) : Session × Except Error Unit :=
  match s.iterationsOp iterBody with
  | (s1, Except.error e) => (s1, Except.error e)
  | (s1, Except.ok iter) =>
    if iter < 1000 then
      (s1, Except.error (Error.Unsupported ("Iteration count too low (" ++ toString iter ++ ")")))
    else
      match loginRounds s1 lockOk responses otps with
      | LoopExit.aborted s2 m => (s2, Except.error (Error.OtpRequired m))
      | LoopExit.finished s2 _res =>
        let ck := bytesOfDigest (cryptoKeyDigest s1.username password iter)
        ({ s2 with crypto_key := some ⟨ck, ck.length⟩ }, Except.ok ())

/-- The both-present-or-both-absent session invariant of the spec. -/
def sessionInv (s : Session) : Prop :=
  s.session_id.isSome = s.session_token.isSome

/-- One HTTPS POST exchange as the curl transport sees it: either the
transfer itself fails (DNS, connect, TLS, I/O — `curl::Error`), or an
HTTP response with a status code and body bytes arrives. -/
inductive HttpExchange
  | transportError (e : Nat)
  | response (status : Nat) (body : List Nat)

/-- CURLE_HTTP_RETURNED_ERROR, the code libcurl fails a transfer with
when `CURLOPT_FAILONERROR` is set and the HTTP status is >= 400. -/
def curlHttpReturnedError : Nat := 22

/-- `http::post` (src/http.rs) applied to the outcome of the network
exchange. The request is built with `fail_on_error(true)`
(CURLOPT_FAILONERROR), so libcurl itself fails `perform()` with
CURLE_HTTP_RETURNED_ERROR for any status >= 400 — those statuses never
reach the explicit `response_code != 200` check, which therefore fires
only for non-200 statuses below 400. -/
def post (x : HttpExchange) : Except Error (List Nat) :=
  match x with
  | HttpExchange.transportError e => Except.error (Error.CurlError e)
  | HttpExchange.response status body =>
    if 400 ≤ status then Except.error (Error.CurlError curlHttpReturnedError)
    else if status ≠ 200 then Except.error (Error.HttpError status)
    else Except.ok body

/-- One certificate of the verified chain, reduced to what
`verify_pinned_certificate` reads from it: the DER encoding of its public
key when both `public_key()` and `public_key_to_der()` succeed. -/
structure X509Cert where
  pkeyDer : Option (List Nat)

/-- The base64 alphabet (RFC 4648). -/
def b64Alphabet : List Char :=
  ['A','B','C','D','E','F','G','H','I','J','K','L','M','N','O','P','Q','R','S','T','U','V','W','X','Y','Z',
   'a','b','c','d','e','f','g','h','i','j','k','l','m','n','o','p','q','r','s','t','u','v','w','x','y','z',
   '0','1','2','3','4','5','6','7','8','9','+','/']

/-- One base64 digit. -/
def b64Char (n : Nat) : Char := b64Alphabet.getD n 'A'

/-- Standard base64 encoding with padding (the `base64::encode` call of
src/http.rs). -/
def base64Encode : List Nat → String
  | b0 :: b1 :: b2 :: rest =>
    String.mk [b64Char (b0 / 4), b64Char (b0 % 4 * 16 + b1 / 16),
               b64Char (b1 % 16 * 4 + b2 / 64), b64Char (b2 % 64)] ++ base64Encode rest
  | [b0, b1] =>
    String.mk [b64Char (b0 / 4), b64Char (b0 % 4 * 16 + b1 / 16), b64Char (b1 % 16 * 4), '=']
  | [b0] =>
    String.mk [b64Char (b0 / 4), b64Char (b0 % 4 * 16), '=', '=']
  | [] => ""

/-- `PINNED_CERTIFICATES` (src/http.rs): base64-encoded SHA-256 digests
of the pinned public keys. -/
def PINNED_CERTIFICATES : List String :=
  ["HXXQgxueCIU5TTLHob/bPbwcKOKw6DkfsTWYHbxbqTY=",
   "lCppFqbkrlJ3EcVFAkeip0+44VaoJUymbnOaEUk7tEU=",
   "iie1VXtL7HzAMF+/PVPR9xzT80kQxdZeJ+zduCB3uj0=",
   "0hkr5YW/WE6Nq5hNTcApxpuaiwlwy5HUFiOt3Qd9VBc=",
   "8CzY4qWQKZjFDwHXTOIpsVfWkiVnrhQOJEM4Q2b2Ar4=",
   "SQAWwwYXoceSd8VNbiyxspGXEjFndkklEO2XzLMts10=",
   "qr2VCNpUi0PK80PfRyF7lFBIEU1Gzz931k03hrD+xGQ="]

/-- `verify_pinned_certificate` (src/http.rs): reject immediately when
the standard chain validation failed (`preverify_ok = false`) or when no
chain is available; otherwise accept exactly when some certificate of the
chain has an extractable public key whose DER encoding hashes (SHA-256,
base64) to a pinned value. -/
def verify_pinned_certificate (preverify_ok : Bool) (chain : Option (List X509Cert)) : Bool :=
  if !preverify_ok then false
  else
    match chain with
    | none => false
    | some certs =>
      certs.any fun cert =>
        match cert.pkeyDer with
        | some der => PINNED_CERTIFICATES.contains (base64Encode (sha256Bytes der))
        | none => false

/-- A concrete DOM of the shape `<response><error cause=.../></response>`
under the synthetic `[root]` element. -/
def errorDom (cause : String) : Element :=
  Element.mk "[root]" []
    [Element.mk "response" [] [Element.mk "error" [("cause", cause)] []]]

/-- An `ok` node carrying all four attributes the code requires. -/
def okNodeFull : Element :=
  Element.mk "ok"
    [("uid", "1"), ("sessionid", "S"), ("token", "T"), ("privatekeyenc", "P")] []

/-- Two byte lists are equal iff they have equal length and agree
pointwise on the zip — the comparison `impl PartialEq for Storage`
performs. -/
theorem lenZipAllEqIff (xs ys : List Nat) :
    (xs.length == ys.length && (xs.zip ys).all fun p => p.1 == p.2) = true ↔ xs = ys := by
  induction xs generalizing ys with
  | nil => cases ys <;> simp
  | cons x xs ih =>
    cases ys with
    | nil => simp
    | cons y ys =>
      simp only [List.length_cons, List.zip_cons_cons, List.all_cons, beq_iff_eq,
        Nat.add_right_cancel_iff, Bool.and_eq_true, List.cons.injEq]
      constructor
      · rintro ⟨hl, hx, hrest⟩
        exact ⟨hx, (ih ys).mp (by simp [hl, hrest])⟩
      · rintro ⟨hx, hrest⟩
        have h := (ih ys).mpr hrest
        simp only [Bool.and_eq_true, beq_iff_eq] at h
        exact ⟨h.1, hx, h.2⟩

/-- C10. A `SecureBuffer` created with fixed capacity `n` (memory lock
succeeding) has length 0, empty readable contents, and is content-equal to
the empty buffer; and the `PartialEq` comparison of two buffers depends
only on their readable contents (the first `len` bytes), never on
capacity. -/
theorem c10_theorem (n : Nat) (a b : Storage) :
    (∃ s, Storage.with_capacity n true = Except.ok s ∧
      s.len = 0 ∧ s.contents = [] ∧ Storage.eq s Storage.empty = true) ∧
    (Storage.eq a b = true ↔ a.contents = b.contents) := by
  constructor
  · refine ⟨⟨List.replicate n 0, 0⟩, rfl, rfl, by simp [Storage.contents], ?_⟩
    simp [Storage.eq, Storage.contents, Storage.empty]
  · unfold Storage.eq
    rw [lenZipAllEqIff]

/-- C6 counterexample. An HTTP 404 response does not produce
`HttpError 404`: because the transport sets `fail_on_error(true)`,
libcurl fails the transfer itself and `post` reports the transport-level
`CurlError` (CURLE_HTTP_RETURNED_ERROR), contradicting the claim that
every non-200 status yields the distinct `HttpStatus(code)` failure. -/
theorem c6_counterexample :
    post (HttpExchange.response 404 []) = Except.error (Error.CurlError 22) ∧
    post (HttpExchange.response 404 []) ≠ Except.error (Error.HttpError 404) := by
  constructor
  · rfl
  · intro h
    rw [show post (HttpExchange.response 404 []) = Except.error (Error.CurlError 22) from rfl] at h
    simp at h

/-- C6 as amended. The transport returns the body exactly for status 200;
a non-200 status below 400 yields the distinct `HttpError(code)`; a status
of 400 or above is failed by libcurl itself (`fail_on_error(true)`) and
surfaces as the transport-level `CurlError`, as does every genuine
transport failure. -/
theorem c6_theorem (status : Nat) (body : List Nat) (e : Nat) :
    post (HttpExchange.transportError e) = Except.error (Error.CurlError e) ∧
    post (HttpExchange.response status body) =
      (if status = 200 then Except.ok body
       else if status < 400 then Except.error (Error.HttpError status)
       else Except.error (Error.CurlError curlHttpReturnedError)) := by
  refine ⟨rfl, ?_⟩
  unfold post
  rcases Nat.lt_or_ge status 400 with h | h
  · rcases eq_or_ne status 200 with h2 | h2
    · simp [h2]
    · simp [h2, h, Nat.not_le.mpr h]
  · have h2 : status ≠ 200 := by omega
    simp [h2, h, Nat.not_lt.mpr h]

/-- C9. The pinned list has exactly 7 entries, and the pinning verifier
accepts precisely when standard verification passed, a chain is present,
and some certificate of the chain has an extractable public key whose
DER encoding has a base64-encoded SHA-256 digest equal to a pinned entry;
in particular it rejects on upstream failure, on an absent or empty
chain, and when no certificate matches. -/
theorem c9_theorem (pv : Bool) (chain : Option (List X509Cert)) :
    PINNED_CERTIFICATES.length = 7 ∧
    (verify_pinned_certificate pv chain = true ↔
      pv = true ∧ ∃ certs, chain = some certs ∧ ∃ cert ∈ certs, ∃ der,
        cert.pkeyDer = some der ∧
        base64Encode (sha256Bytes der) ∈ PINNED_CERTIFICATES) := by
  refine ⟨rfl, ?_⟩
  unfold verify_pinned_certificate
  cases pv with
  | false => simp
  | true =>
    simp only [Bool.not_true, Bool.false_eq_true, if_false, true_and]
    cases chain with
    | none => simp
    | some certs =>
      simp only [Option.some.injEq, List.any_eq_true]
      constructor
      · rintro ⟨cert, hmem, hc⟩
        refine ⟨certs, rfl, cert, hmem, ?_⟩
        cases hder : cert.pkeyDer with
        | none => rw [hder] at hc; exact absurd hc (by simp)
        | some der =>
          rw [hder] at hc
          exact ⟨der, rfl, by simpa using hc⟩
      · rintro ⟨certs2, heq, cert, hmem, der, hder, hpin⟩
        cases heq
        exact ⟨cert, hmem, by simp [hder, hpin]⟩

/-- C7. A reply whose tree has no `response/ok` but a `response/error`
with a `cause` attribute makes the login attempt fail with exactly the
mapped error: `unknownpassword` → `InvalidPassword` (the spec's
`InvalidCredentials`), the three OTP cause pairs → `OtpRequired` of the
respective method, and any cause outside the handled table →
`BadProtocol` (the spec's `ProtocolError`) whose message carries the
cause string verbatim; the mapping is total, so no cause can crash. -/
theorem c7_theorem (s : Session) (lockOk : Nat → Bool) (root errNode : Element) (cause : String)
    (h1 : domElement root ["response", "ok"] = none)
    (h2 : domElement root ["response", "error"] = some errNode)
    (h3 : errNode.attribute "cause" = some cause) :
    try_login s lockOk (Except.ok root) = (s, Except.error (causeToError cause)) ∧
    causeToError "unknownpassword" = Error.InvalidPassword ∧
    causeToError "otprequired" = Error.OtpRequired OtpMethod.YubiKey ∧
    causeToError "otpfailed" = Error.OtpRequired OtpMethod.YubiKey ∧
    causeToError "googleauthrequired" = Error.OtpRequired OtpMethod.GoogleAuthenticator ∧
    causeToError "googleauthfailed" = Error.OtpRequired OtpMethod.GoogleAuthenticator ∧
    causeToError "sesameotprequired" = Error.OtpRequired OtpMethod.Sesame ∧
    causeToError "sesameotpfailed" = Error.OtpRequired OtpMethod.Sesame ∧
    (cause ∉ handledCauses → causeToError cause = Error.BadProtocol ("Unknown error: " ++ cause)) := by
  refine ⟨?_, rfl, rfl, rfl, rfl, rfl, rfl, rfl, ?_⟩
  · unfold try_login
    simp only [h1, h2, h3]
  · intro hmem
    simp only [handledCauses, List.mem_cons, List.not_mem_nil, or_false, not_or] at hmem
    obtain ⟨n1, n2, n3, n4, n5, n6, n7, n8, n9, n10, n11⟩ := hmem
    simp [causeToError, n1, n2, n3, n4, n5, n6, n7, n8, n9, n10, n11]

/-- Witness for C7 at the unrecognized cause `weirdcause`. -/
theorem c7_witness :
    try_login (Session.new "bob") (fun _ => true) (Except.ok (errorDom "weirdcause")) =
      (Session.new "bob", Except.error (causeToError "weirdcause")) ∧
    causeToError "weirdcause" = Error.BadProtocol ("Unknown error: " ++ "weirdcause") := by
  refine ⟨?_, ?_⟩
  · exact (c7_theorem (Session.new "bob") (fun _ => true) (errorDom "weirdcause")
      (Element.mk "error" [("cause", "weirdcause")] []) "weirdcause"
      (by rfl) (by rfl) (by rfl)).1
  · exact (c7_theorem (Session.new "bob") (fun _ => true) (errorDom "weirdcause")
      (Element.mk "error" [("cause", "weirdcause")] []) "weirdcause"
      (by rfl) (by rfl) (by rfl)).2.2.2.2.2.2.2.2 (by decide)

/-- `Char.ofNat` of a valid scalar value decodes back to the same
value. -/
theorem toNat_ofNat_valid (n : Nat) (h : n.isValidChar) : (Char.ofNat n).toNat = n := by
  rw [Char.ofNat, dif_pos h]
  rfl

/-- `Char.ofNat` of an ASCII code decodes back to the same code. -/
theorem toNat_ofNat_ascii (b : Nat) (hb : b < 128) : (Char.ofNat b).toNat = b :=
  toNat_ofNat_valid b (Or.inl (by omega))

/-- `Char.isDigit` of an ASCII character agrees with the byte-level
digit-range check. -/
theorem isDigit_ofNat_ascii (b : Nat) (hb : b < 128) :
    (Char.ofNat b).isDigit = (48 ≤ b && b ≤ 57) := by
  interval_cases b <;> decide

/-- `Char.ofNat` of an ASCII code equals `+` exactly at 43. -/
theorem ofNat_eq_plus_ascii (b : Nat) (hb : b < 128) :
    Char.ofNat b = '+' ↔ b = 43 := by
  constructor
  · intro h
    have := congrArg Char.toNat h
    rwa [toNat_ofNat_ascii b hb] at this
  · rintro rfl
    decide

/-- A character at code point 128 or above is not a digit. -/
theorem isDigit_false_of_high (c : Char) (h : 128 ≤ c.toNat) : c.isDigit = false := by
  by_contra hcon
  rw [Bool.not_eq_false, Char.isDigit, Bool.and_eq_true, decide_eq_true_eq, decide_eq_true_eq] at hcon
  have := UInt32.toNat_le_of_le (n := c.val) (m := 57) (by decide) hcon.2
  rw [show c.val.toNat = c.toNat from rfl] at this
  omega

/-- An all-ASCII byte list decodes to exactly its bytes as characters. -/
theorem utf8Decode_ascii (body : List Nat) (h : ∀ b ∈ body, b < 128) :
    utf8Decode body = some (body.map Char.ofNat) := by
  unfold utf8Decode
  induction body with
  | nil => rfl
  | cons b rest ih =>
    have hb : b < 128 := h b (List.mem_cons_self b rest)
    have hrest := ih fun x hx => h x (List.mem_cons_of_mem b hx)
    simp only [List.length_cons]
    rw [utf8DecodeGo, if_pos hb, hrest]
    rfl

/-- Under the decode guards, every multi-byte scalar value is a valid
code point at or above 128. -/
theorem utf8CharVal_high (b : Nat) (conts : List Nat)
    (hok : utf8ContOk b conts = true) :
    (utf8CharVal b conts).isValidChar ∧ 128 ≤ utf8CharVal b conts := by
  rw [utf8ContOk.eq_def] at hok
  simp only [Bool.and_eq_true, beq_iff_eq] at hok
  obtain ⟨⟨hlen, hall⟩, hfirst⟩ := hok
  unfold Nat.isValidChar
  by_cases h2 : 194 ≤ b ∧ b ≤ 223
  · have hk : utf8LeadLen b = 2 := by simp [utf8LeadLen, h2.1, h2.2]
    rw [hk] at hlen
    rcases conts with _ | ⟨c1, _ | ⟨c2, t⟩⟩
    · simp at hlen
    · simp only [List.all_cons, List.all_nil, Bool.and_true, Bool.and_eq_true,
        decide_eq_true_eq] at hall
      simp [utf8CharVal, hk]
      omega
    · simp at hlen
  · by_cases h3 : 224 ≤ b ∧ b ≤ 239
    · have hk : utf8LeadLen b = 3 := by
        simp only [utf8LeadLen, Bool.and_eq_true, decide_eq_true_eq]
        rw [if_neg (by omega), if_pos (by exact ⟨by simp [h3.1], by simp [h3.2]⟩)]
      rw [hk] at hlen
      rcases conts with _ | ⟨c1, _ | ⟨c2, _ | ⟨c3, t⟩⟩⟩
      · simp at hlen
      · simp at hlen
      · simp only [List.all_cons, List.all_nil, Bool.and_true, Bool.and_eq_true,
          decide_eq_true_eq] at hall
        simp only [Bool.and_eq_true, Bool.or_eq_true, bne_iff_ne, ne_eq,
          decide_eq_true_eq] at hfirst
        simp [utf8CharVal, hk]
        obtain ⟨⟨hc1a, hc1b⟩, hc2a, hc2b⟩ := hall
        omega
      · simp at hlen
    · by_cases h4 : 240 ≤ b ∧ b ≤ 244
      · have hk : utf8LeadLen b = 4 := by
          simp only [utf8LeadLen, Bool.and_eq_true, decide_eq_true_eq]
          rw [if_neg (by omega), if_neg (by omega),
            if_pos (by exact ⟨by simp [h4.1], by simp [h4.2]⟩)]
        rw [hk] at hlen
        rcases conts with _ | ⟨c1, _ | ⟨c2, _ | ⟨c3, _ | ⟨c4, t⟩⟩⟩⟩
        · simp at hlen
        · simp at hlen
        · simp at hlen
        · simp only [List.all_cons, List.all_nil, Bool.and_true, Bool.and_eq_true,
            decide_eq_true_eq] at hall
          simp only [Bool.and_eq_true, Bool.or_eq_true, bne_iff_ne, ne_eq,
            decide_eq_true_eq] at hfirst
          simp [utf8CharVal, hk]
          obtain ⟨⟨hc1a, hc1b⟩, ⟨hc2a, hc2b⟩, hc3a, hc3b⟩ := hall
          omega
        · simp at hlen
      · have hk : utf8LeadLen b = 0 := by
          simp only [utf8LeadLen, Bool.and_eq_true, decide_eq_true_eq]
          rw [if_neg (by omega), if_neg (by omega), if_neg (by omega)]
        rw [hk] at hlen
        omega

/-- A successful decoding loop run on a byte list containing a byte at or
above 128 produces some character at or above 128: the high byte is
either a multi-byte lead itself or consumed by one, and every multi-byte
sequence decodes above 127. -/
theorem utf8DecodeGo_high (fuel : Nat) (body : List Nat) :
    ∀ cs, utf8DecodeGo fuel body = some cs → (∃ b ∈ body, 128 ≤ b) →
      ∃ c ∈ cs, 128 ≤ c.toNat := by
  induction fuel, body using utf8DecodeGo.induct with
  | case1 fuel =>
    rintro cs _ ⟨b, hb, _⟩
    exact absurd hb (List.not_mem_nil b)
  | case2 b rest =>
    intro cs hd
    exact absurd hd (by simp [utf8DecodeGo])
  | case3 fuel b rest hb ih =>
    rintro cs hd ⟨x, hx, hxh⟩
    rw [utf8DecodeGo, if_pos hb] at hd
    obtain ⟨cs2, hcs2, rfl⟩ := Option.map_eq_some'.mp hd
    rcases List.mem_cons.mp hx with rfl | hx2
    · omega
    · obtain ⟨c, hc, hch⟩ := ih cs2 hcs2 ⟨x, hx2, hxh⟩
      exact ⟨c, List.mem_cons_of_mem _ hc, hch⟩
  | case4 fuel b rest hb k hk =>
    intro cs hd
    rw [utf8DecodeGo, if_neg hb] at hd
    rw [if_pos (show utf8LeadLen b = 0 from hk)] at hd
    exact absurd hd (by simp)
  | case5 fuel b rest hb k hk conts hok ih =>
    intro cs hd _
    rw [utf8DecodeGo, if_neg hb] at hd
    rw [if_neg (show ¬ utf8LeadLen b = 0 from hk),
      if_pos (show utf8ContOk b (List.take (utf8LeadLen b - 1) rest) = true from hok)] at hd
    obtain ⟨cs2, _, rfl⟩ := Option.map_eq_some'.mp hd
    obtain ⟨hvalid, hhigh⟩ := utf8CharVal_high b _
      (show utf8ContOk b (List.take (utf8LeadLen b - 1) rest) = true from hok)
    refine ⟨Char.ofNat (utf8CharVal b (List.take (utf8LeadLen b - 1) rest)),
      List.mem_cons_self _ _, ?_⟩
    rw [toNat_ofNat_valid _ hvalid]
    exact hhigh
  | case6 fuel b rest hb k hk conts hok =>
    intro cs hd
    rw [utf8DecodeGo, if_neg hb] at hd
    rw [if_neg (show ¬ utf8LeadLen b = 0 from hk),
      if_neg (show ¬ utf8ContOk b (List.take (utf8LeadLen b - 1) rest) = true from hok)] at hd
    exact absurd hd (by simp)

/-- A successful decode of a byte list containing a byte at or above 128
produces some character at or above 128. -/
theorem utf8Decode_high (body : List Nat) (cs : List Char)
    (hd : utf8Decode body = some cs) (hhigh : ∃ b ∈ body, 128 ≤ b) :
    ∃ c ∈ cs, 128 ≤ c.toNat :=
  utf8DecodeGo_high body.length body cs hd hhigh

/-- A byte list containing a byte at or above 128 is not a decimal
number at the byte level. -/
theorem specDecimalU32_none_of_high (body : List Nat)
    (h : ∃ b ∈ body, 128 ≤ b) : specDecimalU32 body = none := by
  obtain ⟨x, hx, hxh⟩ := h
  simp only [specDecimalU32]
  have hxds : (if body.head? = some 43 then body.tail else body).all
      (fun b => 48 ≤ b && b ≤ 57) = false := by
    rw [Bool.eq_false_iff]
    intro hall
    rw [List.all_eq_true] at hall
    have hxin : x ∈ (if body.head? = some 43 then body.tail else body) := by
      split
      · next hh =>
        cases body with
        | nil => exact absurd hx (List.not_mem_nil x)
        | cons y t =>
          simp only [List.head?_cons, Option.some.injEq] at hh
          subst hh
          rcases List.mem_cons.mp hx with rfl | h2
          · omega
          · exact h2
      · exact hx
    have := hall x hxin
    simp only [Bool.and_eq_true, decide_eq_true_eq] at this
    omega
  rw [hxds]
  simp

/-- A character string containing a character at or above 128 does not
parse as a u32. -/
theorem u32FromStr_none_of_high (cs : List Char)
    (h : ∃ c ∈ cs, 128 ≤ c.toNat) : u32FromStr (String.mk cs) = none := by
  obtain ⟨x, hx, hxh⟩ := h
  simp only [u32FromStr]
  have hxds : (if (String.mk cs).data.head? = some '+' then (String.mk cs).data.tail
      else (String.mk cs).data).all (fun c => c.isDigit) = false := by
    rw [Bool.eq_false_iff]
    intro hall
    rw [List.all_eq_true] at hall
    have hxin : x ∈ (if (String.mk cs).data.head? = some '+' then (String.mk cs).data.tail
        else (String.mk cs).data) := by
      split
      · next hh =>
        show x ∈ cs.tail
        cases cs with
        | nil => exact absurd hx (List.not_mem_nil x)
        | cons y t =>
          simp only [show (String.mk (y :: t)).data = y :: t from rfl, List.head?_cons,
            Option.some.injEq] at hh
          subst hh
          rcases List.mem_cons.mp hx with rfl | h2
          · exact absurd hxh (by decide)
          · exact h2
      · exact hx
    have := hall x hxin
    rw [isDigit_false_of_high x hxh] at this
    exact absurd this (by simp)
  rw [hxds]
  simp

/-- Digit test commutes with `Char.ofNat` over an ASCII byte list. -/
theorem allDigit_map_ofNat (ds : List Nat) (h : ∀ b ∈ ds, b < 128) :
    (ds.map Char.ofNat).all (fun c => c.isDigit) =
      ds.all (fun b => 48 ≤ b && b ≤ 57) := by
  induction ds with
  | nil => rfl
  | cons b t ih =>
    simp only [List.map_cons, List.all_cons]
    rw [isDigit_ofNat_ascii b (h b (List.mem_cons_self b t)),
      ih fun x hx => h x (List.mem_cons_of_mem b hx)]

/-- On an all-ASCII byte list, parsing the decoded string as a u32 agrees
with the byte-level decimal reading. -/
theorem u32FromStr_map_ofNat (bs : List Nat) (h : ∀ b ∈ bs, b < 128) :
    u32FromStr (String.mk (bs.map Char.ofNat)) = specDecimalU32 bs := by
  unfold u32FromStr specDecimalU32
  have hdata : (String.mk (bs.map Char.ofNat)).data = bs.map Char.ofNat := rfl
  rw [hdata]
  have hhead : (bs.map Char.ofNat).head? = some '+' ↔ bs.head? = some 43 := by
    cases bs with
    | nil => simp
    | cons b t =>
      simp only [List.map_cons, List.head?_cons, Option.some.injEq]
      exact ofNat_eq_plus_ascii b (h b (List.mem_cons_self b t))
  have key : ∀ ds : List Nat, (∀ b ∈ ds, b < 128) →
      (if (ds.map Char.ofNat).isEmpty then none
       else if (ds.map Char.ofNat).all (fun c => c.isDigit) then
         if (ds.map Char.ofNat).foldl (fun a c => a * 10 + (c.toNat - 48)) 0 < 4294967296 then
           some ((ds.map Char.ofNat).foldl (fun a c => a * 10 + (c.toNat - 48)) 0)
         else none
       else none) =
      (if ds.isEmpty then none
       else if ds.all (fun b => 48 ≤ b && b ≤ 57) then
         if ds.foldl (fun a b => a * 10 + (b - 48)) 0 < 4294967296 then
           some (ds.foldl (fun a b => a * 10 + (b - 48)) 0)
         else none
       else none) := by
    intro ds hds
    have hemp : (ds.map Char.ofNat).isEmpty = ds.isEmpty := by
      cases ds <;> simp
    have hfold : (ds.map Char.ofNat).foldl (fun a c => a * 10 + (c.toNat - 48)) 0 =
        ds.foldl (fun a b => a * 10 + (b - 48)) 0 := by
      rw [List.foldl_map]
      exact List.foldl_ext _ _ 0 fun a b hb => by
        rw [toNat_ofNat_ascii b (hds b hb)]
    rw [hemp, hfold, allDigit_map_ofNat ds hds]
  by_cases hp : bs.head? = some 43
  · rw [if_pos (hhead.mpr hp), if_pos hp]
    cases bs with
    | nil => simp at hp
    | cons b t =>
      show (if (t.map Char.ofNat).isEmpty then none else _) = _
      exact key t fun x hx => h x (List.mem_cons_of_mem b hx)
  · rw [if_neg (fun hc => hp (hhead.mp hc)), if_neg hp]
    exact key bs h

/-- C4 counterexample. The response body `"0"` (byte 48) parses
successfully as 0: the code accepts any decimal u32, so a body of `"0"`
does not fail with `MalformedResponse` as the claim demands. -/
theorem c4_counterexample : server_iterations [48] = Except.ok 0 := by
  decide

/-- C4 as amended. The iteration fetch succeeds exactly when the body is
a decimal u32 — an optional ASCII `+`, then digits, value below 2^32,
zero included — returning that value; otherwise it fails with
`BadProtocol` ("Non-UTF8 string received" when the body is not UTF-8,
"Integer conversion failed" when it decodes but is not such a number). -/
theorem c4_theorem (body : List Nat) :
    server_iterations body =
      match specDecimalU32 body with
      | some n => Except.ok n
      | none =>
        Except.error (Error.BadProtocol
          (if utf8Decode body = none then "Non-UTF8 string received"
           else "Integer conversion failed")) := by
  by_cases hall : ∀ b ∈ body, b < 128
  · have hdec := utf8Decode_ascii body hall
    unfold server_iterations
    rw [hdec]
    show (match u32FromStr (String.mk (body.map Char.ofNat)) with
      | none => Except.error (Error.BadProtocol "Integer conversion failed")
      | some n => Except.ok n) = _
    rw [u32FromStr_map_ofNat body hall]
    cases hs : specDecimalU32 body with
    | some n => rfl
    | none => simp
  · have hhigh : ∃ b ∈ body, 128 ≤ b := by
      push_neg at hall
      obtain ⟨b, hb, hble⟩ := hall
      exact ⟨b, hb, by omega⟩
    have hspec := specDecimalU32_none_of_high body hhigh
    unfold server_iterations
    cases hdec : utf8Decode body with
    | none => rw [hspec]; simp
    | some cs =>
      have hstr := u32FromStr_none_of_high cs (utf8Decode_high body cs hdec hhigh)
      simp [hstr, hspec]

/-- C3 counterexample. A reply carrying `uid`, `sessionid` and `token`
but no `privatekeyenc` fails (the code requires the private-key blob the
claim says is optional and ignored); and a reply carrying all four
attributes with a non-numeric `uid` also fails, although the claim says
any reply with the three attributes succeeds. -/
theorem c3_counterexample :
    (finalize_login (Session.new "bob") (fun _ => true)
      (Element.mk "ok" [("uid", "1"), ("sessionid", "S"), ("token", "T")] [])).2 =
      Except.error (Error.BadProtocol "Missing XML attribute privatekeyenc") ∧
    (finalize_login (Session.new "bob") (fun _ => true)
      (Element.mk "ok"
        [("uid", "x"), ("sessionid", "S"), ("token", "T"), ("privatekeyenc", "P")] [])).2 =
      Except.error (Error.BadProtocol "Integer conversion failed") := by
  exact ⟨by decide, by decide⟩

/-- C3 as amended. With memory locks succeeding, finalization succeeds
exactly when the reply carries all four attributes `uid`, `sessionid`,
`token` and `privatekeyenc` and `uid` parses as a u32; every failure is a
`BadProtocol` error. -/
theorem c3_theorem (s : Session) (lockOk : Nat → Bool) (node : Element)
    (hl : ∀ n, lockOk n = true) :
    ((finalize_login s lockOk node).2 = Except.ok () ↔
      ∃ uid n, node.attribute "uid" = some uid ∧ u32FromStr uid = some n ∧
        (node.attribute "sessionid").isSome ∧ (node.attribute "token").isSome ∧
        (node.attribute "privatekeyenc").isSome) ∧
    ((finalize_login s lockOk node).2 ≠ Except.ok () →
      ∃ msg, (finalize_login s lockOk node).2 = Except.error (Error.BadProtocol msg)) := by
  unfold finalize_login
  cases h1 : node.attribute "uid" with
  | none => simp [h1]
  | some uid =>
    cases h2 : node.attribute "sessionid" with
    | none => simp [h2]
    | some sid =>
      cases h3 : node.attribute "token" with
      | none => simp [h3]
      | some tok =>
        cases h4 : node.attribute "privatekeyenc" with
        | none => simp [h4]
        | some pke =>
          cases h5 : u32FromStr uid with
          | none => simp [h5]
          | some u =>
            rw [hl 0, hl 1]
            simp only [Storage.from_vec, Storage.from_buf, if_pos rfl]
            simp [h5]

/-- Witness for C3: a reply with all four attributes and numeric uid
finalizes successfully under an always-succeeding lock oracle. -/
theorem c3_witness :
    (finalize_login (Session.new "bob") (fun _ => true) okNodeFull).2 = Except.ok () := by
  refine ((c3_theorem (Session.new "bob") (fun _ => true) okNodeFull fun _ => rfl).1).mpr ?_
  exact ⟨"1", 1, by decide, by decide, by decide, by decide, by decide⟩

/-- C2 counterexample. When the memory lock succeeds for the session-id
buffer but fails for the token buffer, `finalize_login` returns with
`session_id` set and `session_token` absent: the two fields are not set
atomically and the both-or-neither invariant is broken on the resulting
session. -/
theorem c2_counterexample :
    ((finalize_login (Session.new "bob") (fun n => n == 0) okNodeFull).1.session_id).isSome = true ∧
    (finalize_login (Session.new "bob") (fun n => n == 0) okNodeFull).1.session_token = none ∧
    (finalize_login (Session.new "bob") (fun n => n == 0) okNodeFull).2 =
      Except.error (Error.IoError 0) ∧
    ¬ sessionInv (finalize_login (Session.new "bob") (fun n => n == 0) okNodeFull).1 := by
  refine ⟨rfl, rfl, rfl, fun h => ?_⟩
  rw [sessionInv] at h
  revert h
  decide

/-- With all locks succeeding, `finalize_login` preserves the
both-or-neither invariant: it either fails before touching the two
session fields or sets both. -/
theorem inv_finalize (s : Session) (lockOk : Nat → Bool) (node : Element)
    (hl : ∀ n, lockOk n = true) (hinv : sessionInv s) :
    sessionInv (finalize_login s lockOk node).1 := by
  unfold finalize_login
  cases h1 : node.attribute "uid" with
  | none => simp only [h1]; exact hinv
  | some uid =>
    simp only [h1]
    cases h2 : node.attribute "sessionid" with
    | none => simp only [h2]; exact hinv
    | some sid =>
      simp only [h2]
      cases h3 : node.attribute "token" with
      | none => simp only [h3]; exact hinv
      | some tok =>
        simp only [h3]
        cases h4 : node.attribute "privatekeyenc" with
        | none => simp only [h4]; exact hinv
        | some pke =>
          simp only [h4]
          cases h5 : u32FromStr uid with
          | none => simp only [h5]; exact hinv
          | some u =>
            simp only [h5]
            rw [hl 0, hl 1]
            simp only [Storage.from_vec, Storage.from_buf, if_pos rfl]
            rfl

/-- With all locks succeeding, one `try_login` round preserves the
both-or-neither invariant. -/
theorem inv_try_login (s : Session) (lockOk : Nat → Bool) (resp : Except Error Element)
    (hl : ∀ n, lockOk n = true) (hinv : sessionInv s) :
    sessionInv (try_login s lockOk resp).1 := by
  cases resp with
  | error e => exact hinv
  | ok root =>
    simp only [try_login]
    cases hok : domElement root ["response", "ok"] with
    | some okNode => simp only [hok]; exact inv_finalize s lockOk okNode hl hinv
    | none =>
      simp only [hok]
      cases herr : domElement root ["response", "error"] with
      | some errNode =>
        simp only [herr]
        cases hc : errNode.attribute "cause" with
        | some cause => simp only [hc]; exact hinv
        | none => simp only [hc]; exact hinv
      | none => simp only [herr]; exact hinv

/-- With all locks succeeding, the OTP retry loop preserves the
both-or-neither invariant. -/
theorem inv_loginRounds (responses : List (Except Error Element)) :
    ∀ (s : Session) (lockOk : Nat → Bool) (otps : List (Option (List Nat))),
      (∀ n, lockOk n = true) → sessionInv s →
      sessionInv (match loginRounds s lockOk responses otps with
        | LoopExit.aborted s2 _ => s2
        | LoopExit.finished s2 _ => s2) := by
  induction responses with
  | nil =>
    intro s lockOk otps hl hinv
    exact hinv
  | cons r rs ih =>
    intro s lockOk otps hl hinv
    rw [loginRounds]
    have hnext := inv_try_login s lockOk r hl hinv
    rcases htl : try_login s lockOk r with ⟨s1, res⟩
    rw [htl] at hnext
    match res with
    | Except.error (Error.OtpRequired m) =>
      match otps with
      | [] => exact hnext
      | none :: _ => exact hnext
      | some o :: otps2 => exact ih s1 lockOk otps2 hl hnext
    | Except.ok () => exact hnext
    | Except.error Error.BadUsage => exact hnext
    | Except.error Error.UserAbort => exact hnext
    | Except.error Error.InvalidPassword => exact hnext
    | Except.error Error.InvalidUser => exact hnext
    | Except.error (Error.IoError e) => exact hnext
    | Except.error (Error.CurlError e) => exact hnext
    | Except.error (Error.OpensslError e) => exact hnext
    | Except.error (Error.HttpError e) => exact hnext
    | Except.error (Error.BadProtocol m) => exact hnext
    | Except.error (Error.Unsupported m) => exact hnext
    | Except.error (Error.XmlError e) => exact hnext

/-- C2 as amended. A fresh session satisfies the both-or-neither
invariant; `is_authenticated` holds exactly when both fields are present;
and provided every memory lock succeeds, a whole `login` run — through
any number of OTP rounds, finalizations and failures — preserves the
invariant. Without that proviso the invariant is violated
(`c2_counterexample`). -/
theorem c2_theorem (u : String) (s : Session) (password iterBody : List Nat)
    (responses : List (Except Error Element)) (otps : List (Option (List Nat)))
    (lockOk : Nat → Bool) (hl : ∀ n, lockOk n = true) (hinv : sessionInv s) :
    sessionInv (Session.new u) ∧
    (s.is_authenticated = true ↔ (s.session_id.isSome ∧ s.session_token.isSome)) ∧
    sessionInv (login s password iterBody responses otps lockOk).1 := by
  refine ⟨rfl, ?_, ?_⟩
  · rw [Session.is_authenticated, Bool.and_eq_true]
  · unfold login
    cases hit : s.iterationsOp iterBody with
    | mk s1 r =>
      have hinv1 : sessionInv s1 := by
        revert hit
        unfold Session.iterationsOp
        cases s.iterations with
        | some i => intro hit; cases hit; exact hinv
        | none =>
          cases server_iterations iterBody with
          | error e => intro hit; cases hit; exact hinv
          | ok n => intro hit; cases hit; exact hinv
      cases r with
      | error e => exact hinv1
      | ok iter =>
        by_cases hlt : iter < 1000
        · simp only [if_pos hlt]
          exact hinv1
        · simp only [if_neg hlt]
          have := inv_loginRounds responses s1 lockOk otps hl hinv1
          rcases hlr : loginRounds s1 lockOk responses otps with ⟨s2, m⟩ | ⟨s2, res⟩
          · rw [hlr] at this
            exact this
          · rw [hlr] at this
            exact this

/-- Witness for C2 at a concrete failed login (bad password reply), an
always-succeeding lock oracle, and a fresh session. -/
theorem c2_witness :
    sessionInv (login (Session.new "bob") [] [53, 48, 48, 48]
      [Except.ok (errorDom "unknownpassword")] [] (fun _ => true)).1 := by
  have h := c2_theorem "bob" (Session.new "bob") [] [53, 48, 48, 48]
    [Except.ok (errorDom "unknownpassword")] [] (fun _ => true)
    (fun _ => rfl) rfl
  exact h.2.2

/-- C1. The spec requires every failure of the final login attempt to be
surfaced, but `Session::login` drops the loop result `res`: with the
server replying `<response><error cause="unknownpassword"/></response>`,
the single `try_login` attempt fails with `InvalidPassword`, yet `login`
falls through the OTP-only `while let`, stores the crypto key and
returns `Ok(())`. -/
theorem c1_login_swallows_failure :
    LoopExit.result (loginRounds ⟨"bob", "lastpass.com", some 5000, none, none, none, none⟩
      (fun _ => true) [Except.ok (errorDom "unknownpassword")] []) =
      Except.error Error.InvalidPassword ∧
    (login (Session.new "bob") [] [53, 48, 48, 48]
      [Except.ok (errorDom "unknownpassword")] [] (fun _ => true)).2 = Except.ok () := by
  exact ⟨by decide, by decide⟩


/-- Safety of the `do_parse` stack loop, generalized over the element
stack and the reader's open-element stack: whenever the names on the
parser's stack are exactly the reader's open elements over `[root]` and
the remaining stream respects the reader's contract, the loop never
crashes, and a stream holding a reader error ends in a propagated
error. -/
theorem do_parse_go_safe (items : List SaxItem) :
    ∀ stack opens, stack.map Element.name = opens ++ ["[root]"] →
      saxBalanced opens items = true →
      do_parse_go stack items ≠ ParseOutcome.crash ∧
      (hasSaxError items = true →
        ∃ e, do_parse_go stack items = ParseOutcome.error e) := by
  induction items with
  | nil =>
    intro stack opens hmap hbal
    simp only [saxBalanced, List.isEmpty_iff] at hbal
    subst hbal
    match stack, hmap with
    | [root], _ =>
      refine ⟨?_, ?_⟩
      · simp [do_parse_go]
      · intro h
        simp [hasSaxError] at h
    | e1 :: e2 :: s3, hmap =>
      exfalso
      simp at hmap
  | cons i rest ih =>
    intro stack opens hmap hbal
    match i with
    | SaxItem.err e =>
      refine ⟨?_, ?_⟩
      · simp [do_parse_go]
      · intro _
        exact ⟨e, by simp [do_parse_go]⟩
    | SaxItem.ok (SaxEvent.startElement n attrs) =>
      simp only [saxBalanced] at hbal
      have hnext := ih (Element.mk n attrs [] :: stack) (n :: opens)
        (by simp [hmap, Element.name]) hbal
      refine ⟨?_, ?_⟩
      · simpa only [do_parse_go] using hnext.1
      · intro h
        simp only [hasSaxError, List.any_cons, Bool.or_eq_true] at h
        rcases h with h | h
        · simp at h
        · simpa only [do_parse_go] using hnext.2 (by simpa [hasSaxError] using h)
    | SaxItem.ok (SaxEvent.endElement n) =>
      match opens, hbal with
      | o :: os, hbal =>
        simp only [saxBalanced, Bool.and_eq_true, beq_iff_eq] at hbal
        obtain ⟨hon, hbal2⟩ := hbal
        match stack, hmap with
        | elem :: parent :: stack3, hmap =>
          simp only [List.map_cons, List.cons_append, List.cons.injEq] at hmap
          obtain ⟨hen, hpn⟩ := hmap
          have hnext := ih
            (Element.mk parent.name parent.attributes (parent.children ++ [elem]) :: stack3)
            os (by simpa [Element.name] using hpn) hbal2
          have hname : (elem.name ≠ n) = False := by
            simp [hen, hon]
          refine ⟨?_, ?_⟩
          · simpa only [do_parse_go, hname, if_false] using hnext.1
          · intro h
            simp only [hasSaxError, List.any_cons, Bool.or_eq_true] at h
            rcases h with h | h
            · simp at h
            · simpa only [do_parse_go, hname, if_false] using
                hnext.2 (by simpa [hasSaxError] using h)
        | elem :: [], hmap =>
          exfalso
          cases os <;> simp_all
    | SaxItem.ok SaxEvent.other =>
      simp only [saxBalanced] at hbal
      have hnext := ih stack opens hmap hbal
      refine ⟨?_, ?_⟩
      · simpa only [do_parse_go] using hnext.1
      · intro h
        simp only [hasSaxError, List.any_cons, Bool.or_eq_true] at h
        rcases h with h | h
        · simp at h
        · simpa only [do_parse_go] using hnext.2 (by simpa [hasSaxError] using h)

/-- C8. Under the xml-rs reader contract (`saxBalanced`): on every
stream, including ones for unbalanced or truncated markup — which the
reader reports as an error item — `Dom::do_parse` never fails an
assertion or pops an empty stack, and a stream carrying a reader error
yields a propagated error (mapped to `Error::Xml`, the
`MalformedResponse` family) rather than a partial tree. -/
theorem c8_theorem (items : List SaxItem)
    (hbal : saxBalanced [] items = true) :
    do_parse items ≠ ParseOutcome.crash ∧
    (hasSaxError items = true → ∃ e, do_parse items = ParseOutcome.error e) :=
  do_parse_go_safe items [rootElem] [] (by rfl) hbal

/-- Witness for C8 at the truncated document
`<response>` (start element, then the reader's error item). -/
theorem c8_witness :
    do_parse [SaxItem.ok (SaxEvent.startElement "response" []), SaxItem.err 7] ≠
      ParseOutcome.crash ∧
    ∃ e, do_parse [SaxItem.ok (SaxEvent.startElement "response" []), SaxItem.err 7] =
      ParseOutcome.error e := by
  have h := c8_theorem [SaxItem.ok (SaxEvent.startElement "response" []), SaxItem.err 7]
    (by rfl)
  exact ⟨h.1, h.2 (by rfl)⟩

/-- Unrolling one PBKDF2 iteration. -/
theorem pbkdfIter_succ (ip op n st : Nat) :
    pbkdfIter ip op (n + 1) st = pbkdfStep ip op (pbkdfIter ip op n st) := rfl

/-- Composing PBKDF2 iteration counts. -/
theorem pbkdfIter_add (ip op a b st : Nat) :
    pbkdfIter ip op (a + b) st = pbkdfIter ip op a (pbkdfIter ip op b st) := by
  induction a with
  | zero => rw [Nat.zero_add]; rfl
  | succ a ih => rw [Nat.add_right_comm, pbkdfIter_succ, ih, pbkdfIter_succ]

/- Checkpointed evaluation of the PBKDF2 loop for the two golden fixtures:
first the `("", "", 5000)` chain (4999 loop iterations past U1), then the
`("bob", "password", 1000)` chain (999 iterations), in kernel-checked
chunks of at most 25 iterations from the initial `(U1, U1)` state. -/

theorem ckE0 : pbkdfIter 0xf454dead9725214f90daf2a0df1228ea64e5750fa3924181824a932bf8e04e32 0xd385480f7abb647737c9c5385dd824678e043a72753434b0deb82818361d45a6 20 0xf7ce0b653d2d72a4108cf5abe912ffdd777616dbbb27a70e8204f3ae2d0f6fadf7ce0b653d2d72a4108cf5abe912ffdd777616dbbb27a70e8204f3ae2d0f6fad = 0x9b00c0163c9858db3861d8cd449613220610d7de9edddb745746f737c40a7adb3382316016c67c0d64066c10aa411d5c72ae9f946ebeb26b01942a3261ca72db := by
  decide!

theorem ckE1 : pbkdfIter 0xf454dead9725214f90daf2a0df1228ea64e5750fa3924181824a932bf8e04e32 0xd385480f7abb647737c9c5385dd824678e043a72753434b0deb82818361d45a6 40 0xf7ce0b653d2d72a4108cf5abe912ffdd777616dbbb27a70e8204f3ae2d0f6fadf7ce0b653d2d72a4108cf5abe912ffdd777616dbbb27a70e8204f3ae2d0f6fad = 0x66b258d44d8eddcc36c16ba1f0498d2cb78585db1fc140c74d63f3dbad6ff592134cfc5040fe1dabb6899639071e4f992c64ebe3713350ef41cd03fe38b17a86 := by
  rw [show (40 : Nat) = 20 + 20 from rfl, pbkdfIter_add, ckE0]
  decide!

theorem ckE2 : pbkdfIter 0xf454dead9725214f90daf2a0df1228ea64e5750fa3924181824a932bf8e04e32 0xd385480f7abb647737c9c5385dd824678e043a72753434b0deb82818361d45a6 60 0xf7ce0b653d2d72a4108cf5abe912ffdd777616dbbb27a70e8204f3ae2d0f6fadf7ce0b653d2d72a4108cf5abe912ffdd777616dbbb27a70e8204f3ae2d0f6fad = 0xa8f0fa49e58aaa8dd32516686f72044aff7a2bc2b6ba6c509cc27a561437b55ffc89bb285fb395cb02fd958e4ad2b22d4204c93e8f9f8d1c05b7d739d35dff97 := by
  rw [show (60 : Nat) = 20 + 40 from rfl, pbkdfIter_add, ckE1]
  decide!

theorem ckE3 : pbkdfIter 0xf454dead9725214f90daf2a0df1228ea64e5750fa3924181824a932bf8e04e32 0xd385480f7abb647737c9c5385dd824678e043a72753434b0deb82818361d45a6 80 0xf7ce0b653d2d72a4108cf5abe912ffdd777616dbbb27a70e8204f3ae2d0f6fadf7ce0b653d2d72a4108cf5abe912ffdd777616dbbb27a70e8204f3ae2d0f6fad = 0xb25e7400055fc61f26e3dfa6773387b064479ba6542cd17e7806d9d613855606ebbb14868c433c842f2940dc09eddc3bc19d8f8876fac6017032344ff79649c3 := by
  rw [show (80 : Nat) = 20 + 60 from rfl, pbkdfIter_add, ckE2]
  decide!

theorem ckE4 : pbkdfIter 0xf454dead9725214f90daf2a0df1228ea64e5750fa3924181824a932bf8e04e32 0xd385480f7abb647737c9c5385dd824678e043a72753434b0deb82818361d45a6 100 0xf7ce0b653d2d72a4108cf5abe912ffdd777616dbbb27a70e8204f3ae2d0f6fadf7ce0b653d2d72a4108cf5abe912ffdd777616dbbb27a70e8204f3ae2d0f6fad = 0x56cc65f77db64f8eef16cdd269b7a774363ab9d5f2dea5f658fa6446c3ffe7859f587156c94cc7d6a3eaa8d667de471e364019d486d706fa705b6d1edd8e9707 := by
  rw [show (100 : Nat) = 20 + 80 from rfl, pbkdfIter_add, ckE3]
  decide!

theorem ckE5 : pbkdfIter 0xf454dead9725214f90daf2a0df1228ea64e5750fa3924181824a932bf8e04e32 0xd385480f7abb647737c9c5385dd824678e043a72753434b0deb82818361d45a6 120 0xf7ce0b653d2d72a4108cf5abe912ffdd777616dbbb27a70e8204f3ae2d0f6fadf7ce0b653d2d72a4108cf5abe912ffdd777616dbbb27a70e8204f3ae2d0f6fad = 0x963d047756d69984837e148b5b7ba38d0d64fc9a13014817174fcebfaae1db9357449187ca225b05a64b4d3e4f1351614b03782901f0d9890d7cf6147107c50a := by
  rw [show (120 : Nat) = 20 + 100 from rfl, pbkdfIter_add, ckE4]
  decide!

theorem ckE6 : pbkdfIter 0xf454dead9725214f90daf2a0df1228ea64e5750fa3924181824a932bf8e04e32 0xd385480f7abb647737c9c5385dd824678e043a72753434b0deb82818361d45a6 140 0xf7ce0b653d2d72a4108cf5abe912ffdd777616dbbb27a70e8204f3ae2d0f6fadf7ce0b653d2d72a4108cf5abe912ffdd777616dbbb27a70e8204f3ae2d0f6fad = 0xeb07bbc8293a5c56be0f56b2512fe7c6d99a486482dea980b26933e9a4fc147fc4b8bb90169a9fbbaf71e869703016a4f9c20cd264017fc2919b49afc7b59dcc := by
  rw [show (140 : Nat) = 20 + 120 from rfl, pbkdfIter_add, ckE5]
  decide!

theorem ckE7 : pbkdfIter 0xf454dead9725214f90daf2a0df1228ea64e5750fa3924181824a932bf8e04e32 0xd385480f7abb647737c9c5385dd824678e043a72753434b0deb82818361d45a6 160 0xf7ce0b653d2d72a4108cf5abe912ffdd777616dbbb27a70e8204f3ae2d0f6fadf7ce0b653d2d72a4108cf5abe912ffdd777616dbbb27a70e8204f3ae2d0f6fad = 0x193033cbb14bc99ca55246de139e66a93318fb31c85636607a31602ffcc21513eead14fa686cb8439cb4544b1328c49303eda8acf704873509fb228be72329e1 := by
  rw [show (160 : Nat) = 20 + 140 from rfl, pbkdfIter_add, ckE6]
  decide!

theorem ckE8 : pbkdfIter 0xf454dead9725214f90daf2a0df1228ea64e5750fa3924181824a932bf8e04e32 0xd385480f7abb647737c9c5385dd824678e043a72753434b0deb82818361d45a6 180 0xf7ce0b653d2d72a4108cf5abe912ffdd777616dbbb27a70e8204f3ae2d0f6fadf7ce0b653d2d72a4108cf5abe912ffdd777616dbbb27a70e8204f3ae2d0f6fad = 0x12d1fa9f006fe6b598940945612db4d67391a9ae4694c52c49440bf742fa71446ae0cafc780cf0cc5ac98367a2249182392dcc3a8327580f7aa77639041d9653 := by
  rw [show (180 : Nat) = 20 + 160 from rfl, pbkdfIter_add, ckE7]
  decide!

theorem ckE9 : pbkdfIter 0xf454dead9725214f90daf2a0df1228ea64e5750fa3924181824a932bf8e04e32 0xd385480f7abb647737c9c5385dd824678e043a72753434b0deb82818361d45a6 200 0xf7ce0b653d2d72a4108cf5abe912ffdd777616dbbb27a70e8204f3ae2d0f6fadf7ce0b653d2d72a4108cf5abe912ffdd777616dbbb27a70e8204f3ae2d0f6fad = 0x75a5830f1d449a47e8ec630364ac76a5262246a9fbb8fcb4087479f9b0baed0ef4c75d0847c17fa87dbc00175d7b955b6a7f2c716ac1601084c225d9b189624 := by
  rw [show (200 : Nat) = 20 + 180 from rfl, pbkdfIter_add, ckE8]
  decide!

theorem ckE10 : pbkdfIter 0xf454dead9725214f90daf2a0df1228ea64e5750fa3924181824a932bf8e04e32 0xd385480f7abb647737c9c5385dd824678e043a72753434b0deb82818361d45a6 220 0xf7ce0b653d2d72a4108cf5abe912ffdd777616dbbb27a70e8204f3ae2d0f6fadf7ce0b653d2d72a4108cf5abe912ffdd777616dbbb27a70e8204f3ae2d0f6fad = 0xc3cdb235679e7080b24584679333494e9be5be62b7b4489cfabc507501c4ae4b3a72a040233fc2d6439502f2adc640e249e43a504617c6d4386688018be136ba := by
  rw [show (220 : Nat) = 20 + 200 from rfl, pbkdfIter_add, ckE9]
  decide!

theorem ckE11 : pbkdfIter 0xf454dead9725214f90daf2a0df1228ea64e5750fa3924181824a932bf8e04e32 0xd385480f7abb647737c9c5385dd824678e043a72753434b0deb82818361d45a6 240 0xf7ce0b653d2d72a4108cf5abe912ffdd777616dbbb27a70e8204f3ae2d0f6fadf7ce0b653d2d72a4108cf5abe912ffdd777616dbbb27a70e8204f3ae2d0f6fad = 0x88a1f50fc95bafb7c3d3c9268abefc8f9f8e13d3545058752f604f3057763a18d6b3e1459d19efd8a9a955f6997edd0ae2dd76f9a31b03321d9328a8a99ff11e := by
  rw [show (240 : Nat) = 20 + 220 from rfl, pbkdfIter_add, ckE10]
  decide!

theorem ckE12 : pbkdfIter 0xf454dead9725214f90daf2a0df1228ea64e5750fa3924181824a932bf8e04e32 0xd385480f7abb647737c9c5385dd824678e043a72753434b0deb82818361d45a6 260 0xf7ce0b653d2d72a4108cf5abe912ffdd777616dbbb27a70e8204f3ae2d0f6fadf7ce0b653d2d72a4108cf5abe912ffdd777616dbbb27a70e8204f3ae2d0f6fad = 0x1b740f04c23f28480ab2708417f6423fc8aa894c5e97926c59a3c7d5df23612abff61a4f0f71b25449e17f435db9cd3a37077ab3404eea4372535b24c9d76483 := by
  rw [show (260 : Nat) = 20 + 240 from rfl, pbkdfIter_add, ckE11]
  decide!

theorem ckE13 : pbkdfIter 0xf454dead9725214f90daf2a0df1228ea64e5750fa3924181824a932bf8e04e32 0xd385480f7abb647737c9c5385dd824678e043a72753434b0deb82818361d45a6 280 0xf7ce0b653d2d72a4108cf5abe912ffdd777616dbbb27a70e8204f3ae2d0f6fadf7ce0b653d2d72a4108cf5abe912ffdd777616dbbb27a70e8204f3ae2d0f6fad = 0x282816d77187153b172de369245c7b21373dda20b1db15b1d6a40494d599c0f00633c7b3db5d0bbe05235364cbf1dce44babe4a221d980722c5a0ec944b144d7 := by
  rw [show (280 : Nat) = 20 + 260 from rfl, pbkdfIter_add, ckE12]
  decide!

theorem ckE14 : pbkdfIter 0xf454dead9725214f90daf2a0df1228ea64e5750fa3924181824a932bf8e04e32 0xd385480f7abb647737c9c5385dd824678e043a72753434b0deb82818361d45a6 300 0xf7ce0b653d2d72a4108cf5abe912ffdd777616dbbb27a70e8204f3ae2d0f6fadf7ce0b653d2d72a4108cf5abe912ffdd777616dbbb27a70e8204f3ae2d0f6fad = 0xdaa5636862386a7fc640958454086b80824a1157bb742ec065df49ae5ae9d4f5e584e42f0eae9d7faf16e15d8330f62435cceb88e8ef73de76e186d2fe2ecd15 := by
  rw [show (300 : Nat) = 20 + 280 from rfl, pbkdfIter_add, ckE13]
  decide!

theorem ckE15 : pbkdfIter 0xf454dead9725214f90daf2a0df1228ea64e5750fa3924181824a932bf8e04e32 0xd385480f7abb647737c9c5385dd824678e043a72753434b0deb82818361d45a6 320 0xf7ce0b653d2d72a4108cf5abe912ffdd777616dbbb27a70e8204f3ae2d0f6fadf7ce0b653d2d72a4108cf5abe912ffdd777616dbbb27a70e8204f3ae2d0f6fad = 0x34ce1bd10ad4d885b38004508cb022ab619dfa4d87281b4f5e2fe182e9710a126ba771ab1616cdb3da0664fcd610beb99ba55d2708dd16f3caffbab80787e77c := by
  rw [show (320 : Nat) = 20 + 300 from rfl, pbkdfIter_add, ckE14]
  decide!

theorem ckE16 : pbkdfIter 0xf454dead9725214f90daf2a0df1228ea64e5750fa3924181824a932bf8e04e32 0xd385480f7abb647737c9c5385dd824678e043a72753434b0deb82818361d45a6 340 0xf7ce0b653d2d72a4108cf5abe912ffdd777616dbbb27a70e8204f3ae2d0f6fadf7ce0b653d2d72a4108cf5abe912ffdd777616dbbb27a70e8204f3ae2d0f6fad = 0x8de708273ddb7ac402afdef2b79edcc3529a80e6c4418b05a0ad2c1017821e6b56be980417ab93deceb562ac4e36b398c5edcb4812e89b3e1c2193f8ab2a043d := by
  rw [show (340 : Nat) = 20 + 320 from rfl, pbkdfIter_add, ckE15]
  decide!

theorem ckE17 : pbkdfIter 0xf454dead9725214f90daf2a0df1228ea64e5750fa3924181824a932bf8e04e32 0xd385480f7abb647737c9c5385dd824678e043a72753434b0deb82818361d45a6 360 0xf7ce0b653d2d72a4108cf5abe912ffdd777616dbbb27a70e8204f3ae2d0f6fadf7ce0b653d2d72a4108cf5abe912ffdd777616dbbb27a70e8204f3ae2d0f6fad = 0x786334619dbace84f8ea2e721d0a0fea4be2a5db493b7b7426b0651042a86d40f3f85dae3dfdc4f675cf6396d2b0e4bfdd9a97d9f0f2c9569787eab7bf2b8b87 := by
  rw [show (360 : Nat) = 20 + 340 from rfl, pbkdfIter_add, ckE16]
  decide!

theorem ckE18 : pbkdfIter 0xf454dead9725214f90daf2a0df1228ea64e5750fa3924181824a932bf8e04e32 0xd385480f7abb647737c9c5385dd824678e043a72753434b0deb82818361d45a6 380 0xf7ce0b653d2d72a4108cf5abe912ffdd777616dbbb27a70e8204f3ae2d0f6fadf7ce0b653d2d72a4108cf5abe912ffdd777616dbbb27a70e8204f3ae2d0f6fad = 0xc262fa64c581f2c5be0386916c12a167ac1e451afab34604b09adba2ecdf715558ae62d246bbd3b163ee111980eef039e0108951c5ca0ce937c8c38f14ee5dd := by
  rw [show (380 : Nat) = 20 + 360 from rfl, pbkdfIter_add, ckE17]
  decide!

theorem ckE19 : pbkdfIter 0xf454dead9725214f90daf2a0df1228ea64e5750fa3924181824a932bf8e04e32 0xd385480f7abb647737c9c5385dd824678e043a72753434b0deb82818361d45a6 400 0xf7ce0b653d2d72a4108cf5abe912ffdd777616dbbb27a70e8204f3ae2d0f6fadf7ce0b653d2d72a4108cf5abe912ffdd777616dbbb27a70e8204f3ae2d0f6fad = 0x7b1dcf709140cbf88f34aeba3286d6257040186193ab60cf285daf26af056a4424a8e3295c98b336c04a82977f4f0fb60533bb62f9cd1154ea1161ee9527a6e9 := by
  rw [show (400 : Nat) = 20 + 380 from rfl, pbkdfIter_add, ckE18]
  decide!

theorem ckE20 : pbkdfIter 0xf454dead9725214f90daf2a0df1228ea64e5750fa3924181824a932bf8e04e32 0xd385480f7abb647737c9c5385dd824678e043a72753434b0deb82818361d45a6 420 0xf7ce0b653d2d72a4108cf5abe912ffdd777616dbbb27a70e8204f3ae2d0f6fadf7ce0b653d2d72a4108cf5abe912ffdd777616dbbb27a70e8204f3ae2d0f6fad = 0x13856e698a9671fbf407d2199ee4991425093542bd1bb1e89bd3fc2fd0231bcc8b64d4540433d2455c56e6f11a72fe5b2304805dcb3a10a384c8e8903d05d102 := by
  rw [show (420 : Nat) = 20 + 400 from rfl, pbkdfIter_add, ckE19]
  decide!

theorem ckE21 : pbkdfIter 0xf454dead9725214f90daf2a0df1228ea64e5750fa3924181824a932bf8e04e32 0xd385480f7abb647737c9c5385dd824678e043a72753434b0deb82818361d45a6 440 0xf7ce0b653d2d72a4108cf5abe912ffdd777616dbbb27a70e8204f3ae2d0f6fadf7ce0b653d2d72a4108cf5abe912ffdd777616dbbb27a70e8204f3ae2d0f6fad = 0x60d6bdebf5696ae0ee6dee47a31462388809205255f2c67fffebe1d390b93ad5ee97d75ee9e0c103107e03a2d8f4cc2c7592618329d4af1b654dea4f4260396 := by
  rw [show (440 : Nat) = 20 + 420 from rfl, pbkdfIter_add, ckE20]
  decide!

theorem ckE22 : pbkdfIter 0xf454dead9725214f90daf2a0df1228ea64e5750fa3924181824a932bf8e04e32 0xd385480f7abb647737c9c5385dd824678e043a72753434b0deb82818361d45a6 460 0xf7ce0b653d2d72a4108cf5abe912ffdd777616dbbb27a70e8204f3ae2d0f6fadf7ce0b653d2d72a4108cf5abe912ffdd777616dbbb27a70e8204f3ae2d0f6fad = 0x483df3af3ee0a08fdd7a0891c0d95ace67e677629aec9901f69c55eee5902846a01c0a23b6f16fd75643a0539b7ae3ae89e8e6093a0d669ebcf69798f4307144 := by
  rw [show (460 : Nat) = 20 + 440 from rfl, pbkdfIter_add, ckE21]
  decide!

theorem ckE23 : pbkdfIter 0xf454dead9725214f90daf2a0df1228ea64e5750fa3924181824a932bf8e04e32 0xd385480f7abb647737c9c5385dd824678e043a72753434b0deb82818361d45a6 480 0xf7ce0b653d2d72a4108cf5abe912ffdd777616dbbb27a70e8204f3ae2d0f6fadf7ce0b653d2d72a4108cf5abe912ffdd777616dbbb27a70e8204f3ae2d0f6fad = 0x67cbd28b6b7b32f963125148f86707dd36ab16c2c2de72d74018598094f892d6561f983da09a21ea4a03a6c87137f8238b727007f362ea53d472a3f46edb31c8 := by
  rw [show (480 : Nat) = 20 + 460 from rfl, pbkdfIter_add, ckE22]
  decide!

theorem ckE24 : pbkdfIter 0xf454dead9725214f90daf2a0df1228ea64e5750fa3924181824a932bf8e04e32 0xd385480f7abb647737c9c5385dd824678e043a72753434b0deb82818361d45a6 500 0xf7ce0b653d2d72a4108cf5abe912ffdd777616dbbb27a70e8204f3ae2d0f6fadf7ce0b653d2d72a4108cf5abe912ffdd777616dbbb27a70e8204f3ae2d0f6fad = 0x6a547767a8bcaa93803ec31f9c0e84808bef8c17d85e5a3315a914ccf71080d79abd5616985ecd602879b68dd16e92dc78ed9d98a004e834f5e07c7c69fa2418 := by
  rw [show (500 : Nat) = 20 + 480 from rfl, pbkdfIter_add, ckE23]
  decide!

theorem ckE25 : pbkdfIter 0xf454dead9725214f90daf2a0df1228ea64e5750fa3924181824a932bf8e04e32 0xd385480f7abb647737c9c5385dd824678e043a72753434b0deb82818361d45a6 520 0xf7ce0b653d2d72a4108cf5abe912ffdd777616dbbb27a70e8204f3ae2d0f6fadf7ce0b653d2d72a4108cf5abe912ffdd777616dbbb27a70e8204f3ae2d0f6fad = 0x81549258a78d3d0d98b3697b13ab9defa0ffb6fd3f1c7f7a005cb3771ea9b2bb227a61cc50754733cbc41e49554c27bc9d070910896f8bcc592e34cc6d0401ce := by
  rw [show (520 : Nat) = 20 + 500 from rfl, pbkdfIter_add, ckE24]
  decide!

theorem ckE26 : pbkdfIter 0xf454dead9725214f90daf2a0df1228ea64e5750fa3924181824a932bf8e04e32 0xd385480f7abb647737c9c5385dd824678e043a72753434b0deb82818361d45a6 540 0xf7ce0b653d2d72a4108cf5abe912ffdd777616dbbb27a70e8204f3ae2d0f6fadf7ce0b653d2d72a4108cf5abe912ffdd777616dbbb27a70e8204f3ae2d0f6fad = 0xf861b2ae79f1f27ed1f8e190dc9b454f53742cb39b0651d56bc2471c1e2f506bc7a19fc4bf607cdd4a4a83a4ac61bcbbe42c478125252798003c65a716a894b2 := by
  rw [show (540 : Nat) = 20 + 520 from rfl, pbkdfIter_add, ckE25]
  decide!

theorem ckE27 : pbkdfIter 0xf454dead9725214f90daf2a0df1228ea64e5750fa3924181824a932bf8e04e32 0xd385480f7abb647737c9c5385dd824678e043a72753434b0deb82818361d45a6 560 0xf7ce0b653d2d72a4108cf5abe912ffdd777616dbbb27a70e8204f3ae2d0f6fadf7ce0b653d2d72a4108cf5abe912ffdd777616dbbb27a70e8204f3ae2d0f6fad = 0x12c1c90a33e130a56f996663eaaec38616e7b8e9311e286cb49b0e1ed01fc33504c6bd335db99a6897b4bb2ce3d7b9df9e4d07182d9bd785cf8177b4ef9f7b87 := by
  rw [show (560 : Nat) = 20 + 540 from rfl, pbkdfIter_add, ckE26]
  decide!

theorem ckE28 : pbkdfIter 0xf454dead9725214f90daf2a0df1228ea64e5750fa3924181824a932bf8e04e32 0xd385480f7abb647737c9c5385dd824678e043a72753434b0deb82818361d45a6 580 0xf7ce0b653d2d72a4108cf5abe912ffdd777616dbbb27a70e8204f3ae2d0f6fadf7ce0b653d2d72a4108cf5abe912ffdd777616dbbb27a70e8204f3ae2d0f6fad = 0x65af683c20622c2f200d1f5fc47af6fa6cdd192ec9cde49d5817bccc57add2ce2460f73840086f9184e267d956af0fc37ffec20eb7e08a47e9e000d1643ab1ba := by
  rw [show (580 : Nat) = 20 + 560 from rfl, pbkdfIter_add, ckE27]
  decide!

theorem ckE29 : pbkdfIter 0xf454dead9725214f90daf2a0df1228ea64e5750fa3924181824a932bf8e04e32 0xd385480f7abb647737c9c5385dd824678e043a72753434b0deb82818361d45a6 600 0xf7ce0b653d2d72a4108cf5abe912ffdd777616dbbb27a70e8204f3ae2d0f6fadf7ce0b653d2d72a4108cf5abe912ffdd777616dbbb27a70e8204f3ae2d0f6fad = 0x3be68898c5322d758b0799fb04574bb58a3fcd214418e6a5afa3ecf76e0c78d32710cc3f5eda6e64597fe94869ee90f24fefefdb08fa870abf4d51fe16f81a72 := by
  rw [show (600 : Nat) = 20 + 580 from rfl, pbkdfIter_add, ckE28]
  decide!

theorem ckE30 : pbkdfIter 0xf454dead9725214f90daf2a0df1228ea64e5750fa3924181824a932bf8e04e32 0xd385480f7abb647737c9c5385dd824678e043a72753434b0deb82818361d45a6 620 0xf7ce0b653d2d72a4108cf5abe912ffdd777616dbbb27a70e8204f3ae2d0f6fadf7ce0b653d2d72a4108cf5abe912ffdd777616dbbb27a70e8204f3ae2d0f6fad = 0xf0f6a43c746a11d8dd71993e75eb11c06b695d441e6a055039c2f03d89cc3b7c5970001cc7d3a2314a734e790b68aa9f649ece966eee7149d1a603dcd7913259 := by
  rw [show (620 : Nat) = 20 + 600 from rfl, pbkdfIter_add, ckE29]
  decide!

theorem ckE31 : pbkdfIter 0xf454dead9725214f90daf2a0df1228ea64e5750fa3924181824a932bf8e04e32 0xd385480f7abb647737c9c5385dd824678e043a72753434b0deb82818361d45a6 640 0xf7ce0b653d2d72a4108cf5abe912ffdd777616dbbb27a70e8204f3ae2d0f6fadf7ce0b653d2d72a4108cf5abe912ffdd777616dbbb27a70e8204f3ae2d0f6fad = 0x258acd56d7b30614e8b21d6bd170f3b06ccff103fd0c66d65e67f7768f4581112b85b3d9cb6b778597cf364133a5c77cc1f25730170c5591afb11926d67af858 := by
  rw [show (640 : Nat) = 20 + 620 from rfl, pbkdfIter_add, ckE30]
  decide!

theorem ckE32 : pbkdfIter 0xf454dead9725214f90daf2a0df1228ea64e5750fa3924181824a932bf8e04e32 0xd385480f7abb647737c9c5385dd824678e043a72753434b0deb82818361d45a6 660 0xf7ce0b653d2d72a4108cf5abe912ffdd777616dbbb27a70e8204f3ae2d0f6fadf7ce0b653d2d72a4108cf5abe912ffdd777616dbbb27a70e8204f3ae2d0f6fad = 0xf38964927f899f75b79a26e5028a6ead0d5c459cc11d016259ee4d85c2a98635fff5a9d6bc5ca7af34651d94400235d9186522986ab0c6b6cfbd0aa4482ada1 := by
  rw [show (660 : Nat) = 20 + 640 from rfl, pbkdfIter_add, ckE31]
  decide!

theorem ckE33 : pbkdfIter 0xf454dead9725214f90daf2a0df1228ea64e5750fa3924181824a932bf8e04e32 0xd385480f7abb647737c9c5385dd824678e043a72753434b0deb82818361d45a6 680 0xf7ce0b653d2d72a4108cf5abe912ffdd777616dbbb27a70e8204f3ae2d0f6fadf7ce0b653d2d72a4108cf5abe912ffdd777616dbbb27a70e8204f3ae2d0f6fad = 0x93481e4959ee2a8c7cac7bc4ed12ef4f6bc53048b8a22d1b348defb263f121787560003a3a7470359409cc912cf7e2b94a3ba65dcd2e01a3f3b74758241b77b7 := by
  rw [show (680 : Nat) = 20 + 660 from rfl, pbkdfIter_add, ckE32]
  decide!

theorem ckE34 : pbkdfIter 0xf454dead9725214f90daf2a0df1228ea64e5750fa3924181824a932bf8e04e32 0xd385480f7abb647737c9c5385dd824678e043a72753434b0deb82818361d45a6 700 0xf7ce0b653d2d72a4108cf5abe912ffdd777616dbbb27a70e8204f3ae2d0f6fadf7ce0b653d2d72a4108cf5abe912ffdd777616dbbb27a70e8204f3ae2d0f6fad = 0x36663c0cfb9ebb005ff48ef20b109a66d645db1f9a5b68e7566b3a71cb334f74dac6a4868ad5cc6ee4798b59009faee95ad05cc2ce2b72e62fd7ba21facd9eb := by
  rw [show (700 : Nat) = 20 + 680 from rfl, pbkdfIter_add, ckE33]
  decide!

theorem ckE35 : pbkdfIter 0xf454dead9725214f90daf2a0df1228ea64e5750fa3924181824a932bf8e04e32 0xd385480f7abb647737c9c5385dd824678e043a72753434b0deb82818361d45a6 720 0xf7ce0b653d2d72a4108cf5abe912ffdd777616dbbb27a70e8204f3ae2d0f6fadf7ce0b653d2d72a4108cf5abe912ffdd777616dbbb27a70e8204f3ae2d0f6fad = 0x11b45791f759d8711aa2a5c73d325f6e10722191e5d3fe4ea712619042f2a2c1c06ee85b9e592b77851f4b57a0bbc0b355658cbd6e2e4efb2590f159dac458b1 := by
  rw [show (720 : Nat) = 20 + 700 from rfl, pbkdfIter_add, ckE34]
  decide!

theorem ckE36 : pbkdfIter 0xf454dead9725214f90daf2a0df1228ea64e5750fa3924181824a932bf8e04e32 0xd385480f7abb647737c9c5385dd824678e043a72753434b0deb82818361d45a6 740 0xf7ce0b653d2d72a4108cf5abe912ffdd777616dbbb27a70e8204f3ae2d0f6fadf7ce0b653d2d72a4108cf5abe912ffdd777616dbbb27a70e8204f3ae2d0f6fad = 0x8428f6b5d09f83b00e80534c3e6d7b58ef436e1bb275f5578f91ed4ebf201fc703a70861cbabacdf71097c4dc61b16e89372210d4a52b9e1b7ba90e5f0bdbe1d := by
  rw [show (740 : Nat) = 20 + 720 from rfl, pbkdfIter_add, ckE35]
  decide!

theorem ckE37 : pbkdfIter 0xf454dead9725214f90daf2a0df1228ea64e5750fa3924181824a932bf8e04e32 0xd385480f7abb647737c9c5385dd824678e043a72753434b0deb82818361d45a6 760 0xf7ce0b653d2d72a4108cf5abe912ffdd777616dbbb27a70e8204f3ae2d0f6fadf7ce0b653d2d72a4108cf5abe912ffdd777616dbbb27a70e8204f3ae2d0f6fad = 0x4f5431d26426e970f4d08f5a71e1c222636af91d5e9ab8dca241c79b88fa23a5864081dd27585240577f55ecb24da311e7770b7a988798bc11c851118062921d := by
  rw [show (760 : Nat) = 20 + 740 from rfl, pbkdfIter_add, ckE36]
  decide!

theorem ckE38 : pbkdfIter 0xf454dead9725214f90daf2a0df1228ea64e5750fa3924181824a932bf8e04e32 0xd385480f7abb647737c9c5385dd824678e043a72753434b0deb82818361d45a6 780 0xf7ce0b653d2d72a4108cf5abe912ffdd777616dbbb27a70e8204f3ae2d0f6fadf7ce0b653d2d72a4108cf5abe912ffdd777616dbbb27a70e8204f3ae2d0f6fad = 0xd565781e7cd0553424b568e6f4ec762a5078f074444fb14cd4f1a344000c6cfd8a7a120ba5a82e49316dc633abe9c6c97db60ff025a8282665027df786812632 := by
  rw [show (780 : Nat) = 20 + 760 from rfl, pbkdfIter_add, ckE37]
  decide!

theorem ckE39 : pbkdfIter 0xf454dead9725214f90daf2a0df1228ea64e5750fa3924181824a932bf8e04e32 0xd385480f7abb647737c9c5385dd824678e043a72753434b0deb82818361d45a6 800 0xf7ce0b653d2d72a4108cf5abe912ffdd777616dbbb27a70e8204f3ae2d0f6fadf7ce0b653d2d72a4108cf5abe912ffdd777616dbbb27a70e8204f3ae2d0f6fad = 0x8c8b8b7a473ea14904960131e01696d6ec37074a93bdc39a327f7a2212bd4dfdcce11928e9b7f41b01162bbc478ce5af0aa88eff22564edd68ba75f445b4df32 := by
  rw [show (800 : Nat) = 20 + 780 from rfl, pbkdfIter_add, ckE38]
  decide!

theorem ckE40 : pbkdfIter 0xf454dead9725214f90daf2a0df1228ea64e5750fa3924181824a932bf8e04e32 0xd385480f7abb647737c9c5385dd824678e043a72753434b0deb82818361d45a6 820 0xf7ce0b653d2d72a4108cf5abe912ffdd777616dbbb27a70e8204f3ae2d0f6fadf7ce0b653d2d72a4108cf5abe912ffdd777616dbbb27a70e8204f3ae2d0f6fad = 0xdd3b717d9ac34221691b32ffa31ed1321f31814d9a936b89432128b235fdc4067e8d4349f858468eb059762a3c12e3a6bfb45c88fcc031f073ba12ecd6bb0a07 := by
  rw [show (820 : Nat) = 20 + 800 from rfl, pbkdfIter_add, ckE39]
  decide!

theorem ckE41 : pbkdfIter 0xf454dead9725214f90daf2a0df1228ea64e5750fa3924181824a932bf8e04e32 0xd385480f7abb647737c9c5385dd824678e043a72753434b0deb82818361d45a6 840 0xf7ce0b653d2d72a4108cf5abe912ffdd777616dbbb27a70e8204f3ae2d0f6fadf7ce0b653d2d72a4108cf5abe912ffdd777616dbbb27a70e8204f3ae2d0f6fad = 0xd263a57645d0cfd4dfe7f3007373c5dcc3b8d452e0e5335bda3ba5036b29e9c77b7946b5fc30f6cbcea9fbfa432faf611ace1620301b10e3082300f762d04aba := by
  rw [show (840 : Nat) = 20 + 820 from rfl, pbkdfIter_add, ckE40]
  decide!

theorem ckE42 : pbkdfIter 0xf454dead9725214f90daf2a0df1228ea64e5750fa3924181824a932bf8e04e32 0xd385480f7abb647737c9c5385dd824678e043a72753434b0deb82818361d45a6 860 0xf7ce0b653d2d72a4108cf5abe912ffdd777616dbbb27a70e8204f3ae2d0f6fadf7ce0b653d2d72a4108cf5abe912ffdd777616dbbb27a70e8204f3ae2d0f6fad = 0x5cc62f9e2755746c0136ccb1be49e81e3af65f6d6fe9d0f45e0ad688ecc23099facd01fb341fb823664089f7df28ffec89d7e20238c9bc5f834ca52f48eb61f := by
  rw [show (860 : Nat) = 20 + 840 from rfl, pbkdfIter_add, ckE41]
  decide!

theorem ckE43 : pbkdfIter 0xf454dead9725214f90daf2a0df1228ea64e5750fa3924181824a932bf8e04e32 0xd385480f7abb647737c9c5385dd824678e043a72753434b0deb82818361d45a6 880 0xf7ce0b653d2d72a4108cf5abe912ffdd777616dbbb27a70e8204f3ae2d0f6fadf7ce0b653d2d72a4108cf5abe912ffdd777616dbbb27a70e8204f3ae2d0f6fad = 0x655df6f11aa14f916d33b5a071649caa37c0e50b9b82d28d865503f1a13dc799b6c4e1817a48ee4d2d3326f19e63dcddbdfea2f9519839f77fec691e1dc5c8fb := by
  rw [show (880 : Nat) = 20 + 860 from rfl, pbkdfIter_add, ckE42]
  decide!

theorem ckE44 : pbkdfIter 0xf454dead9725214f90daf2a0df1228ea64e5750fa3924181824a932bf8e04e32 0xd385480f7abb647737c9c5385dd824678e043a72753434b0deb82818361d45a6 900 0xf7ce0b653d2d72a4108cf5abe912ffdd777616dbbb27a70e8204f3ae2d0f6fadf7ce0b653d2d72a4108cf5abe912ffdd777616dbbb27a70e8204f3ae2d0f6fad = 0xd437884ab2ea64100fd69be299332a2ac7a72b9b128528a0d8590c143c1b7d2ed7fa5b7a6f80b377dea249f1c674630efe8badce2964338767fd8545a9c4368a := by
  rw [show (900 : Nat) = 20 + 880 from rfl, pbkdfIter_add, ckE43]
  decide!

theorem ckE45 : pbkdfIter 0xf454dead9725214f90daf2a0df1228ea64e5750fa3924181824a932bf8e04e32 0xd385480f7abb647737c9c5385dd824678e043a72753434b0deb82818361d45a6 920 0xf7ce0b653d2d72a4108cf5abe912ffdd777616dbbb27a70e8204f3ae2d0f6fadf7ce0b653d2d72a4108cf5abe912ffdd777616dbbb27a70e8204f3ae2d0f6fad = 0x3b73cb10ac113f65758ea4c136ee1ca5dd635b2848e17dc5ebdeee1e3bf93a6b333132d83a0a9d121f5d29b9ca56ec50bb40504f6b80e6bcf554d9e39330ef6a := by
  rw [show (920 : Nat) = 20 + 900 from rfl, pbkdfIter_add, ckE44]
  decide!

theorem ckE46 : pbkdfIter 0xf454dead9725214f90daf2a0df1228ea64e5750fa3924181824a932bf8e04e32 0xd385480f7abb647737c9c5385dd824678e043a72753434b0deb82818361d45a6 940 0xf7ce0b653d2d72a4108cf5abe912ffdd777616dbbb27a70e8204f3ae2d0f6fadf7ce0b653d2d72a4108cf5abe912ffdd777616dbbb27a70e8204f3ae2d0f6fad = 0xace55347f081ae77835232ce2bb1c3ad3f2c322d9ad1c0dd671f9cab9da37f628e5a5f198553c8c6600e16444e89d5c33b9757e0f01bb3b072189cfee78830f := by
  rw [show (940 : Nat) = 20 + 920 from rfl, pbkdfIter_add, ckE45]
  decide!

theorem ckE47 : pbkdfIter 0xf454dead9725214f90daf2a0df1228ea64e5750fa3924181824a932bf8e04e32 0xd385480f7abb647737c9c5385dd824678e043a72753434b0deb82818361d45a6 960 0xf7ce0b653d2d72a4108cf5abe912ffdd777616dbbb27a70e8204f3ae2d0f6fadf7ce0b653d2d72a4108cf5abe912ffdd777616dbbb27a70e8204f3ae2d0f6fad = 0xa934fe61b0dccdfbefa109a69bd29d85e522d953131d7d6ab62d777abaf1489a44f800248be7ed3f5f87d496a809ee9dad65eb233e3706b25be8465f25ad625d := by
  rw [show (960 : Nat) = 20 + 940 from rfl, pbkdfIter_add, ckE46]
  decide!

theorem ckE48 : pbkdfIter 0xf454dead9725214f90daf2a0df1228ea64e5750fa3924181824a932bf8e04e32 0xd385480f7abb647737c9c5385dd824678e043a72753434b0deb82818361d45a6 980 0xf7ce0b653d2d72a4108cf5abe912ffdd777616dbbb27a70e8204f3ae2d0f6fadf7ce0b653d2d72a4108cf5abe912ffdd777616dbbb27a70e8204f3ae2d0f6fad = 0xeb6678bc89569ae7a02e4ef4682fa27071e2507f1858761e702ee5b1458e8cb11f479a55032876c28381420221c5576919b3ecc8029bdc4f47cf9bcd5f3d4d42 := by
  rw [show (980 : Nat) = 20 + 960 from rfl, pbkdfIter_add, ckE47]
  decide!

theorem ckE49 : pbkdfIter 0xf454dead9725214f90daf2a0df1228ea64e5750fa3924181824a932bf8e04e32 0xd385480f7abb647737c9c5385dd824678e043a72753434b0deb82818361d45a6 1000 0xf7ce0b653d2d72a4108cf5abe912ffdd777616dbbb27a70e8204f3ae2d0f6fadf7ce0b653d2d72a4108cf5abe912ffdd777616dbbb27a70e8204f3ae2d0f6fad = 0x15bcc0b2cc7c0cf5c88e8a9a1d60b32dbfad04c45503d508c400349dc5864d4a5a794a930d7cc2edfd3673030013387b29f010761b14b4f31bfc5d319b8d2b30 := by
  rw [show (1000 : Nat) = 20 + 980 from rfl, pbkdfIter_add, ckE48]
  decide!

theorem ckE50 : pbkdfIter 0xf454dead9725214f90daf2a0df1228ea64e5750fa3924181824a932bf8e04e32 0xd385480f7abb647737c9c5385dd824678e043a72753434b0deb82818361d45a6 1020 0xf7ce0b653d2d72a4108cf5abe912ffdd777616dbbb27a70e8204f3ae2d0f6fadf7ce0b653d2d72a4108cf5abe912ffdd777616dbbb27a70e8204f3ae2d0f6fad = 0xf89ae5d6b8f449d2a01ef9df540e555bc429324036f5b6eee3f9bbca0a9f6de91be22dca5719fd02b57fa7a5ef808730665431d93dff069784c53d78c2d79315 := by
  rw [show (1020 : Nat) = 20 + 1000 from rfl, pbkdfIter_add, ckE49]
  decide!

theorem ckE51 : pbkdfIter 0xf454dead9725214f90daf2a0df1228ea64e5750fa3924181824a932bf8e04e32 0xd385480f7abb647737c9c5385dd824678e043a72753434b0deb82818361d45a6 1040 0xf7ce0b653d2d72a4108cf5abe912ffdd777616dbbb27a70e8204f3ae2d0f6fadf7ce0b653d2d72a4108cf5abe912ffdd777616dbbb27a70e8204f3ae2d0f6fad = 0x50138159c717ba252bf756ff2ffe9fa29de8718063cf2af40a56a95533dd262fca438561134d6250a6e38d287e42b2619b4042436e441e1865ab5ff3bdc20fad := by
  rw [show (1040 : Nat) = 20 + 1020 from rfl, pbkdfIter_add, ckE50]
  decide!

theorem ckE52 : pbkdfIter 0xf454dead9725214f90daf2a0df1228ea64e5750fa3924181824a932bf8e04e32 0xd385480f7abb647737c9c5385dd824678e043a72753434b0deb82818361d45a6 1060 0xf7ce0b653d2d72a4108cf5abe912ffdd777616dbbb27a70e8204f3ae2d0f6fadf7ce0b653d2d72a4108cf5abe912ffdd777616dbbb27a70e8204f3ae2d0f6fad = 0x654643651711be010b765f55408a246c0d81417c0e75bf286a5af07efe1f202d676f532a46517542dca63138d4108c690f0bb765a097a801bea692a85e14af0f := by
  rw [show (1060 : Nat) = 20 + 1040 from rfl, pbkdfIter_add, ckE51]
  decide!

theorem ckE53 : pbkdfIter 0xf454dead9725214f90daf2a0df1228ea64e5750fa3924181824a932bf8e04e32 0xd385480f7abb647737c9c5385dd824678e043a72753434b0deb82818361d45a6 1080 0xf7ce0b653d2d72a4108cf5abe912ffdd777616dbbb27a70e8204f3ae2d0f6fadf7ce0b653d2d72a4108cf5abe912ffdd777616dbbb27a70e8204f3ae2d0f6fad = 0xcfd6dc3c343ab861f94b916801bc27b79f29069dd33a57635c8438104b92e503949596ee15f70d8f3eb64e10cfa34623cb8677b682af8f261cd2dca720482ce := by
  rw [show (1080 : Nat) = 20 + 1060 from rfl, pbkdfIter_add, ckE52]
  decide!

theorem ckE54 : pbkdfIter 0xf454dead9725214f90daf2a0df1228ea64e5750fa3924181824a932bf8e04e32 0xd385480f7abb647737c9c5385dd824678e043a72753434b0deb82818361d45a6 1100 0xf7ce0b653d2d72a4108cf5abe912ffdd777616dbbb27a70e8204f3ae2d0f6fadf7ce0b653d2d72a4108cf5abe912ffdd777616dbbb27a70e8204f3ae2d0f6fad = 0x43d3909af631c0c5dd9cd4e9c9be2b0e10e13b2249838db8011704eecbcaa2691b344d07abd1c54e83be3afe2bfb3eb77268a1c86e237e24b7c5acbe050026cc := by
  rw [show (1100 : Nat) = 20 + 1080 from rfl, pbkdfIter_add, ckE53]
  decide!

theorem ckE55 : pbkdfIter 0xf454dead9725214f90daf2a0df1228ea64e5750fa3924181824a932bf8e04e32 0xd385480f7abb647737c9c5385dd824678e043a72753434b0deb82818361d45a6 1120 0xf7ce0b653d2d72a4108cf5abe912ffdd777616dbbb27a70e8204f3ae2d0f6fadf7ce0b653d2d72a4108cf5abe912ffdd777616dbbb27a70e8204f3ae2d0f6fad = 0xad6b36a83985a687c591b41a1dbd655c0a99e0fbb1e28fff7e7324899dbb3b761b7390704a6ef9b7bbbff7e9d9cbee466f70764168a2b9a5b05fdea64d37f485 := by
  rw [show (1120 : Nat) = 20 + 1100 from rfl, pbkdfIter_add, ckE54]
  decide!

theorem ckE56 : pbkdfIter 0xf454dead9725214f90daf2a0df1228ea64e5750fa3924181824a932bf8e04e32 0xd385480f7abb647737c9c5385dd824678e043a72753434b0deb82818361d45a6 1140 0xf7ce0b653d2d72a4108cf5abe912ffdd777616dbbb27a70e8204f3ae2d0f6fadf7ce0b653d2d72a4108cf5abe912ffdd777616dbbb27a70e8204f3ae2d0f6fad = 0x1069a168bdc57340225be6216cc4552d4121a959185fb359af2c6678704d31b6a3be73619ac249df81db48bd02a32455b7cb008514ed467d0578bcf4720cef29 := by
  rw [show (1140 : Nat) = 20 + 1120 from rfl, pbkdfIter_add, ckE55]
  decide!

theorem ckE57 : pbkdfIter 0xf454dead9725214f90daf2a0df1228ea64e5750fa3924181824a932bf8e04e32 0xd385480f7abb647737c9c5385dd824678e043a72753434b0deb82818361d45a6 1160 0xf7ce0b653d2d72a4108cf5abe912ffdd777616dbbb27a70e8204f3ae2d0f6fadf7ce0b653d2d72a4108cf5abe912ffdd777616dbbb27a70e8204f3ae2d0f6fad = 0xdb8aece52d5c6370ee288e9d8934b2858deacac18a3940e8f7ce3e090870dd31b2575ad5e0db99e3e8b67f900c7d4fbc9c17ae2ecea782713368a2f17a9f6ce0 := by
  rw [show (1160 : Nat) = 20 + 1140 from rfl, pbkdfIter_add, ckE56]
  decide!

theorem ckE58 : pbkdfIter 0xf454dead9725214f90daf2a0df1228ea64e5750fa3924181824a932bf8e04e32 0xd385480f7abb647737c9c5385dd824678e043a72753434b0deb82818361d45a6 1180 0xf7ce0b653d2d72a4108cf5abe912ffdd777616dbbb27a70e8204f3ae2d0f6fadf7ce0b653d2d72a4108cf5abe912ffdd777616dbbb27a70e8204f3ae2d0f6fad = 0xb707259e744831acbdc94925ce828bcb04c8c3754308315ad13c4427a009ef60110725489b46e88dc76ad0c978750de485a227bd72563c1eb3629be637fdc43f := by
  rw [show (1180 : Nat) = 20 + 1160 from rfl, pbkdfIter_add, ckE57]
  decide!

theorem ckE59 : pbkdfIter 0xf454dead9725214f90daf2a0df1228ea64e5750fa3924181824a932bf8e04e32 0xd385480f7abb647737c9c5385dd824678e043a72753434b0deb82818361d45a6 1200 0xf7ce0b653d2d72a4108cf5abe912ffdd777616dbbb27a70e8204f3ae2d0f6fadf7ce0b653d2d72a4108cf5abe912ffdd777616dbbb27a70e8204f3ae2d0f6fad = 0xbb8226d84d10198a9dc77fd1189509508ead0852c963a9d49fbcc2c886f10273ed35e76600d9fc92eae3218e4e48a0982f5a4f820b2df6d2dc5a2e113f7ae5e := by
  rw [show (1200 : Nat) = 20 + 1180 from rfl, pbkdfIter_add, ckE58]
  decide!

theorem ckE60 : pbkdfIter 0xf454dead9725214f90daf2a0df1228ea64e5750fa3924181824a932bf8e04e32 0xd385480f7abb647737c9c5385dd824678e043a72753434b0deb82818361d45a6 1220 0xf7ce0b653d2d72a4108cf5abe912ffdd777616dbbb27a70e8204f3ae2d0f6fadf7ce0b653d2d72a4108cf5abe912ffdd777616dbbb27a70e8204f3ae2d0f6fad = 0x3de20e8ee10d6dd7e9e5e85876e4bdca882dd034a3d42670525db28032f81cb2172f94b2c0d2220a3248971062da6237fe2be17503dc81c4c20c5f51b0cc151d := by
  rw [show (1220 : Nat) = 20 + 1200 from rfl, pbkdfIter_add, ckE59]
  decide!

theorem ckE61 : pbkdfIter 0xf454dead9725214f90daf2a0df1228ea64e5750fa3924181824a932bf8e04e32 0xd385480f7abb647737c9c5385dd824678e043a72753434b0deb82818361d45a6 1240 0xf7ce0b653d2d72a4108cf5abe912ffdd777616dbbb27a70e8204f3ae2d0f6fadf7ce0b653d2d72a4108cf5abe912ffdd777616dbbb27a70e8204f3ae2d0f6fad = 0x7a617760b7b56293bdb56dbc608c1a9e18a2f058ee0cbd60c341c5ede8edc2527994f997084c8045af5ec766aee6b4a46a620b982db6dda36217092ca0094ffa := by
  rw [show (1240 : Nat) = 20 + 1220 from rfl, pbkdfIter_add, ckE60]
  decide!

theorem ckE62 : pbkdfIter 0xf454dead9725214f90daf2a0df1228ea64e5750fa3924181824a932bf8e04e32 0xd385480f7abb647737c9c5385dd824678e043a72753434b0deb82818361d45a6 1260 0xf7ce0b653d2d72a4108cf5abe912ffdd777616dbbb27a70e8204f3ae2d0f6fadf7ce0b653d2d72a4108cf5abe912ffdd777616dbbb27a70e8204f3ae2d0f6fad = 0x565d1b624f7bdc35a03f2a999da56dc4281434573e761f409bcaffaf79a0bb158889e6e37412a4b0600f766243f105dff8bdeacf8e75a5f960f6b2aa38e776c3 := by
  rw [show (1260 : Nat) = 20 + 1240 from rfl, pbkdfIter_add, ckE61]
  decide!

theorem ckE63 : pbkdfIter 0xf454dead9725214f90daf2a0df1228ea64e5750fa3924181824a932bf8e04e32 0xd385480f7abb647737c9c5385dd824678e043a72753434b0deb82818361d45a6 1280 0xf7ce0b653d2d72a4108cf5abe912ffdd777616dbbb27a70e8204f3ae2d0f6fadf7ce0b653d2d72a4108cf5abe912ffdd777616dbbb27a70e8204f3ae2d0f6fad = 0x562cf39065483c6fc5994bc94c85cf7da246fcef67e001e11cccceaea02bb3a044d57be0fe50e5c3757b6c30ff9a8b49af4c24fd79a587792ce5cd64c3190c0f := by
  rw [show (1280 : Nat) = 20 + 1260 from rfl, pbkdfIter_add, ckE62]
  decide!

theorem ckE64 : pbkdfIter 0xf454dead9725214f90daf2a0df1228ea64e5750fa3924181824a932bf8e04e32 0xd385480f7abb647737c9c5385dd824678e043a72753434b0deb82818361d45a6 1300 0xf7ce0b653d2d72a4108cf5abe912ffdd777616dbbb27a70e8204f3ae2d0f6fadf7ce0b653d2d72a4108cf5abe912ffdd777616dbbb27a70e8204f3ae2d0f6fad = 0x6c593434c1804b61b20678badb6ef1b2573d8a7bd258bfb16ba5332837ff3ab6cdf0d402568e9f63b9f1b5c096b7e4ecff8bbce5b41ca59409342964fddf4d72 := by
  rw [show (1300 : Nat) = 20 + 1280 from rfl, pbkdfIter_add, ckE63]
  decide!

theorem ckE65 : pbkdfIter 0xf454dead9725214f90daf2a0df1228ea64e5750fa3924181824a932bf8e04e32 0xd385480f7abb647737c9c5385dd824678e043a72753434b0deb82818361d45a6 1320 0xf7ce0b653d2d72a4108cf5abe912ffdd777616dbbb27a70e8204f3ae2d0f6fadf7ce0b653d2d72a4108cf5abe912ffdd777616dbbb27a70e8204f3ae2d0f6fad = 0xfdd2263aa1e7f5ff5b70026dfe05ec858410c3b5ad89d631546990740f1371f25a0a57a65f0bb0b37e8aeef3f18a8457012a8f4566a699eecc24f2a0b2efb19b := by
  rw [show (1320 : Nat) = 20 + 1300 from rfl, pbkdfIter_add, ckE64]
  decide!

theorem ckE66 : pbkdfIter 0xf454dead9725214f90daf2a0df1228ea64e5750fa3924181824a932bf8e04e32 0xd385480f7abb647737c9c5385dd824678e043a72753434b0deb82818361d45a6 1340 0xf7ce0b653d2d72a4108cf5abe912ffdd777616dbbb27a70e8204f3ae2d0f6fadf7ce0b653d2d72a4108cf5abe912ffdd777616dbbb27a70e8204f3ae2d0f6fad = 0x8bd9474f82523c2eea692c7076cd60c7b15f71bce3d903cd4b4d9e3aaecfb86a2ac8524e399935aeed5dd57c8b626906fbb23db45eabfd9e140bca1ffddf28bc := by
  rw [show (1340 : Nat) = 20 + 1320 from rfl, pbkdfIter_add, ckE65]
  decide!

theorem ckE67 : pbkdfIter 0xf454dead9725214f90daf2a0df1228ea64e5750fa3924181824a932bf8e04e32 0xd385480f7abb647737c9c5385dd824678e043a72753434b0deb82818361d45a6 1360 0xf7ce0b653d2d72a4108cf5abe912ffdd777616dbbb27a70e8204f3ae2d0f6fadf7ce0b653d2d72a4108cf5abe912ffdd777616dbbb27a70e8204f3ae2d0f6fad = 0xb7267bb44f6f03c4fe3c1bb9631aa5cf2be2bbe75791e32f367317617e66e1866b88859669d2188094fd369e85dc16025bd27ce87911db1b3b1c91c3286390c5 := by
  rw [show (1360 : Nat) = 20 + 1340 from rfl, pbkdfIter_add, ckE66]
  decide!

theorem ckE68 : pbkdfIter 0xf454dead9725214f90daf2a0df1228ea64e5750fa3924181824a932bf8e04e32 0xd385480f7abb647737c9c5385dd824678e043a72753434b0deb82818361d45a6 1380 0xf7ce0b653d2d72a4108cf5abe912ffdd777616dbbb27a70e8204f3ae2d0f6fadf7ce0b653d2d72a4108cf5abe912ffdd777616dbbb27a70e8204f3ae2d0f6fad = 0xe0d464e8c2c49167ec4fc37b4e245b9f58430886e30595934692d150028d10601d7d31210943a6f8cb2f90e6610667c6f05b60240edaf38809608cdce1e007ef := by
  rw [show (1380 : Nat) = 20 + 1360 from rfl, pbkdfIter_add, ckE67]
  decide!

theorem ckE69 : pbkdfIter 0xf454dead9725214f90daf2a0df1228ea64e5750fa3924181824a932bf8e04e32 0xd385480f7abb647737c9c5385dd824678e043a72753434b0deb82818361d45a6 1400 0xf7ce0b653d2d72a4108cf5abe912ffdd777616dbbb27a70e8204f3ae2d0f6fadf7ce0b653d2d72a4108cf5abe912ffdd777616dbbb27a70e8204f3ae2d0f6fad = 0xf28a7710f92711ea03ef1312c889675919375112c67e87e885c3d2aaef4ba574d688499805e1d5deade0e85749c065d3a9f3b8e3b7a5af10f5331c103412f82e := by
  rw [show (1400 : Nat) = 20 + 1380 from rfl, pbkdfIter_add, ckE68]
  decide!

theorem ckE70 : pbkdfIter 0xf454dead9725214f90daf2a0df1228ea64e5750fa3924181824a932bf8e04e32 0xd385480f7abb647737c9c5385dd824678e043a72753434b0deb82818361d45a6 1420 0xf7ce0b653d2d72a4108cf5abe912ffdd777616dbbb27a70e8204f3ae2d0f6fadf7ce0b653d2d72a4108cf5abe912ffdd777616dbbb27a70e8204f3ae2d0f6fad = 0xca8a563080e378795e1e95d66a6afb34da554161139d8bb6ed30208a546cadfb7f9f780f6352f5bf22d3cea34401842a40bce61aca5a2f4336be522fc272fbc8 := by
  rw [show (1420 : Nat) = 20 + 1400 from rfl, pbkdfIter_add, ckE69]
  decide!

theorem ckE71 : pbkdfIter 0xf454dead9725214f90daf2a0df1228ea64e5750fa3924181824a932bf8e04e32 0xd385480f7abb647737c9c5385dd824678e043a72753434b0deb82818361d45a6 1440 0xf7ce0b653d2d72a4108cf5abe912ffdd777616dbbb27a70e8204f3ae2d0f6fadf7ce0b653d2d72a4108cf5abe912ffdd777616dbbb27a70e8204f3ae2d0f6fad = 0x87d0eea6170611285c232549ab7a102fac6608092603fe1f69b9f2bc539bb4e2e0f5c1546f36425d519b37b23f77355e4584751d0da284f8493e3add1f832242 := by
  rw [show (1440 : Nat) = 20 + 1420 from rfl, pbkdfIter_add, ckE70]
  decide!

theorem ckE72 : pbkdfIter 0xf454dead9725214f90daf2a0df1228ea64e5750fa3924181824a932bf8e04e32 0xd385480f7abb647737c9c5385dd824678e043a72753434b0deb82818361d45a6 1460 0xf7ce0b653d2d72a4108cf5abe912ffdd777616dbbb27a70e8204f3ae2d0f6fadf7ce0b653d2d72a4108cf5abe912ffdd777616dbbb27a70e8204f3ae2d0f6fad = 0x34b1bb790ce895842947a404f3e7d6489005b2ab45cb5bfad6494f31ef28b3797a9beb4b3834a590e5f417b0f2e7b222433b4564f9f86467f60549785fc72715 := by
  rw [show (1460 : Nat) = 20 + 1440 from rfl, pbkdfIter_add, ckE71]
  decide!

theorem ckE73 : pbkdfIter 0xf454dead9725214f90daf2a0df1228ea64e5750fa3924181824a932bf8e04e32 0xd385480f7abb647737c9c5385dd824678e043a72753434b0deb82818361d45a6 1480 0xf7ce0b653d2d72a4108cf5abe912ffdd777616dbbb27a70e8204f3ae2d0f6fadf7ce0b653d2d72a4108cf5abe912ffdd777616dbbb27a70e8204f3ae2d0f6fad = 0x5fed4c62d36cea22b171b73aca79fa8e05a516378d999b7ea71f67f7f8a9a3a0182e4f5c1cec91bf71620d546a286f590054511053ea0b14e7ca6ecf6dfd6016 := by
  rw [show (1480 : Nat) = 20 + 1460 from rfl, pbkdfIter_add, ckE72]
  decide!

theorem ckE74 : pbkdfIter 0xf454dead9725214f90daf2a0df1228ea64e5750fa3924181824a932bf8e04e32 0xd385480f7abb647737c9c5385dd824678e043a72753434b0deb82818361d45a6 1500 0xf7ce0b653d2d72a4108cf5abe912ffdd777616dbbb27a70e8204f3ae2d0f6fadf7ce0b653d2d72a4108cf5abe912ffdd777616dbbb27a70e8204f3ae2d0f6fad = 0x2ba06bfc9bee86b68d016f5fa85039f0e6b2ebd4e6729ef4fedd9cacdd78d7dd118ba1843dc3b31369abb8e5f475690ba9292272831518970693039aba2dd4e9 := by
  rw [show (1500 : Nat) = 20 + 1480 from rfl, pbkdfIter_add, ckE73]
  decide!

theorem ckE75 : pbkdfIter 0xf454dead9725214f90daf2a0df1228ea64e5750fa3924181824a932bf8e04e32 0xd385480f7abb647737c9c5385dd824678e043a72753434b0deb82818361d45a6 1520 0xf7ce0b653d2d72a4108cf5abe912ffdd777616dbbb27a70e8204f3ae2d0f6fadf7ce0b653d2d72a4108cf5abe912ffdd777616dbbb27a70e8204f3ae2d0f6fad = 0x129f33ab4dc4d580d88f3a2299a07b944adb49bf35a4aa90ef07eeac911dae090fa7013f6fec7d33f592619096e68807a6a890c9e86599a45312ca7e4a5296b9 := by
  rw [show (1520 : Nat) = 20 + 1500 from rfl, pbkdfIter_add, ckE74]
  decide!

theorem ckE76 : pbkdfIter 0xf454dead9725214f90daf2a0df1228ea64e5750fa3924181824a932bf8e04e32 0xd385480f7abb647737c9c5385dd824678e043a72753434b0deb82818361d45a6 1540 0xf7ce0b653d2d72a4108cf5abe912ffdd777616dbbb27a70e8204f3ae2d0f6fadf7ce0b653d2d72a4108cf5abe912ffdd777616dbbb27a70e8204f3ae2d0f6fad = 0x90ec036e0548e6aa84816d5cb90be4df0bae312a5c37e995cccb518cd88ec0454e50abee5c93d385d3b2fab99ab02b291b20665ba38c46259af2b9f413177ddd := by
  rw [show (1540 : Nat) = 20 + 1520 from rfl, pbkdfIter_add, ckE75]
  decide!

theorem ckE77 : pbkdfIter 0xf454dead9725214f90daf2a0df1228ea64e5750fa3924181824a932bf8e04e32 0xd385480f7abb647737c9c5385dd824678e043a72753434b0deb82818361d45a6 1560 0xf7ce0b653d2d72a4108cf5abe912ffdd777616dbbb27a70e8204f3ae2d0f6fadf7ce0b653d2d72a4108cf5abe912ffdd777616dbbb27a70e8204f3ae2d0f6fad = 0xc19b13ceecd1ee7bb257f83f65bcf6d417a43c16232dfe5afd13673df5d93e5c9f1d12eb6d07f61478a368bf8f60147105b2371d35996fa6382fea13f4abb81a := by
  rw [show (1560 : Nat) = 20 + 1540 from rfl, pbkdfIter_add, ckE76]
  decide!

theorem ckE78 : pbkdfIter 0xf454dead9725214f90daf2a0df1228ea64e5750fa3924181824a932bf8e04e32 0xd385480f7abb647737c9c5385dd824678e043a72753434b0deb82818361d45a6 1580 0xf7ce0b653d2d72a4108cf5abe912ffdd777616dbbb27a70e8204f3ae2d0f6fadf7ce0b653d2d72a4108cf5abe912ffdd777616dbbb27a70e8204f3ae2d0f6fad = 0xfd9d8b1fd938da5d0133d5eb61284cc03ecc8da8ffc56ee53113a8f035e77254786d3c1d27422422708b1fc2da52bf0dd4a2d4ee8be93bb291937db0d7f6aef5 := by
  rw [show (1580 : Nat) = 20 + 1560 from rfl, pbkdfIter_add, ckE77]
  decide!

theorem ckE79 : pbkdfIter 0xf454dead9725214f90daf2a0df1228ea64e5750fa3924181824a932bf8e04e32 0xd385480f7abb647737c9c5385dd824678e043a72753434b0deb82818361d45a6 1600 0xf7ce0b653d2d72a4108cf5abe912ffdd777616dbbb27a70e8204f3ae2d0f6fadf7ce0b653d2d72a4108cf5abe912ffdd777616dbbb27a70e8204f3ae2d0f6fad = 0x15575e15fbc32e7c573488b38aabfd257aa15e3a24dd94abc6ecde6f0b6b660c5985cf57ef9c817473e75feb1a38638048faf44e3a4b3ea36cc5fa2b137ce6ef := by
  rw [show (1600 : Nat) = 20 + 1580 from rfl, pbkdfIter_add, ckE78]
  decide!

theorem ckE80 : pbkdfIter 0xf454dead9725214f90daf2a0df1228ea64e5750fa3924181824a932bf8e04e32 0xd385480f7abb647737c9c5385dd824678e043a72753434b0deb82818361d45a6 1620 0xf7ce0b653d2d72a4108cf5abe912ffdd777616dbbb27a70e8204f3ae2d0f6fadf7ce0b653d2d72a4108cf5abe912ffdd777616dbbb27a70e8204f3ae2d0f6fad = 0x9c8e7f76d1c362df25eab818e03c75b7192af571eb51b52393207e2d70311270181a451bdeb88cba8893fc161c8610b1b9d909b986738bebc65240c23855f138 := by
  rw [show (1620 : Nat) = 20 + 1600 from rfl, pbkdfIter_add, ckE79]
  decide!

theorem ckE81 : pbkdfIter 0xf454dead9725214f90daf2a0df1228ea64e5750fa3924181824a932bf8e04e32 0xd385480f7abb647737c9c5385dd824678e043a72753434b0deb82818361d45a6 1640 0xf7ce0b653d2d72a4108cf5abe912ffdd777616dbbb27a70e8204f3ae2d0f6fadf7ce0b653d2d72a4108cf5abe912ffdd777616dbbb27a70e8204f3ae2d0f6fad = 0x1b8d0466644bebac0f00e4abb67f941fe00561c0923b7d6f22fa9e0809bcd517f7637440135b89300642febc8f62efbbf33caa5b8906b803f5ccd323a219930b := by
  rw [show (1640 : Nat) = 20 + 1620 from rfl, pbkdfIter_add, ckE80]
  decide!

theorem ckE82 : pbkdfIter 0xf454dead9725214f90daf2a0df1228ea64e5750fa3924181824a932bf8e04e32 0xd385480f7abb647737c9c5385dd824678e043a72753434b0deb82818361d45a6 1660 0xf7ce0b653d2d72a4108cf5abe912ffdd777616dbbb27a70e8204f3ae2d0f6fadf7ce0b653d2d72a4108cf5abe912ffdd777616dbbb27a70e8204f3ae2d0f6fad = 0xee07f762434e805c5a343f9cc8fea200f4ea8d7a5ee7e449f86f57227cfc6cb8bf178c74714b71c4ddcdc828a0db6193bc512db26b459d561d2bc38362eecda1 := by
  rw [show (1660 : Nat) = 20 + 1640 from rfl, pbkdfIter_add, ckE81]
  decide!

theorem ckE83 : pbkdfIter 0xf454dead9725214f90daf2a0df1228ea64e5750fa3924181824a932bf8e04e32 0xd385480f7abb647737c9c5385dd824678e043a72753434b0deb82818361d45a6 1680 0xf7ce0b653d2d72a4108cf5abe912ffdd777616dbbb27a70e8204f3ae2d0f6fadf7ce0b653d2d72a4108cf5abe912ffdd777616dbbb27a70e8204f3ae2d0f6fad = 0xe1d25cffc82b670ea59746ec5a37d8ac8bcbc9cff8a495fd242e987c1b9ae3f177acc7cd54da65be9fe918ebc27e252b0a30e44e53801d55fc66c1bbcae6967 := by
  rw [show (1680 : Nat) = 20 + 1660 from rfl, pbkdfIter_add, ckE82]
  decide!

theorem ckE84 : pbkdfIter 0xf454dead9725214f90daf2a0df1228ea64e5750fa3924181824a932bf8e04e32 0xd385480f7abb647737c9c5385dd824678e043a72753434b0deb82818361d45a6 1700 0xf7ce0b653d2d72a4108cf5abe912ffdd777616dbbb27a70e8204f3ae2d0f6fadf7ce0b653d2d72a4108cf5abe912ffdd777616dbbb27a70e8204f3ae2d0f6fad = 0xe04dbdb7248e1febf2db348d3cbb047f42f9001e3760ec0412609b6ebd0722ab08a41c91a97fcea149e8e6b2cbd615ec358e67bba7f4e6d541c2675e8bf7d0b5 := by
  rw [show (1700 : Nat) = 20 + 1680 from rfl, pbkdfIter_add, ckE83]
  decide!

theorem ckE85 : pbkdfIter 0xf454dead9725214f90daf2a0df1228ea64e5750fa3924181824a932bf8e04e32 0xd385480f7abb647737c9c5385dd824678e043a72753434b0deb82818361d45a6 1720 0xf7ce0b653d2d72a4108cf5abe912ffdd777616dbbb27a70e8204f3ae2d0f6fadf7ce0b653d2d72a4108cf5abe912ffdd777616dbbb27a70e8204f3ae2d0f6fad = 0xfd4b3014aec5be20b6fcc0ec148a603dbb53eb5566461c040f6426ab1e7397a59891ccf817b14472fb445feb1f55debf1c4a26941b985f302b895e0a22757db := by
  rw [show (1720 : Nat) = 20 + 1700 from rfl, pbkdfIter_add, ckE84]
  decide!

theorem ckE86 : pbkdfIter 0xf454dead9725214f90daf2a0df1228ea64e5750fa3924181824a932bf8e04e32 0xd385480f7abb647737c9c5385dd824678e043a72753434b0deb82818361d45a6 1740 0xf7ce0b653d2d72a4108cf5abe912ffdd777616dbbb27a70e8204f3ae2d0f6fadf7ce0b653d2d72a4108cf5abe912ffdd777616dbbb27a70e8204f3ae2d0f6fad = 0x32f015e991f596d387b61033601d2738095efd22b3e010f0116179f99415d5f2e884c091d5ee2c3569067d8e9207786a6057e45e2b89244f4a47cec8d1589c0b := by
  rw [show (1740 : Nat) = 20 + 1720 from rfl, pbkdfIter_add, ckE85]
  decide!

theorem ckE87 : pbkdfIter 0xf454dead9725214f90daf2a0df1228ea64e5750fa3924181824a932bf8e04e32 0xd385480f7abb647737c9c5385dd824678e043a72753434b0deb82818361d45a6 1760 0xf7ce0b653d2d72a4108cf5abe912ffdd777616dbbb27a70e8204f3ae2d0f6fadf7ce0b653d2d72a4108cf5abe912ffdd777616dbbb27a70e8204f3ae2d0f6fad = 0x5d3d76e690c062ade2c1ab09884ee2c39781f2163055ae917b6b17ceefc63b593dbf36c5d84b8b9e756acf5895450a9e1c069aa6c51dc0cdecce1c0c1c3d912c := by
  rw [show (1760 : Nat) = 20 + 1740 from rfl, pbkdfIter_add, ckE86]
  decide!

theorem ckE88 : pbkdfIter 0xf454dead9725214f90daf2a0df1228ea64e5750fa3924181824a932bf8e04e32 0xd385480f7abb647737c9c5385dd824678e043a72753434b0deb82818361d45a6 1780 0xf7ce0b653d2d72a4108cf5abe912ffdd777616dbbb27a70e8204f3ae2d0f6fadf7ce0b653d2d72a4108cf5abe912ffdd777616dbbb27a70e8204f3ae2d0f6fad = 0x5c16cddf591aee4987403d4e90728dda89199390d77b45fe39da97b65bee940ff04f1b95bb2afe81da333d3832c7c72ed3670f498fd2959d5c80608661f7b7e1 := by
  rw [show (1780 : Nat) = 20 + 1760 from rfl, pbkdfIter_add, ckE87]
  decide!

theorem ckE89 : pbkdfIter 0xf454dead9725214f90daf2a0df1228ea64e5750fa3924181824a932bf8e04e32 0xd385480f7abb647737c9c5385dd824678e043a72753434b0deb82818361d45a6 1800 0xf7ce0b653d2d72a4108cf5abe912ffdd777616dbbb27a70e8204f3ae2d0f6fadf7ce0b653d2d72a4108cf5abe912ffdd777616dbbb27a70e8204f3ae2d0f6fad = 0xf1da1e09eb36fc7f20e6177ab2a7340bac52a4748f456be21064ee26c7995c36f9daa181b2f543b2b80f82e35d61c89703bc1af38c7a5ec76daeaa76cefa37d7 := by
  rw [show (1800 : Nat) = 20 + 1780 from rfl, pbkdfIter_add, ckE88]
  decide!

theorem ckE90 : pbkdfIter 0xf454dead9725214f90daf2a0df1228ea64e5750fa3924181824a932bf8e04e32 0xd385480f7abb647737c9c5385dd824678e043a72753434b0deb82818361d45a6 1820 0xf7ce0b653d2d72a4108cf5abe912ffdd777616dbbb27a70e8204f3ae2d0f6fadf7ce0b653d2d72a4108cf5abe912ffdd777616dbbb27a70e8204f3ae2d0f6fad = 0x2edb75f069d81f9b93f6982abc83532370c6f8c8750fee638b3182f26adec7ce923e3fa8a3a6bacd22982dbfb2a1fa369587ac1b630e25e50bae2b1f312b476e := by
  rw [show (1820 : Nat) = 20 + 1800 from rfl, pbkdfIter_add, ckE89]
  decide!

theorem ckE91 : pbkdfIter 0xf454dead9725214f90daf2a0df1228ea64e5750fa3924181824a932bf8e04e32 0xd385480f7abb647737c9c5385dd824678e043a72753434b0deb82818361d45a6 1840 0xf7ce0b653d2d72a4108cf5abe912ffdd777616dbbb27a70e8204f3ae2d0f6fadf7ce0b653d2d72a4108cf5abe912ffdd777616dbbb27a70e8204f3ae2d0f6fad = 0xbca8f95c215dcdd35146edf4ee707b658a573b102422e3cf22b070521523174cbcae85d8818b046c770cc3d4c9e250a97c4ab5912e462bcf3104118065647a83 := by
  rw [show (1840 : Nat) = 20 + 1820 from rfl, pbkdfIter_add, ckE90]
  decide!

theorem ckE92 : pbkdfIter 0xf454dead9725214f90daf2a0df1228ea64e5750fa3924181824a932bf8e04e32 0xd385480f7abb647737c9c5385dd824678e043a72753434b0deb82818361d45a6 1860 0xf7ce0b653d2d72a4108cf5abe912ffdd777616dbbb27a70e8204f3ae2d0f6fadf7ce0b653d2d72a4108cf5abe912ffdd777616dbbb27a70e8204f3ae2d0f6fad = 0x9c691d2ec6ce176608833781085ecc32eb589e9e7cd29323d8d2a43c935dc4fd7021753ff37de4658309e460134544a9829b18e0871b629a29f0e407cbe3ec5a := by
  rw [show (1860 : Nat) = 20 + 1840 from rfl, pbkdfIter_add, ckE91]
  decide!

theorem ckE93 : pbkdfIter 0xf454dead9725214f90daf2a0df1228ea64e5750fa3924181824a932bf8e04e32 0xd385480f7abb647737c9c5385dd824678e043a72753434b0deb82818361d45a6 1880 0xf7ce0b653d2d72a4108cf5abe912ffdd777616dbbb27a70e8204f3ae2d0f6fadf7ce0b653d2d72a4108cf5abe912ffdd777616dbbb27a70e8204f3ae2d0f6fad = 0x7b5f3f3f314ca795316aa5ab6f2e8acd2583593ff1fcf269f1719b247715757218ab815226e09c86ef2fa2b39a38b1d949d2f17a945da687c3c5231a379b6360 := by
  rw [show (1880 : Nat) = 20 + 1860 from rfl, pbkdfIter_add, ckE92]
  decide!

theorem ckE94 : pbkdfIter 0xf454dead9725214f90daf2a0df1228ea64e5750fa3924181824a932bf8e04e32 0xd385480f7abb647737c9c5385dd824678e043a72753434b0deb82818361d45a6 1900 0xf7ce0b653d2d72a4108cf5abe912ffdd777616dbbb27a70e8204f3ae2d0f6fadf7ce0b653d2d72a4108cf5abe912ffdd777616dbbb27a70e8204f3ae2d0f6fad = 0x1b179c43871b69e593bd2fafc6e37db10592769ea95ddb9b2768e14a7c862672f5afd0a24e3b1d9d546419a0371925cf01d54b8bd9dd3b01432cc78ff1cd3403 := by
  rw [show (1900 : Nat) = 20 + 1880 from rfl, pbkdfIter_add, ckE93]
  decide!

theorem ckE95 : pbkdfIter 0xf454dead9725214f90daf2a0df1228ea64e5750fa3924181824a932bf8e04e32 0xd385480f7abb647737c9c5385dd824678e043a72753434b0deb82818361d45a6 1920 0xf7ce0b653d2d72a4108cf5abe912ffdd777616dbbb27a70e8204f3ae2d0f6fadf7ce0b653d2d72a4108cf5abe912ffdd777616dbbb27a70e8204f3ae2d0f6fad = 0xcb4686f3b70dbe684c1d81b114de8ed64589c616f5977c371b3a8ad2fd84a0207b9595d5ad5f49e7b1afb56485137de81bfee48dd9a1b62341362a614cc4ee9c := by
  rw [show (1920 : Nat) = 20 + 1900 from rfl, pbkdfIter_add, ckE94]
  decide!

theorem ckE96 : pbkdfIter 0xf454dead9725214f90daf2a0df1228ea64e5750fa3924181824a932bf8e04e32 0xd385480f7abb647737c9c5385dd824678e043a72753434b0deb82818361d45a6 1940 0xf7ce0b653d2d72a4108cf5abe912ffdd777616dbbb27a70e8204f3ae2d0f6fadf7ce0b653d2d72a4108cf5abe912ffdd777616dbbb27a70e8204f3ae2d0f6fad = 0x750bef4a37f5b4d53bb8f740066c9a4b18144a70547390318d593921f81a5a4e622d62cb2bfacbbafb33b86929b8647c8e893dceb9436d8222df761537c145af := by
  rw [show (1940 : Nat) = 20 + 1920 from rfl, pbkdfIter_add, ckE95]
  decide!

theorem ckE97 : pbkdfIter 0xf454dead9725214f90daf2a0df1228ea64e5750fa3924181824a932bf8e04e32 0xd385480f7abb647737c9c5385dd824678e043a72753434b0deb82818361d45a6 1960 0xf7ce0b653d2d72a4108cf5abe912ffdd777616dbbb27a70e8204f3ae2d0f6fadf7ce0b653d2d72a4108cf5abe912ffdd777616dbbb27a70e8204f3ae2d0f6fad = 0x55f3c9c13a001775443ae2893efc14232459e5a89bc0cac102da8040b528374e3cc9cf68d09dc570d7457ae77c1da690c8ef704877ef4fd140b17d9785a81170 := by
  rw [show (1960 : Nat) = 20 + 1940 from rfl, pbkdfIter_add, ckE96]
  decide!

theorem ckE98 : pbkdfIter 0xf454dead9725214f90daf2a0df1228ea64e5750fa3924181824a932bf8e04e32 0xd385480f7abb647737c9c5385dd824678e043a72753434b0deb82818361d45a6 1980 0xf7ce0b653d2d72a4108cf5abe912ffdd777616dbbb27a70e8204f3ae2d0f6fadf7ce0b653d2d72a4108cf5abe912ffdd777616dbbb27a70e8204f3ae2d0f6fad = 0x839d88c456e09464aedf624f70a9637b5a9551d943f7bde717c2f06c27057098405c5326e1c1ea27eb7fa91c4733e346188e85bee1e4fc9a6b240e2975c9a10e := by
  rw [show (1980 : Nat) = 20 + 1960 from rfl, pbkdfIter_add, ckE97]
  decide!

theorem ckE99 : pbkdfIter 0xf454dead9725214f90daf2a0df1228ea64e5750fa3924181824a932bf8e04e32 0xd385480f7abb647737c9c5385dd824678e043a72753434b0deb82818361d45a6 2000 0xf7ce0b653d2d72a4108cf5abe912ffdd777616dbbb27a70e8204f3ae2d0f6fadf7ce0b653d2d72a4108cf5abe912ffdd777616dbbb27a70e8204f3ae2d0f6fad = 0x11f29740975320665a15fec51f7ecf39886de0fc0fdb78d53eb078688873a1673bea401c0f5c2f321e21c08e55eaae90e567272bae899dbce4f1c42afa81495e := by
  rw [show (2000 : Nat) = 20 + 1980 from rfl, pbkdfIter_add, ckE98]
  decide!

theorem ckE100 : pbkdfIter 0xf454dead9725214f90daf2a0df1228ea64e5750fa3924181824a932bf8e04e32 0xd385480f7abb647737c9c5385dd824678e043a72753434b0deb82818361d45a6 2020 0xf7ce0b653d2d72a4108cf5abe912ffdd777616dbbb27a70e8204f3ae2d0f6fadf7ce0b653d2d72a4108cf5abe912ffdd777616dbbb27a70e8204f3ae2d0f6fad = 0x3796e8114a7abf44a9167c47cca953668d421f233ba82c2438beef4a28a527bb41750ae515ea41d545ba6de1e7c4abca8abfdb4a33e3f337a4f127bf371f42b1 := by
  rw [show (2020 : Nat) = 20 + 2000 from rfl, pbkdfIter_add, ckE99]
  decide!

theorem ckE101 : pbkdfIter 0xf454dead9725214f90daf2a0df1228ea64e5750fa3924181824a932bf8e04e32 0xd385480f7abb647737c9c5385dd824678e043a72753434b0deb82818361d45a6 2040 0xf7ce0b653d2d72a4108cf5abe912ffdd777616dbbb27a70e8204f3ae2d0f6fadf7ce0b653d2d72a4108cf5abe912ffdd777616dbbb27a70e8204f3ae2d0f6fad = 0x8666d3f54be3d4ce19b61846d760b35cfc61e7fef27931ff09fa3b12254ef0b9930abe995ce6bb65c1cf7687dd7f086164167600e2cf1137191c439ab3d3ea7c := by
  rw [show (2040 : Nat) = 20 + 2020 from rfl, pbkdfIter_add, ckE100]
  decide!

theorem ckE102 : pbkdfIter 0xf454dead9725214f90daf2a0df1228ea64e5750fa3924181824a932bf8e04e32 0xd385480f7abb647737c9c5385dd824678e043a72753434b0deb82818361d45a6 2060 0xf7ce0b653d2d72a4108cf5abe912ffdd777616dbbb27a70e8204f3ae2d0f6fadf7ce0b653d2d72a4108cf5abe912ffdd777616dbbb27a70e8204f3ae2d0f6fad = 0x4837476a55f11c4764abc69f1df2fef089179fc1547d00676a17039e9863124f02b067c7e978bc6ac03293aee5c66f93646cd02ebb4e89fd939f664296c1c0c6 := by
  rw [show (2060 : Nat) = 20 + 2040 from rfl, pbkdfIter_add, ckE101]
  decide!

theorem ckE103 : pbkdfIter 0xf454dead9725214f90daf2a0df1228ea64e5750fa3924181824a932bf8e04e32 0xd385480f7abb647737c9c5385dd824678e043a72753434b0deb82818361d45a6 2080 0xf7ce0b653d2d72a4108cf5abe912ffdd777616dbbb27a70e8204f3ae2d0f6fadf7ce0b653d2d72a4108cf5abe912ffdd777616dbbb27a70e8204f3ae2d0f6fad = 0x83dba664c94209999207b2195125745bf2db61f1c5a5f8dd89482f225fbbecede24c062089eadf7e279c69fbd006375858d1e8b8ac6d4b9ee514fcd21a19c553 := by
  rw [show (2080 : Nat) = 20 + 2060 from rfl, pbkdfIter_add, ckE102]
  decide!

theorem ckE104 : pbkdfIter 0xf454dead9725214f90daf2a0df1228ea64e5750fa3924181824a932bf8e04e32 0xd385480f7abb647737c9c5385dd824678e043a72753434b0deb82818361d45a6 2100 0xf7ce0b653d2d72a4108cf5abe912ffdd777616dbbb27a70e8204f3ae2d0f6fadf7ce0b653d2d72a4108cf5abe912ffdd777616dbbb27a70e8204f3ae2d0f6fad = 0x4e5d815fe51397a9b541a4d47499916001d4c0e0d2803a251e3f839f5795f04ccea49298a33b23a75d7ed406fd1ae842e2e756685188da3b69a6f1d38a76f67 := by
  rw [show (2100 : Nat) = 20 + 2080 from rfl, pbkdfIter_add, ckE103]
  decide!

theorem ckE105 : pbkdfIter 0xf454dead9725214f90daf2a0df1228ea64e5750fa3924181824a932bf8e04e32 0xd385480f7abb647737c9c5385dd824678e043a72753434b0deb82818361d45a6 2120 0xf7ce0b653d2d72a4108cf5abe912ffdd777616dbbb27a70e8204f3ae2d0f6fadf7ce0b653d2d72a4108cf5abe912ffdd777616dbbb27a70e8204f3ae2d0f6fad = 0x923a28ce7899e1c0bcd6f166106880dd3c5f4d7528c1abbcdfd7529150187f950b283535636f149483d5a58319149df78aa6a2c7fb726c9353a6b7e2b3a5341c := by
  rw [show (2120 : Nat) = 20 + 2100 from rfl, pbkdfIter_add, ckE104]
  decide!

theorem ckE106 : pbkdfIter 0xf454dead9725214f90daf2a0df1228ea64e5750fa3924181824a932bf8e04e32 0xd385480f7abb647737c9c5385dd824678e043a72753434b0deb82818361d45a6 2140 0xf7ce0b653d2d72a4108cf5abe912ffdd777616dbbb27a70e8204f3ae2d0f6fadf7ce0b653d2d72a4108cf5abe912ffdd777616dbbb27a70e8204f3ae2d0f6fad = 0x444aec9531ef4e161dd22204fb6a301157e403685522073f842d87e9fcb77dbbc294d864d8db99b55d97f32bfcc17f75af688a9f8e936961828882c2a8bb3e86 := by
  rw [show (2140 : Nat) = 20 + 2120 from rfl, pbkdfIter_add, ckE105]
  decide!

theorem ckE107 : pbkdfIter 0xf454dead9725214f90daf2a0df1228ea64e5750fa3924181824a932bf8e04e32 0xd385480f7abb647737c9c5385dd824678e043a72753434b0deb82818361d45a6 2160 0xf7ce0b653d2d72a4108cf5abe912ffdd777616dbbb27a70e8204f3ae2d0f6fadf7ce0b653d2d72a4108cf5abe912ffdd777616dbbb27a70e8204f3ae2d0f6fad = 0x80992cc5d8656cd823fe01cab08afd5da66b94e88cd91177354f078aaed5ccc31c819e12152459d0e2eed79984d3c69997bccbef65c7acfd505e9d4ade9ced01 := by
  rw [show (2160 : Nat) = 20 + 2140 from rfl, pbkdfIter_add, ckE106]
  decide!

theorem ckE108 : pbkdfIter 0xf454dead9725214f90daf2a0df1228ea64e5750fa3924181824a932bf8e04e32 0xd385480f7abb647737c9c5385dd824678e043a72753434b0deb82818361d45a6 2180 0xf7ce0b653d2d72a4108cf5abe912ffdd777616dbbb27a70e8204f3ae2d0f6fadf7ce0b653d2d72a4108cf5abe912ffdd777616dbbb27a70e8204f3ae2d0f6fad = 0xfaf7a9f44727add2e9e55d1a6f0962af35d9b7c6fe4b0f9e5ed27ce633fade6e1b12b8e1f1130b3afc5e1efae22bbb116067c930045b6324e8e244885a153314 := by
  rw [show (2180 : Nat) = 20 + 2160 from rfl, pbkdfIter_add, ckE107]
  decide!

theorem ckE109 : pbkdfIter 0xf454dead9725214f90daf2a0df1228ea64e5750fa3924181824a932bf8e04e32 0xd385480f7abb647737c9c5385dd824678e043a72753434b0deb82818361d45a6 2200 0xf7ce0b653d2d72a4108cf5abe912ffdd777616dbbb27a70e8204f3ae2d0f6fadf7ce0b653d2d72a4108cf5abe912ffdd777616dbbb27a70e8204f3ae2d0f6fad = 0xc84773e65dc51b3eeec93f406c971e93a19a4279e14fa98bf8918f79ad47e55395bc3dcce023b83e016e6e29c9ce502dcf00b560779b91ca48abde4bdc589992 := by
  rw [show (2200 : Nat) = 20 + 2180 from rfl, pbkdfIter_add, ckE108]
  decide!

theorem ckE110 : pbkdfIter 0xf454dead9725214f90daf2a0df1228ea64e5750fa3924181824a932bf8e04e32 0xd385480f7abb647737c9c5385dd824678e043a72753434b0deb82818361d45a6 2220 0xf7ce0b653d2d72a4108cf5abe912ffdd777616dbbb27a70e8204f3ae2d0f6fadf7ce0b653d2d72a4108cf5abe912ffdd777616dbbb27a70e8204f3ae2d0f6fad = 0xe7a17137f59434592d8d50da3c194ae3455c6a0cfd456f885cb807c396f0e10020dca7d1801a386997b23b813fac635ceab66bdd2b59edfd6cfb4078b4fda648 := by
  rw [show (2220 : Nat) = 20 + 2200 from rfl, pbkdfIter_add, ckE109]
  decide!

theorem ckE111 : pbkdfIter 0xf454dead9725214f90daf2a0df1228ea64e5750fa3924181824a932bf8e04e32 0xd385480f7abb647737c9c5385dd824678e043a72753434b0deb82818361d45a6 2240 0xf7ce0b653d2d72a4108cf5abe912ffdd777616dbbb27a70e8204f3ae2d0f6fadf7ce0b653d2d72a4108cf5abe912ffdd777616dbbb27a70e8204f3ae2d0f6fad = 0x163e6e5d602d7a44132fad871a894ecc24947b7e08a20a02f6a6ce2ba9909bfca626b1c42a6c984886aea83fe5586470d3a877cd5d54d4928630b42e8487826d := by
  rw [show (2240 : Nat) = 20 + 2220 from rfl, pbkdfIter_add, ckE110]
  decide!

theorem ckE112 : pbkdfIter 0xf454dead9725214f90daf2a0df1228ea64e5750fa3924181824a932bf8e04e32 0xd385480f7abb647737c9c5385dd824678e043a72753434b0deb82818361d45a6 2260 0xf7ce0b653d2d72a4108cf5abe912ffdd777616dbbb27a70e8204f3ae2d0f6fadf7ce0b653d2d72a4108cf5abe912ffdd777616dbbb27a70e8204f3ae2d0f6fad = 0xe59a29a3fc63a4f3ea9bfcde06077c0ab6d4fcf2af26e92d15e66f9e35f9aa82038b35187b4204af5b05a6e9f7b6615331b132f434b3b1c8ae9586ae08575421 := by
  rw [show (2260 : Nat) = 20 + 2240 from rfl, pbkdfIter_add, ckE111]
  decide!

theorem ckE113 : pbkdfIter 0xf454dead9725214f90daf2a0df1228ea64e5750fa3924181824a932bf8e04e32 0xd385480f7abb647737c9c5385dd824678e043a72753434b0deb82818361d45a6 2280 0xf7ce0b653d2d72a4108cf5abe912ffdd777616dbbb27a70e8204f3ae2d0f6fadf7ce0b653d2d72a4108cf5abe912ffdd777616dbbb27a70e8204f3ae2d0f6fad = 0xb38089c1899630e6e798d9030158680ca014932908ba7cf63f488ae178d402d24e02ea14a6450fce625dfbfe0ba15ff910bb982f3ec22b3cbd6f854c441217a4 := by
  rw [show (2280 : Nat) = 20 + 2260 from rfl, pbkdfIter_add, ckE112]
  decide!

theorem ckE114 : pbkdfIter 0xf454dead9725214f90daf2a0df1228ea64e5750fa3924181824a932bf8e04e32 0xd385480f7abb647737c9c5385dd824678e043a72753434b0deb82818361d45a6 2300 0xf7ce0b653d2d72a4108cf5abe912ffdd777616dbbb27a70e8204f3ae2d0f6fadf7ce0b653d2d72a4108cf5abe912ffdd777616dbbb27a70e8204f3ae2d0f6fad = 0xe570db257899b5fe7150880d6687543204559dd7475742cf17dfe327482c01637e8bfb78b261476b0932785737145944b7c3a2edfaa14463a86900a0c4016c3d := by
  rw [show (2300 : Nat) = 20 + 2280 from rfl, pbkdfIter_add, ckE113]
  decide!

theorem ckE115 : pbkdfIter 0xf454dead9725214f90daf2a0df1228ea64e5750fa3924181824a932bf8e04e32 0xd385480f7abb647737c9c5385dd824678e043a72753434b0deb82818361d45a6 2320 0xf7ce0b653d2d72a4108cf5abe912ffdd777616dbbb27a70e8204f3ae2d0f6fadf7ce0b653d2d72a4108cf5abe912ffdd777616dbbb27a70e8204f3ae2d0f6fad = 0xc2b2f411044f01dfa7fe838d0739ea9f1fd00acae920cf6ce1ce97f4dc4d6369d238c8a61de2fbc0ae17c6d70d7f74db44650a2b969b85d7c59a532af6c2dbf7 := by
  rw [show (2320 : Nat) = 20 + 2300 from rfl, pbkdfIter_add, ckE114]
  decide!

theorem ckE116 : pbkdfIter 0xf454dead9725214f90daf2a0df1228ea64e5750fa3924181824a932bf8e04e32 0xd385480f7abb647737c9c5385dd824678e043a72753434b0deb82818361d45a6 2340 0xf7ce0b653d2d72a4108cf5abe912ffdd777616dbbb27a70e8204f3ae2d0f6fadf7ce0b653d2d72a4108cf5abe912ffdd777616dbbb27a70e8204f3ae2d0f6fad = 0x1456e18a9d3e1827a89355706e661f8db092cc18a429a7867d4b0c5a30ab01af991d0d797a1a11d8443be428a1e0670f8468c7f829ca755103707bf4b1810cf6 := by
  rw [show (2340 : Nat) = 20 + 2320 from rfl, pbkdfIter_add, ckE115]
  decide!

theorem ckE117 : pbkdfIter 0xf454dead9725214f90daf2a0df1228ea64e5750fa3924181824a932bf8e04e32 0xd385480f7abb647737c9c5385dd824678e043a72753434b0deb82818361d45a6 2360 0xf7ce0b653d2d72a4108cf5abe912ffdd777616dbbb27a70e8204f3ae2d0f6fadf7ce0b653d2d72a4108cf5abe912ffdd777616dbbb27a70e8204f3ae2d0f6fad = 0x9a3775f9b83f0579c7c8ef9c51ba108e0057f484502da620895ae15701af946eede91227d7356d4029103844ce817730da00d8081d7cccd30bd8e90e37571414 := by
  rw [show (2360 : Nat) = 20 + 2340 from rfl, pbkdfIter_add, ckE116]
  decide!

theorem ckE118 : pbkdfIter 0xf454dead9725214f90daf2a0df1228ea64e5750fa3924181824a932bf8e04e32 0xd385480f7abb647737c9c5385dd824678e043a72753434b0deb82818361d45a6 2380 0xf7ce0b653d2d72a4108cf5abe912ffdd777616dbbb27a70e8204f3ae2d0f6fadf7ce0b653d2d72a4108cf5abe912ffdd777616dbbb27a70e8204f3ae2d0f6fad = 0x99103971973fd1c77a899a8eecb4a2e114ac3502fb81986ec42e3341641147fd622d97e7495df32f0a74b1bae2da33dbe119d8b0f21ae548f137a5dccf4d060 := by
  rw [show (2380 : Nat) = 20 + 2360 from rfl, pbkdfIter_add, ckE117]
  decide!

theorem ckE119 : pbkdfIter 0xf454dead9725214f90daf2a0df1228ea64e5750fa3924181824a932bf8e04e32 0xd385480f7abb647737c9c5385dd824678e043a72753434b0deb82818361d45a6 2400 0xf7ce0b653d2d72a4108cf5abe912ffdd777616dbbb27a70e8204f3ae2d0f6fadf7ce0b653d2d72a4108cf5abe912ffdd777616dbbb27a70e8204f3ae2d0f6fad = 0xbd3fd58ddd291b415d973042dc229b48aecfe4455a4855021bd98e08bb3b4d8cf7d1f74c0ad71d6fabf15b9dfeebcd1ab000ab66720161b6f1faf46e0a08d870 := by
  rw [show (2400 : Nat) = 20 + 2380 from rfl, pbkdfIter_add, ckE118]
  decide!

theorem ckE120 : pbkdfIter 0xf454dead9725214f90daf2a0df1228ea64e5750fa3924181824a932bf8e04e32 0xd385480f7abb647737c9c5385dd824678e043a72753434b0deb82818361d45a6 2420 0xf7ce0b653d2d72a4108cf5abe912ffdd777616dbbb27a70e8204f3ae2d0f6fadf7ce0b653d2d72a4108cf5abe912ffdd777616dbbb27a70e8204f3ae2d0f6fad = 0x1ab2e225b7024b476a05d285f20b887379fb74055f65788db96b1f5f05294f3dce01b51e45d919f3565915afe115b8f03681e962c433d408e2abda7b0695cc8d := by
  rw [show (2420 : Nat) = 20 + 2400 from rfl, pbkdfIter_add, ckE119]
  decide!

theorem ckE121 : pbkdfIter 0xf454dead9725214f90daf2a0df1228ea64e5750fa3924181824a932bf8e04e32 0xd385480f7abb647737c9c5385dd824678e043a72753434b0deb82818361d45a6 2440 0xf7ce0b653d2d72a4108cf5abe912ffdd777616dbbb27a70e8204f3ae2d0f6fadf7ce0b653d2d72a4108cf5abe912ffdd777616dbbb27a70e8204f3ae2d0f6fad = 0x5e26d4a080671512a9b4127d78967c54441079c0d6b35912e9c185eef81dd625824c0547305a160be042b6eb579919372f7658322321eaa4a666cb666be91a99 := by
  rw [show (2440 : Nat) = 20 + 2420 from rfl, pbkdfIter_add, ckE120]
  decide!

theorem ckE122 : pbkdfIter 0xf454dead9725214f90daf2a0df1228ea64e5750fa3924181824a932bf8e04e32 0xd385480f7abb647737c9c5385dd824678e043a72753434b0deb82818361d45a6 2460 0xf7ce0b653d2d72a4108cf5abe912ffdd777616dbbb27a70e8204f3ae2d0f6fadf7ce0b653d2d72a4108cf5abe912ffdd777616dbbb27a70e8204f3ae2d0f6fad = 0x434cb72f99ee7b3511d374197360d8701a9fd3843db21402b19d077800cd03d1df6a67924b508a7f05ed6aedee60097885b1b157ea1532cd389f9a9370b75aea := by
  rw [show (2460 : Nat) = 20 + 2440 from rfl, pbkdfIter_add, ckE121]
  decide!

theorem ckE123 : pbkdfIter 0xf454dead9725214f90daf2a0df1228ea64e5750fa3924181824a932bf8e04e32 0xd385480f7abb647737c9c5385dd824678e043a72753434b0deb82818361d45a6 2480 0xf7ce0b653d2d72a4108cf5abe912ffdd777616dbbb27a70e8204f3ae2d0f6fadf7ce0b653d2d72a4108cf5abe912ffdd777616dbbb27a70e8204f3ae2d0f6fad = 0xe2424200d4be516ee697553f73c7390072b71f9c24394e64ef261547721d70ab0335c2000a515a789f98fc68175c3293b8cde69fad701acb1f49bf8b7e4317db := by
  rw [show (2480 : Nat) = 20 + 2460 from rfl, pbkdfIter_add, ckE122]
  decide!

theorem ckE124 : pbkdfIter 0xf454dead9725214f90daf2a0df1228ea64e5750fa3924181824a932bf8e04e32 0xd385480f7abb647737c9c5385dd824678e043a72753434b0deb82818361d45a6 2500 0xf7ce0b653d2d72a4108cf5abe912ffdd777616dbbb27a70e8204f3ae2d0f6fadf7ce0b653d2d72a4108cf5abe912ffdd777616dbbb27a70e8204f3ae2d0f6fad = 0xc8a6a9e391d7ddccc9f1def4bdbfc099bf76c161beb31d9117a422880f8c5977e37a8f717467d295f0bd7271791cb544756eb7fa8475d3e29b360d17029239cb := by
  rw [show (2500 : Nat) = 20 + 2480 from rfl, pbkdfIter_add, ckE123]
  decide!

theorem ckE125 : pbkdfIter 0xf454dead9725214f90daf2a0df1228ea64e5750fa3924181824a932bf8e04e32 0xd385480f7abb647737c9c5385dd824678e043a72753434b0deb82818361d45a6 2520 0xf7ce0b653d2d72a4108cf5abe912ffdd777616dbbb27a70e8204f3ae2d0f6fadf7ce0b653d2d72a4108cf5abe912ffdd777616dbbb27a70e8204f3ae2d0f6fad = 0x7047394965e5a233079329ce02b2662cd7f146eafdb4ced0dfa617ca4a89fbafc3982452e14de35444cbefca5c5fdd47f69ad4a8fb8f1488ef71b3e78036d737 := by
  rw [show (2520 : Nat) = 20 + 2500 from rfl, pbkdfIter_add, ckE124]
  decide!

theorem ckE126 : pbkdfIter 0xf454dead9725214f90daf2a0df1228ea64e5750fa3924181824a932bf8e04e32 0xd385480f7abb647737c9c5385dd824678e043a72753434b0deb82818361d45a6 2540 0xf7ce0b653d2d72a4108cf5abe912ffdd777616dbbb27a70e8204f3ae2d0f6fadf7ce0b653d2d72a4108cf5abe912ffdd777616dbbb27a70e8204f3ae2d0f6fad = 0x452fd89d6315e31444982a510a6427dc52567ee4b1822f927f903dbcc3d721605479b849412aa3cf669a4b7c2957afe6e3f01a3836c522f3c06595cc3544ed6b := by
  rw [show (2540 : Nat) = 20 + 2520 from rfl, pbkdfIter_add, ckE125]
  decide!

theorem ckE127 : pbkdfIter 0xf454dead9725214f90daf2a0df1228ea64e5750fa3924181824a932bf8e04e32 0xd385480f7abb647737c9c5385dd824678e043a72753434b0deb82818361d45a6 2560 0xf7ce0b653d2d72a4108cf5abe912ffdd777616dbbb27a70e8204f3ae2d0f6fadf7ce0b653d2d72a4108cf5abe912ffdd777616dbbb27a70e8204f3ae2d0f6fad = 0x5e30b3358d915abf99d31bd8cccb1f49fdd1d896ba529258264bab8be5a1ed75624d0d094f9818b02b9655ef5f84211f7100f28f462621c6f33d2b466c40c3a2 := by
  rw [show (2560 : Nat) = 20 + 2540 from rfl, pbkdfIter_add, ckE126]
  decide!

theorem ckE128 : pbkdfIter 0xf454dead9725214f90daf2a0df1228ea64e5750fa3924181824a932bf8e04e32 0xd385480f7abb647737c9c5385dd824678e043a72753434b0deb82818361d45a6 2580 0xf7ce0b653d2d72a4108cf5abe912ffdd777616dbbb27a70e8204f3ae2d0f6fadf7ce0b653d2d72a4108cf5abe912ffdd777616dbbb27a70e8204f3ae2d0f6fad = 0x3d4db6e16c46afa12ad7a15472debf9e05d60eb6bcd40717835c37b87fba9b077f60ac876168a71e6f84241d7aa527a16f8c7c9f1d813188fb3cedda625229f9 := by
  rw [show (2580 : Nat) = 20 + 2560 from rfl, pbkdfIter_add, ckE127]
  decide!

theorem ckE129 : pbkdfIter 0xf454dead9725214f90daf2a0df1228ea64e5750fa3924181824a932bf8e04e32 0xd385480f7abb647737c9c5385dd824678e043a72753434b0deb82818361d45a6 2600 0xf7ce0b653d2d72a4108cf5abe912ffdd777616dbbb27a70e8204f3ae2d0f6fadf7ce0b653d2d72a4108cf5abe912ffdd777616dbbb27a70e8204f3ae2d0f6fad = 0xfc5b9e35025ce7511e238dddeb3c250a8ca8c818159e0fc5a7a01d99169ab3ec61f9b7029901a91936dcd8006c15acfe3d376ad085d1c6e39801e53b74c9b963 := by
  rw [show (2600 : Nat) = 20 + 2580 from rfl, pbkdfIter_add, ckE128]
  decide!

theorem ckE130 : pbkdfIter 0xf454dead9725214f90daf2a0df1228ea64e5750fa3924181824a932bf8e04e32 0xd385480f7abb647737c9c5385dd824678e043a72753434b0deb82818361d45a6 2620 0xf7ce0b653d2d72a4108cf5abe912ffdd777616dbbb27a70e8204f3ae2d0f6fadf7ce0b653d2d72a4108cf5abe912ffdd777616dbbb27a70e8204f3ae2d0f6fad = 0x9efc3edb465c494e35647c954036e8525c5aa86968b2a02e70e87048060ecd89ddf4ab1a3894a39faf87d26e45fbb2a5142c500de638ae9a73c6c5dc91610bab := by
  rw [show (2620 : Nat) = 20 + 2600 from rfl, pbkdfIter_add, ckE129]
  decide!

theorem ckE131 : pbkdfIter 0xf454dead9725214f90daf2a0df1228ea64e5750fa3924181824a932bf8e04e32 0xd385480f7abb647737c9c5385dd824678e043a72753434b0deb82818361d45a6 2640 0xf7ce0b653d2d72a4108cf5abe912ffdd777616dbbb27a70e8204f3ae2d0f6fadf7ce0b653d2d72a4108cf5abe912ffdd777616dbbb27a70e8204f3ae2d0f6fad = 0x484645c97488d4e4a4282233e8d7284111423613872d919859cbb57f07dac4c590036f0d8445499f66c440029dcec02e2dbffcce9dd55dc51267483eae866a3c := by
  rw [show (2640 : Nat) = 20 + 2620 from rfl, pbkdfIter_add, ckE130]
  decide!

theorem ckE132 : pbkdfIter 0xf454dead9725214f90daf2a0df1228ea64e5750fa3924181824a932bf8e04e32 0xd385480f7abb647737c9c5385dd824678e043a72753434b0deb82818361d45a6 2660 0xf7ce0b653d2d72a4108cf5abe912ffdd777616dbbb27a70e8204f3ae2d0f6fadf7ce0b653d2d72a4108cf5abe912ffdd777616dbbb27a70e8204f3ae2d0f6fad = 0xa99f700e2a94d8a11a053502ab33b67727d66cb231003f7905e6ef2c56dc9706a5a7ba3deb98154401fd7d57581203b03ef5bd27ab8ff9e59a8a0f397fa6a27b := by
  rw [show (2660 : Nat) = 20 + 2640 from rfl, pbkdfIter_add, ckE131]
  decide!

theorem ckE133 : pbkdfIter 0xf454dead9725214f90daf2a0df1228ea64e5750fa3924181824a932bf8e04e32 0xd385480f7abb647737c9c5385dd824678e043a72753434b0deb82818361d45a6 2680 0xf7ce0b653d2d72a4108cf5abe912ffdd777616dbbb27a70e8204f3ae2d0f6fadf7ce0b653d2d72a4108cf5abe912ffdd777616dbbb27a70e8204f3ae2d0f6fad = 0x38d2a83e3a44519765277155d8535d93645efb825282d739de58853936135eda833217b8707865ff9a9761cf3baeb12ed57d595727a6d867001430391e5ead0d := by
  rw [show (2680 : Nat) = 20 + 2660 from rfl, pbkdfIter_add, ckE132]
  decide!

theorem ckE134 : pbkdfIter 0xf454dead9725214f90daf2a0df1228ea64e5750fa3924181824a932bf8e04e32 0xd385480f7abb647737c9c5385dd824678e043a72753434b0deb82818361d45a6 2700 0xf7ce0b653d2d72a4108cf5abe912ffdd777616dbbb27a70e8204f3ae2d0f6fadf7ce0b653d2d72a4108cf5abe912ffdd777616dbbb27a70e8204f3ae2d0f6fad = 0x5a6dac4f4df7b4dab8c94b77bf6e28ad5e5d2220cec1ec28b5de3b04adc6e3018450c7287559ac00035b706f5d32997250d16798d3fa4affeb08ba6185aac524 := by
  rw [show (2700 : Nat) = 20 + 2680 from rfl, pbkdfIter_add, ckE133]
  decide!

theorem ckE135 : pbkdfIter 0xf454dead9725214f90daf2a0df1228ea64e5750fa3924181824a932bf8e04e32 0xd385480f7abb647737c9c5385dd824678e043a72753434b0deb82818361d45a6 2720 0xf7ce0b653d2d72a4108cf5abe912ffdd777616dbbb27a70e8204f3ae2d0f6fadf7ce0b653d2d72a4108cf5abe912ffdd777616dbbb27a70e8204f3ae2d0f6fad = 0x5a9bb393e1c3e487464ddec87039522047b80fbecc2c7f35ab578ee90b229b5bee49fca7de3eb1c722c1501d08bb9a1c62b7139df5fc436d54c0b3966cf4e210 := by
  rw [show (2720 : Nat) = 20 + 2700 from rfl, pbkdfIter_add, ckE134]
  decide!

theorem ckE136 : pbkdfIter 0xf454dead9725214f90daf2a0df1228ea64e5750fa3924181824a932bf8e04e32 0xd385480f7abb647737c9c5385dd824678e043a72753434b0deb82818361d45a6 2740 0xf7ce0b653d2d72a4108cf5abe912ffdd777616dbbb27a70e8204f3ae2d0f6fadf7ce0b653d2d72a4108cf5abe912ffdd777616dbbb27a70e8204f3ae2d0f6fad = 0x468af187fe2332877b76bc970c1db27409ca24fe3f493748745991e6a810f359078069a7453211e44ded3e4c287b9db95e5738deca91b21a3ab808892ec4ac19 := by
  rw [show (2740 : Nat) = 20 + 2720 from rfl, pbkdfIter_add, ckE135]
  decide!

theorem ckE137 : pbkdfIter 0xf454dead9725214f90daf2a0df1228ea64e5750fa3924181824a932bf8e04e32 0xd385480f7abb647737c9c5385dd824678e043a72753434b0deb82818361d45a6 2760 0xf7ce0b653d2d72a4108cf5abe912ffdd777616dbbb27a70e8204f3ae2d0f6fadf7ce0b653d2d72a4108cf5abe912ffdd777616dbbb27a70e8204f3ae2d0f6fad = 0x7d9b82f72b3c3c5bce3230e47fc4a37e6dc4d93fc38cc8dd8d97c71634e4bd91070d8ac8c971590e900aae29b9bc6b6a8b2b93fd858c5057924e65bcd6bb32c8 := by
  rw [show (2760 : Nat) = 20 + 2740 from rfl, pbkdfIter_add, ckE136]
  decide!

theorem ckE138 : pbkdfIter 0xf454dead9725214f90daf2a0df1228ea64e5750fa3924181824a932bf8e04e32 0xd385480f7abb647737c9c5385dd824678e043a72753434b0deb82818361d45a6 2780 0xf7ce0b653d2d72a4108cf5abe912ffdd777616dbbb27a70e8204f3ae2d0f6fadf7ce0b653d2d72a4108cf5abe912ffdd777616dbbb27a70e8204f3ae2d0f6fad = 0x5964e475274d0959504d3ba3ca9b7f43a3f482c6d7cbcad7f7a01db675f2700ee32a2ea9d6372fd7b4d60b5b78cd21b127ed712a72152391355c5e675b53c75d := by
  rw [show (2780 : Nat) = 20 + 2760 from rfl, pbkdfIter_add, ckE137]
  decide!

theorem ckE139 : pbkdfIter 0xf454dead9725214f90daf2a0df1228ea64e5750fa3924181824a932bf8e04e32 0xd385480f7abb647737c9c5385dd824678e043a72753434b0deb82818361d45a6 2800 0xf7ce0b653d2d72a4108cf5abe912ffdd777616dbbb27a70e8204f3ae2d0f6fadf7ce0b653d2d72a4108cf5abe912ffdd777616dbbb27a70e8204f3ae2d0f6fad = 0x634583999520208be7519aee5b865ad3b0dbc43312d1821db9ab95af76f68aa59324efda5919dcfd3f6a448e87c1a1bcf10d11cfa432ad370c2136a26d381173 := by
  rw [show (2800 : Nat) = 20 + 2780 from rfl, pbkdfIter_add, ckE138]
  decide!

theorem ckE140 : pbkdfIter 0xf454dead9725214f90daf2a0df1228ea64e5750fa3924181824a932bf8e04e32 0xd385480f7abb647737c9c5385dd824678e043a72753434b0deb82818361d45a6 2820 0xf7ce0b653d2d72a4108cf5abe912ffdd777616dbbb27a70e8204f3ae2d0f6fadf7ce0b653d2d72a4108cf5abe912ffdd777616dbbb27a70e8204f3ae2d0f6fad = 0x255316c3c84d523461af84b75f3e018f91e2c36d325b2b948439f0d258a10e92137437ded155b314bf5af54479c54f0100e5c502f4640d1f0445cac67fec8f72 := by
  rw [show (2820 : Nat) = 20 + 2800 from rfl, pbkdfIter_add, ckE139]
  decide!

theorem ckE141 : pbkdfIter 0xf454dead9725214f90daf2a0df1228ea64e5750fa3924181824a932bf8e04e32 0xd385480f7abb647737c9c5385dd824678e043a72753434b0deb82818361d45a6 2840 0xf7ce0b653d2d72a4108cf5abe912ffdd777616dbbb27a70e8204f3ae2d0f6fadf7ce0b653d2d72a4108cf5abe912ffdd777616dbbb27a70e8204f3ae2d0f6fad = 0xdc31a5f8227fced4678e46460ce2ce0e2ef4c301a4232f3736213d43f80e84008900b81b8c691dece92e60d37ae1f5ae989bddda66f73aac22d21bf634b5e57f := by
  rw [show (2840 : Nat) = 20 + 2820 from rfl, pbkdfIter_add, ckE140]
  decide!

theorem ckE142 : pbkdfIter 0xf454dead9725214f90daf2a0df1228ea64e5750fa3924181824a932bf8e04e32 0xd385480f7abb647737c9c5385dd824678e043a72753434b0deb82818361d45a6 2860 0xf7ce0b653d2d72a4108cf5abe912ffdd777616dbbb27a70e8204f3ae2d0f6fadf7ce0b653d2d72a4108cf5abe912ffdd777616dbbb27a70e8204f3ae2d0f6fad = 0x7e6a0668f003640551449a1d762b9ca428d6ddf38ad44b4e18a544df63d88ad3de2cc01b5d237ac5f7a51b126f13d4e8d196862397d6a098525b604b6a0a9256 := by
  rw [show (2860 : Nat) = 20 + 2840 from rfl, pbkdfIter_add, ckE141]
  decide!

theorem ckE143 : pbkdfIter 0xf454dead9725214f90daf2a0df1228ea64e5750fa3924181824a932bf8e04e32 0xd385480f7abb647737c9c5385dd824678e043a72753434b0deb82818361d45a6 2880 0xf7ce0b653d2d72a4108cf5abe912ffdd777616dbbb27a70e8204f3ae2d0f6fadf7ce0b653d2d72a4108cf5abe912ffdd777616dbbb27a70e8204f3ae2d0f6fad = 0x38c6995252e70c486cca10c77fea65f7c3eec96c4a291568b8104dd6df42c7429184946bc7910026966b0d7b35d090ea14b8c79f8dee768f69ab77f7204d68fe := by
  rw [show (2880 : Nat) = 20 + 2860 from rfl, pbkdfIter_add, ckE142]
  decide!

theorem ckE144 : pbkdfIter 0xf454dead9725214f90daf2a0df1228ea64e5750fa3924181824a932bf8e04e32 0xd385480f7abb647737c9c5385dd824678e043a72753434b0deb82818361d45a6 2900 0xf7ce0b653d2d72a4108cf5abe912ffdd777616dbbb27a70e8204f3ae2d0f6fadf7ce0b653d2d72a4108cf5abe912ffdd777616dbbb27a70e8204f3ae2d0f6fad = 0x31fd7eafcbadf7d26e9bfa32f64abd48e87db9b9045f51f59b65a1d19e6c5fb97c97dcff9eb02bdb802fb1c1f16ba76de010745120d782b0d130eeb61f5dd7aa := by
  rw [show (2900 : Nat) = 20 + 2880 from rfl, pbkdfIter_add, ckE143]
  decide!

theorem ckE145 : pbkdfIter 0xf454dead9725214f90daf2a0df1228ea64e5750fa3924181824a932bf8e04e32 0xd385480f7abb647737c9c5385dd824678e043a72753434b0deb82818361d45a6 2920 0xf7ce0b653d2d72a4108cf5abe912ffdd777616dbbb27a70e8204f3ae2d0f6fadf7ce0b653d2d72a4108cf5abe912ffdd777616dbbb27a70e8204f3ae2d0f6fad = 0xa5d751fd4f133c1dc29c3eb94d3b0d011e961098a62c270fa05601965e201474cf948ad5c2a5c8a1ab6097c06ab186ddeb36fca992abfb316aee12936cbc6068 := by
  rw [show (2920 : Nat) = 20 + 2900 from rfl, pbkdfIter_add, ckE144]
  decide!

theorem ckE146 : pbkdfIter 0xf454dead9725214f90daf2a0df1228ea64e5750fa3924181824a932bf8e04e32 0xd385480f7abb647737c9c5385dd824678e043a72753434b0deb82818361d45a6 2940 0xf7ce0b653d2d72a4108cf5abe912ffdd777616dbbb27a70e8204f3ae2d0f6fadf7ce0b653d2d72a4108cf5abe912ffdd777616dbbb27a70e8204f3ae2d0f6fad = 0x47934448068b7835101ed6143484b739179bd9814b290f7af94ff96d2467c9d930137993e4f3fb6e8254947e9e000bbce7ca104d650707c3c7ce22f064661380 := by
  rw [show (2940 : Nat) = 20 + 2920 from rfl, pbkdfIter_add, ckE145]
  decide!

theorem ckE147 : pbkdfIter 0xf454dead9725214f90daf2a0df1228ea64e5750fa3924181824a932bf8e04e32 0xd385480f7abb647737c9c5385dd824678e043a72753434b0deb82818361d45a6 2960 0xf7ce0b653d2d72a4108cf5abe912ffdd777616dbbb27a70e8204f3ae2d0f6fadf7ce0b653d2d72a4108cf5abe912ffdd777616dbbb27a70e8204f3ae2d0f6fad = 0x14fdd6a1b6f7619cb189372ab0bd99ff61094e2484af093cc7d2d4dab54c0c5c90964aaf62711b5f2ee91a39ce17a999e5b2baeb42c4988bbb49d9ed10dc50c2 := by
  rw [show (2960 : Nat) = 20 + 2940 from rfl, pbkdfIter_add, ckE146]
  decide!

theorem ckE148 : pbkdfIter 0xf454dead9725214f90daf2a0df1228ea64e5750fa3924181824a932bf8e04e32 0xd385480f7abb647737c9c5385dd824678e043a72753434b0deb82818361d45a6 2980 0xf7ce0b653d2d72a4108cf5abe912ffdd777616dbbb27a70e8204f3ae2d0f6fadf7ce0b653d2d72a4108cf5abe912ffdd777616dbbb27a70e8204f3ae2d0f6fad = 0xad8fede86dd65c80b7c939449df558ef60cb07fcedc87e2e69fedd9126a91d327b7fd380c1717f38605ac280249cc04d01bf6bc4e9baa7169e9512995bf2e023 := by
  rw [show (2980 : Nat) = 20 + 2960 from rfl, pbkdfIter_add, ckE147]
  decide!

theorem ckE149 : pbkdfIter 0xf454dead9725214f90daf2a0df1228ea64e5750fa3924181824a932bf8e04e32 0xd385480f7abb647737c9c5385dd824678e043a72753434b0deb82818361d45a6 3000 0xf7ce0b653d2d72a4108cf5abe912ffdd777616dbbb27a70e8204f3ae2d0f6fadf7ce0b653d2d72a4108cf5abe912ffdd777616dbbb27a70e8204f3ae2d0f6fad = 0x4ea1f9365419f785c87fa469b1adda23e5e43e3ddfd99294d8c8dd0adf673b7c3e969fbc91a7999291c4c97bee96f60938c6acae8e1d85817fbe65deb7bd7e1f := by
  rw [show (3000 : Nat) = 20 + 2980 from rfl, pbkdfIter_add, ckE148]
  decide!

theorem ckE150 : pbkdfIter 0xf454dead9725214f90daf2a0df1228ea64e5750fa3924181824a932bf8e04e32 0xd385480f7abb647737c9c5385dd824678e043a72753434b0deb82818361d45a6 3020 0xf7ce0b653d2d72a4108cf5abe912ffdd777616dbbb27a70e8204f3ae2d0f6fadf7ce0b653d2d72a4108cf5abe912ffdd777616dbbb27a70e8204f3ae2d0f6fad = 0x33fe3eb5f232e3a340fcc8ac50a5ff25f8c773086e0cdabc03a4e6104906d79068623f89442c1ef224e8bdc413e1b51dd1e82b91f8924705011cfc8bea374acb := by
  rw [show (3020 : Nat) = 20 + 3000 from rfl, pbkdfIter_add, ckE149]
  decide!

theorem ckE151 : pbkdfIter 0xf454dead9725214f90daf2a0df1228ea64e5750fa3924181824a932bf8e04e32 0xd385480f7abb647737c9c5385dd824678e043a72753434b0deb82818361d45a6 3040 0xf7ce0b653d2d72a4108cf5abe912ffdd777616dbbb27a70e8204f3ae2d0f6fadf7ce0b653d2d72a4108cf5abe912ffdd777616dbbb27a70e8204f3ae2d0f6fad = 0xc1bd2b68a667489a8f339b39e48e6d63ab7bfa0c4cf70825d7b46826de6b6ffb8c6c936d8fc3c24327fbe15ad0821a64b6318f6dc8899c8b662819f32f6cbd1f := by
  rw [show (3040 : Nat) = 20 + 3020 from rfl, pbkdfIter_add, ckE150]
  decide!

theorem ckE152 : pbkdfIter 0xf454dead9725214f90daf2a0df1228ea64e5750fa3924181824a932bf8e04e32 0xd385480f7abb647737c9c5385dd824678e043a72753434b0deb82818361d45a6 3060 0xf7ce0b653d2d72a4108cf5abe912ffdd777616dbbb27a70e8204f3ae2d0f6fadf7ce0b653d2d72a4108cf5abe912ffdd777616dbbb27a70e8204f3ae2d0f6fad = 0x1657e9f65e704049f0a49e7051f277d2989d5247c06ac6ae87e6bffd9a4f095fc6fef0b4a75618703b50b5d7bd3113fcd9b41cc3b2d563a2762b3323dcdb5953 := by
  rw [show (3060 : Nat) = 20 + 3040 from rfl, pbkdfIter_add, ckE151]
  decide!

theorem ckE153 : pbkdfIter 0xf454dead9725214f90daf2a0df1228ea64e5750fa3924181824a932bf8e04e32 0xd385480f7abb647737c9c5385dd824678e043a72753434b0deb82818361d45a6 3080 0xf7ce0b653d2d72a4108cf5abe912ffdd777616dbbb27a70e8204f3ae2d0f6fadf7ce0b653d2d72a4108cf5abe912ffdd777616dbbb27a70e8204f3ae2d0f6fad = 0xe3c4c496a0d0613de3293e8e98a90092c0e49090e2b04c891bea1ead2d2725aa9357c7b4e6351dc41fe7fe9d131e3c0aeb64240955fc3ba7a2a02e53fc8beb4c := by
  rw [show (3080 : Nat) = 20 + 3060 from rfl, pbkdfIter_add, ckE152]
  decide!

theorem ckE154 : pbkdfIter 0xf454dead9725214f90daf2a0df1228ea64e5750fa3924181824a932bf8e04e32 0xd385480f7abb647737c9c5385dd824678e043a72753434b0deb82818361d45a6 3100 0xf7ce0b653d2d72a4108cf5abe912ffdd777616dbbb27a70e8204f3ae2d0f6fadf7ce0b653d2d72a4108cf5abe912ffdd777616dbbb27a70e8204f3ae2d0f6fad = 0x3883fdb0b874d6679883f6c629b5aa9bb0dddc23ae071a00092ba1ae713a8e81b658948cbf6234a2ea6d051fae5ce8c004101a60857c6d46456a273b36821056 := by
  rw [show (3100 : Nat) = 20 + 3080 from rfl, pbkdfIter_add, ckE153]
  decide!

theorem ckE155 : pbkdfIter 0xf454dead9725214f90daf2a0df1228ea64e5750fa3924181824a932bf8e04e32 0xd385480f7abb647737c9c5385dd824678e043a72753434b0deb82818361d45a6 3120 0xf7ce0b653d2d72a4108cf5abe912ffdd777616dbbb27a70e8204f3ae2d0f6fadf7ce0b653d2d72a4108cf5abe912ffdd777616dbbb27a70e8204f3ae2d0f6fad = 0xbac9c01595c45847a6aaea4750bec474f075d916cfc80b514ed9c1a0dcf0e9d32171a5595c7aa3e3a4cba219a553433dcd1e8fe93b0c350f63d63d308e8ad643 := by
  rw [show (3120 : Nat) = 20 + 3100 from rfl, pbkdfIter_add, ckE154]
  decide!

theorem ckE156 : pbkdfIter 0xf454dead9725214f90daf2a0df1228ea64e5750fa3924181824a932bf8e04e32 0xd385480f7abb647737c9c5385dd824678e043a72753434b0deb82818361d45a6 3140 0xf7ce0b653d2d72a4108cf5abe912ffdd777616dbbb27a70e8204f3ae2d0f6fadf7ce0b653d2d72a4108cf5abe912ffdd777616dbbb27a70e8204f3ae2d0f6fad = 0xaf8d5f1f55e35b9c16e8c835f4bd765703129e070c73eeb7a55b8db6263b76f91ec008bf36292de6872f24ef857489d140cf6cfb2fee77a30bf22b18b528384 := by
  rw [show (3140 : Nat) = 20 + 3120 from rfl, pbkdfIter_add, ckE155]
  decide!

theorem ckE157 : pbkdfIter 0xf454dead9725214f90daf2a0df1228ea64e5750fa3924181824a932bf8e04e32 0xd385480f7abb647737c9c5385dd824678e043a72753434b0deb82818361d45a6 3160 0xf7ce0b653d2d72a4108cf5abe912ffdd777616dbbb27a70e8204f3ae2d0f6fadf7ce0b653d2d72a4108cf5abe912ffdd777616dbbb27a70e8204f3ae2d0f6fad = 0x568d9b9b3c7f85412f9d3ab1232e0c5b270dfb8078af0ee173c9711cd1a468a54a4e34ead55d80239c9bb838f180b1191205c5ac7218c6c1194d504a6b9373c4 := by
  rw [show (3160 : Nat) = 20 + 3140 from rfl, pbkdfIter_add, ckE156]
  decide!

theorem ckE158 : pbkdfIter 0xf454dead9725214f90daf2a0df1228ea64e5750fa3924181824a932bf8e04e32 0xd385480f7abb647737c9c5385dd824678e043a72753434b0deb82818361d45a6 3180 0xf7ce0b653d2d72a4108cf5abe912ffdd777616dbbb27a70e8204f3ae2d0f6fadf7ce0b653d2d72a4108cf5abe912ffdd777616dbbb27a70e8204f3ae2d0f6fad = 0x958abdf2a74dee3fcb47f82f48662fb31108c3bf3733d09a33a0a84853369fa75fce677af61858cf5b47eb5ce073962ac84bcc39318473830e428e0144e2880b := by
  rw [show (3180 : Nat) = 20 + 3160 from rfl, pbkdfIter_add, ckE157]
  decide!

theorem ckE159 : pbkdfIter 0xf454dead9725214f90daf2a0df1228ea64e5750fa3924181824a932bf8e04e32 0xd385480f7abb647737c9c5385dd824678e043a72753434b0deb82818361d45a6 3200 0xf7ce0b653d2d72a4108cf5abe912ffdd777616dbbb27a70e8204f3ae2d0f6fadf7ce0b653d2d72a4108cf5abe912ffdd777616dbbb27a70e8204f3ae2d0f6fad = 0x2d8b8e02b1a8d7ea78391a5e4922b368b220944cb8dfc070e039828f545a63e129033ee44c15508c17198d956717fbf6028c2fae00120264547227f696a73a08 := by
  rw [show (3200 : Nat) = 20 + 3180 from rfl, pbkdfIter_add, ckE158]
  decide!

theorem ckE160 : pbkdfIter 0xf454dead9725214f90daf2a0df1228ea64e5750fa3924181824a932bf8e04e32 0xd385480f7abb647737c9c5385dd824678e043a72753434b0deb82818361d45a6 3220 0xf7ce0b653d2d72a4108cf5abe912ffdd777616dbbb27a70e8204f3ae2d0f6fadf7ce0b653d2d72a4108cf5abe912ffdd777616dbbb27a70e8204f3ae2d0f6fad = 0xab33311ec8eef11b5eb6a64ed67b7e5c65c02958779e71f9057ddcd79e5d73f12b2d8d1c5296b74e7ff5d1fe08d03d4bef635d13eac6a0ea9f5016dbca0e1a40 := by
  rw [show (3220 : Nat) = 20 + 3200 from rfl, pbkdfIter_add, ckE159]
  decide!

theorem ckE161 : pbkdfIter 0xf454dead9725214f90daf2a0df1228ea64e5750fa3924181824a932bf8e04e32 0xd385480f7abb647737c9c5385dd824678e043a72753434b0deb82818361d45a6 3240 0xf7ce0b653d2d72a4108cf5abe912ffdd777616dbbb27a70e8204f3ae2d0f6fadf7ce0b653d2d72a4108cf5abe912ffdd777616dbbb27a70e8204f3ae2d0f6fad = 0x5eb36aa3a0d39338b42514121b4d5683e2e7d44452231272e6c5ffb1a05204f68003417e3006ffa22abf877e7af0ac02a7f7a9a9cd25ee5cb330b0f657ce5a25 := by
  rw [show (3240 : Nat) = 20 + 3220 from rfl, pbkdfIter_add, ckE160]
  decide!

theorem ckE162 : pbkdfIter 0xf454dead9725214f90daf2a0df1228ea64e5750fa3924181824a932bf8e04e32 0xd385480f7abb647737c9c5385dd824678e043a72753434b0deb82818361d45a6 3260 0xf7ce0b653d2d72a4108cf5abe912ffdd777616dbbb27a70e8204f3ae2d0f6fadf7ce0b653d2d72a4108cf5abe912ffdd777616dbbb27a70e8204f3ae2d0f6fad = 0x2fdc791ebc33c6f19b40c083fe6bbf2c93c56b2457ae33975eb933246f1e4998ebbebfa5742f2be81126b63a8a21cf0bfd0b2c34affb52c86b235085e7e527e := by
  rw [show (3260 : Nat) = 20 + 3240 from rfl, pbkdfIter_add, ckE161]
  decide!

theorem ckE163 : pbkdfIter 0xf454dead9725214f90daf2a0df1228ea64e5750fa3924181824a932bf8e04e32 0xd385480f7abb647737c9c5385dd824678e043a72753434b0deb82818361d45a6 3280 0xf7ce0b653d2d72a4108cf5abe912ffdd777616dbbb27a70e8204f3ae2d0f6fadf7ce0b653d2d72a4108cf5abe912ffdd777616dbbb27a70e8204f3ae2d0f6fad = 0x7a390f3e605c7088b4430f5dedb20d0cdd1c496c177ba1de79b95f4188fc35f6c5171829caefcadb167e75c5633766c0b2d0ef56ce02f9eacb69d958d5f09321 := by
  rw [show (3280 : Nat) = 20 + 3260 from rfl, pbkdfIter_add, ckE162]
  decide!

theorem ckE164 : pbkdfIter 0xf454dead9725214f90daf2a0df1228ea64e5750fa3924181824a932bf8e04e32 0xd385480f7abb647737c9c5385dd824678e043a72753434b0deb82818361d45a6 3300 0xf7ce0b653d2d72a4108cf5abe912ffdd777616dbbb27a70e8204f3ae2d0f6fadf7ce0b653d2d72a4108cf5abe912ffdd777616dbbb27a70e8204f3ae2d0f6fad = 0x55a7ea047bf905099a30fc6a3be7e269d95eb57c953e309c0ffe18de8ca8a9f373c308074200fbba5c76f9cef176eecd728eeed19dc3c604e83c3f557e18c193 := by
  rw [show (3300 : Nat) = 20 + 3280 from rfl, pbkdfIter_add, ckE163]
  decide!

theorem ckE165 : pbkdfIter 0xf454dead9725214f90daf2a0df1228ea64e5750fa3924181824a932bf8e04e32 0xd385480f7abb647737c9c5385dd824678e043a72753434b0deb82818361d45a6 3320 0xf7ce0b653d2d72a4108cf5abe912ffdd777616dbbb27a70e8204f3ae2d0f6fadf7ce0b653d2d72a4108cf5abe912ffdd777616dbbb27a70e8204f3ae2d0f6fad = 0x4fd14b3657a93630ef5eb45fe95efaada176542138dd8b2bd3d2d729cb4fc4e6100d7c08bb7662c6ffa8b3d2f20ae5713ceca416d8db7ee35624e78902645c3b := by
  rw [show (3320 : Nat) = 20 + 3300 from rfl, pbkdfIter_add, ckE164]
  decide!

theorem ckE166 : pbkdfIter 0xf454dead9725214f90daf2a0df1228ea64e5750fa3924181824a932bf8e04e32 0xd385480f7abb647737c9c5385dd824678e043a72753434b0deb82818361d45a6 3340 0xf7ce0b653d2d72a4108cf5abe912ffdd777616dbbb27a70e8204f3ae2d0f6fadf7ce0b653d2d72a4108cf5abe912ffdd777616dbbb27a70e8204f3ae2d0f6fad = 0xedd3128707dfdb0d23500f389f148d178221cc3da2f03721c97419b2d87e960a4c10dcbaf7273dcf14fe319190a0e258dae0f90623e897d6d5af4e1fab56919b := by
  rw [show (3340 : Nat) = 20 + 3320 from rfl, pbkdfIter_add, ckE165]
  decide!

theorem ckE167 : pbkdfIter 0xf454dead9725214f90daf2a0df1228ea64e5750fa3924181824a932bf8e04e32 0xd385480f7abb647737c9c5385dd824678e043a72753434b0deb82818361d45a6 3360 0xf7ce0b653d2d72a4108cf5abe912ffdd777616dbbb27a70e8204f3ae2d0f6fadf7ce0b653d2d72a4108cf5abe912ffdd777616dbbb27a70e8204f3ae2d0f6fad = 0xe6f105c815ec99b12d20243fc4549739ebf628568cb7fbc6cdf618161986f2236645e1fc18a0ddb44eb08b179758b3753349646884e1af480eb65757b7ee319f := by
  rw [show (3360 : Nat) = 20 + 3340 from rfl, pbkdfIter_add, ckE166]
  decide!

theorem ckE168 : pbkdfIter 0xf454dead9725214f90daf2a0df1228ea64e5750fa3924181824a932bf8e04e32 0xd385480f7abb647737c9c5385dd824678e043a72753434b0deb82818361d45a6 3380 0xf7ce0b653d2d72a4108cf5abe912ffdd777616dbbb27a70e8204f3ae2d0f6fadf7ce0b653d2d72a4108cf5abe912ffdd777616dbbb27a70e8204f3ae2d0f6fad = 0x786aee5b2836eb72e9f36f44106c6e34d1a251792c622b54a48ad3fe9522d445f7f80c43c8260467a51c9e4e4bc381ffbe7fdb30c82b5a0a3e38fc97c808825c := by
  rw [show (3380 : Nat) = 20 + 3360 from rfl, pbkdfIter_add, ckE167]
  decide!

theorem ckE169 : pbkdfIter 0xf454dead9725214f90daf2a0df1228ea64e5750fa3924181824a932bf8e04e32 0xd385480f7abb647737c9c5385dd824678e043a72753434b0deb82818361d45a6 3400 0xf7ce0b653d2d72a4108cf5abe912ffdd777616dbbb27a70e8204f3ae2d0f6fadf7ce0b653d2d72a4108cf5abe912ffdd777616dbbb27a70e8204f3ae2d0f6fad = 0xa3045554d841a914c7a28a526d3c7efa8a86580dc43e26ce075b98a17e0327fffdc9976178a22a3933af9642d3e239e8d3d8131f70028a0bdf46ee3e3de0a50b := by
  rw [show (3400 : Nat) = 20 + 3380 from rfl, pbkdfIter_add, ckE168]
  decide!

theorem ckE170 : pbkdfIter 0xf454dead9725214f90daf2a0df1228ea64e5750fa3924181824a932bf8e04e32 0xd385480f7abb647737c9c5385dd824678e043a72753434b0deb82818361d45a6 3420 0xf7ce0b653d2d72a4108cf5abe912ffdd777616dbbb27a70e8204f3ae2d0f6fadf7ce0b653d2d72a4108cf5abe912ffdd777616dbbb27a70e8204f3ae2d0f6fad = 0x27b0f42847682cc4d5ff4f2571e20629dba75b4239979f4cc00fc3904490452a0c84c865b044c0d34f0f4b5a9e9406517a899c7f6b262d4ab2ebe8bf2130274f := by
  rw [show (3420 : Nat) = 20 + 3400 from rfl, pbkdfIter_add, ckE169]
  decide!

theorem ckE171 : pbkdfIter 0xf454dead9725214f90daf2a0df1228ea64e5750fa3924181824a932bf8e04e32 0xd385480f7abb647737c9c5385dd824678e043a72753434b0deb82818361d45a6 3440 0xf7ce0b653d2d72a4108cf5abe912ffdd777616dbbb27a70e8204f3ae2d0f6fadf7ce0b653d2d72a4108cf5abe912ffdd777616dbbb27a70e8204f3ae2d0f6fad = 0xd6f92a09b803fd192fae481d0e1753cdec802572dc7cf8f009851089b8d5ee97a398eec0e09a7990904951d5da7c19be8d8ffd14fa9f19b341e6f72086f15ece := by
  rw [show (3440 : Nat) = 20 + 3420 from rfl, pbkdfIter_add, ckE170]
  decide!

theorem ckE172 : pbkdfIter 0xf454dead9725214f90daf2a0df1228ea64e5750fa3924181824a932bf8e04e32 0xd385480f7abb647737c9c5385dd824678e043a72753434b0deb82818361d45a6 3460 0xf7ce0b653d2d72a4108cf5abe912ffdd777616dbbb27a70e8204f3ae2d0f6fadf7ce0b653d2d72a4108cf5abe912ffdd777616dbbb27a70e8204f3ae2d0f6fad = 0xc4b0b977ecf097d43aa2ded2e9e466cfc198cf0ed5837343b6a151f55e2d0da9b8ea4f48dfc315763d6852c85fa941e2a616d21b8005ec0a5de2c80a4a22d0ce := by
  rw [show (3460 : Nat) = 20 + 3440 from rfl, pbkdfIter_add, ckE171]
  decide!

theorem ckE173 : pbkdfIter 0xf454dead9725214f90daf2a0df1228ea64e5750fa3924181824a932bf8e04e32 0xd385480f7abb647737c9c5385dd824678e043a72753434b0deb82818361d45a6 3480 0xf7ce0b653d2d72a4108cf5abe912ffdd777616dbbb27a70e8204f3ae2d0f6fadf7ce0b653d2d72a4108cf5abe912ffdd777616dbbb27a70e8204f3ae2d0f6fad = 0xf5cdeb8ec8749a70dc889202b418cbe68d6949a9bbfec41db423816cec3a6391dd2d29a5cf89ac43c4de864d6494f3b9bf277824205010f6a50ca167a627a4b5 := by
  rw [show (3480 : Nat) = 20 + 3460 from rfl, pbkdfIter_add, ckE172]
  decide!

theorem ckE174 : pbkdfIter 0xf454dead9725214f90daf2a0df1228ea64e5750fa3924181824a932bf8e04e32 0xd385480f7abb647737c9c5385dd824678e043a72753434b0deb82818361d45a6 3500 0xf7ce0b653d2d72a4108cf5abe912ffdd777616dbbb27a70e8204f3ae2d0f6fadf7ce0b653d2d72a4108cf5abe912ffdd777616dbbb27a70e8204f3ae2d0f6fad = 0xc80815d80b3b95be2df5ad173e9abf18d51bd265222c6539e2c7121fcb7f119857f6479e04fced0eb872e5fdbf9e6dbb914dea164007912581dd80227e1f130d := by
  rw [show (3500 : Nat) = 20 + 3480 from rfl, pbkdfIter_add, ckE173]
  decide!

theorem ckE175 : pbkdfIter 0xf454dead9725214f90daf2a0df1228ea64e5750fa3924181824a932bf8e04e32 0xd385480f7abb647737c9c5385dd824678e043a72753434b0deb82818361d45a6 3520 0xf7ce0b653d2d72a4108cf5abe912ffdd777616dbbb27a70e8204f3ae2d0f6fadf7ce0b653d2d72a4108cf5abe912ffdd777616dbbb27a70e8204f3ae2d0f6fad = 0x48cae07a4160bf8a963c90d82b2c142e7608660ca9275328a9a00fc4d795d5b91419316fb4e1dd0fcd889668333a9fc7aeb1f91d3f180ef879512af3a7a30b19 := by
  rw [show (3520 : Nat) = 20 + 3500 from rfl, pbkdfIter_add, ckE174]
  decide!

theorem ckE176 : pbkdfIter 0xf454dead9725214f90daf2a0df1228ea64e5750fa3924181824a932bf8e04e32 0xd385480f7abb647737c9c5385dd824678e043a72753434b0deb82818361d45a6 3540 0xf7ce0b653d2d72a4108cf5abe912ffdd777616dbbb27a70e8204f3ae2d0f6fadf7ce0b653d2d72a4108cf5abe912ffdd777616dbbb27a70e8204f3ae2d0f6fad = 0xa5e9a81ed5d31299b9c222c73181bdd184f08f04bfa95f25bf9b2a34328b52f58c9db37b7a9a1077447c2ac34203e0380bd3f3d428d211a45d8501241352bfe3 := by
  rw [show (3540 : Nat) = 20 + 3520 from rfl, pbkdfIter_add, ckE175]
  decide!

theorem ckE177 : pbkdfIter 0xf454dead9725214f90daf2a0df1228ea64e5750fa3924181824a932bf8e04e32 0xd385480f7abb647737c9c5385dd824678e043a72753434b0deb82818361d45a6 3560 0xf7ce0b653d2d72a4108cf5abe912ffdd777616dbbb27a70e8204f3ae2d0f6fadf7ce0b653d2d72a4108cf5abe912ffdd777616dbbb27a70e8204f3ae2d0f6fad = 0xf5b46b738032589ed4486749f01dcb41c4806e0cf14a3c4099d18b3400bd38985a88329df7c05caa8d40fbdc7a9562c1cd798050142db27f54e87862a5691dcd := by
  rw [show (3560 : Nat) = 20 + 3540 from rfl, pbkdfIter_add, ckE176]
  decide!

theorem ckE178 : pbkdfIter 0xf454dead9725214f90daf2a0df1228ea64e5750fa3924181824a932bf8e04e32 0xd385480f7abb647737c9c5385dd824678e043a72753434b0deb82818361d45a6 3580 0xf7ce0b653d2d72a4108cf5abe912ffdd777616dbbb27a70e8204f3ae2d0f6fadf7ce0b653d2d72a4108cf5abe912ffdd777616dbbb27a70e8204f3ae2d0f6fad = 0xb614e52db404b86246fc1376f82615b538544199cbd1edd6a28238aca1325b7c2670aaedf73f1520c4eebc279c9e0ff158cd3b82a833b81f7a5597635b7b3b43 := by
  rw [show (3580 : Nat) = 20 + 3560 from rfl, pbkdfIter_add, ckE177]
  decide!

theorem ckE179 : pbkdfIter 0xf454dead9725214f90daf2a0df1228ea64e5750fa3924181824a932bf8e04e32 0xd385480f7abb647737c9c5385dd824678e043a72753434b0deb82818361d45a6 3600 0xf7ce0b653d2d72a4108cf5abe912ffdd777616dbbb27a70e8204f3ae2d0f6fadf7ce0b653d2d72a4108cf5abe912ffdd777616dbbb27a70e8204f3ae2d0f6fad = 0x44bf6c4f4265e2fabbac4cc017df6625f78ad15aff153d1bc922539a5196bc0d4a2f195f9b80bd1cdf0c4e0acdbd8c5b7e9fcc5773576faebc848cf77d1440ce := by
  rw [show (3600 : Nat) = 20 + 3580 from rfl, pbkdfIter_add, ckE178]
  decide!

theorem ckE180 : pbkdfIter 0xf454dead9725214f90daf2a0df1228ea64e5750fa3924181824a932bf8e04e32 0xd385480f7abb647737c9c5385dd824678e043a72753434b0deb82818361d45a6 3620 0xf7ce0b653d2d72a4108cf5abe912ffdd777616dbbb27a70e8204f3ae2d0f6fadf7ce0b653d2d72a4108cf5abe912ffdd777616dbbb27a70e8204f3ae2d0f6fad = 0x8b1f9f27da5d4b281ac2da280ee1f19ad9342cc2cfefef810db28fc7a2a97ec7f2b7551f912316d183702ca666ad71739d14db2d1e5ea53a1b9dae44550d9f6b := by
  rw [show (3620 : Nat) = 20 + 3600 from rfl, pbkdfIter_add, ckE179]
  decide!

theorem ckE181 : pbkdfIter 0xf454dead9725214f90daf2a0df1228ea64e5750fa3924181824a932bf8e04e32 0xd385480f7abb647737c9c5385dd824678e043a72753434b0deb82818361d45a6 3640 0xf7ce0b653d2d72a4108cf5abe912ffdd777616dbbb27a70e8204f3ae2d0f6fadf7ce0b653d2d72a4108cf5abe912ffdd777616dbbb27a70e8204f3ae2d0f6fad = 0xe3d4c1936cc3c64658fecf3e08eeea92405d31c70bdd654aafc2cd191d6e9353f0bb244b9a9880818bb0869285a928c417db339001be39f16e6b828bbde0356d := by
  rw [show (3640 : Nat) = 20 + 3620 from rfl, pbkdfIter_add, ckE180]
  decide!

theorem ckE182 : pbkdfIter 0xf454dead9725214f90daf2a0df1228ea64e5750fa3924181824a932bf8e04e32 0xd385480f7abb647737c9c5385dd824678e043a72753434b0deb82818361d45a6 3660 0xf7ce0b653d2d72a4108cf5abe912ffdd777616dbbb27a70e8204f3ae2d0f6fadf7ce0b653d2d72a4108cf5abe912ffdd777616dbbb27a70e8204f3ae2d0f6fad = 0x201940990b9bb2a7e94a9229901307eb64bca20e4c838a6871b6da4865e678011de3fb62604715625217731212c37ae4c452018941561b2f67cb0fa3b0a64c0 := by
  rw [show (3660 : Nat) = 20 + 3640 from rfl, pbkdfIter_add, ckE181]
  decide!

theorem ckE183 : pbkdfIter 0xf454dead9725214f90daf2a0df1228ea64e5750fa3924181824a932bf8e04e32 0xd385480f7abb647737c9c5385dd824678e043a72753434b0deb82818361d45a6 3680 0xf7ce0b653d2d72a4108cf5abe912ffdd777616dbbb27a70e8204f3ae2d0f6fadf7ce0b653d2d72a4108cf5abe912ffdd777616dbbb27a70e8204f3ae2d0f6fad = 0x695aad48b518a07c38be75cae12cc0dc9d54ecd801ca97198f5c52bb8e342b1421577be862201351749d76d085ed30b5c3a6f29477bcaf113bf40637aafe3ac3 := by
  rw [show (3680 : Nat) = 20 + 3660 from rfl, pbkdfIter_add, ckE182]
  decide!

theorem ckE184 : pbkdfIter 0xf454dead9725214f90daf2a0df1228ea64e5750fa3924181824a932bf8e04e32 0xd385480f7abb647737c9c5385dd824678e043a72753434b0deb82818361d45a6 3700 0xf7ce0b653d2d72a4108cf5abe912ffdd777616dbbb27a70e8204f3ae2d0f6fadf7ce0b653d2d72a4108cf5abe912ffdd777616dbbb27a70e8204f3ae2d0f6fad = 0x1820c3c304fdb6f341823aee515a29d5c4bc9d4959a44a0f5f78cf2366ca616ab324df23775b2c09f3cceaf323431137412dc219a7ad998f6e162b8fbf4c7ab6 := by
  rw [show (3700 : Nat) = 20 + 3680 from rfl, pbkdfIter_add, ckE183]
  decide!

theorem ckE185 : pbkdfIter 0xf454dead9725214f90daf2a0df1228ea64e5750fa3924181824a932bf8e04e32 0xd385480f7abb647737c9c5385dd824678e043a72753434b0deb82818361d45a6 3720 0xf7ce0b653d2d72a4108cf5abe912ffdd777616dbbb27a70e8204f3ae2d0f6fadf7ce0b653d2d72a4108cf5abe912ffdd777616dbbb27a70e8204f3ae2d0f6fad = 0xa37a70304ddf39698db3b2359e4170793c3e58321d0fc99fd4ad025cd06e5e01c1e586d02d9008b4f482d0767347bb3d3efedbfad43c0e3c869b51b1f8195479 := by
  rw [show (3720 : Nat) = 20 + 3700 from rfl, pbkdfIter_add, ckE184]
  decide!

theorem ckE186 : pbkdfIter 0xf454dead9725214f90daf2a0df1228ea64e5750fa3924181824a932bf8e04e32 0xd385480f7abb647737c9c5385dd824678e043a72753434b0deb82818361d45a6 3740 0xf7ce0b653d2d72a4108cf5abe912ffdd777616dbbb27a70e8204f3ae2d0f6fadf7ce0b653d2d72a4108cf5abe912ffdd777616dbbb27a70e8204f3ae2d0f6fad = 0x74431ab29fa69d9474bb63dd210aafe43bb3d83b4c4b257db8e76b4f13514d69aa5fc300dd227431cdc19b062065c2c01dbeef437c9431bf3f46354f50a4c5e7 := by
  rw [show (3740 : Nat) = 20 + 3720 from rfl, pbkdfIter_add, ckE185]
  decide!

theorem ckE187 : pbkdfIter 0xf454dead9725214f90daf2a0df1228ea64e5750fa3924181824a932bf8e04e32 0xd385480f7abb647737c9c5385dd824678e043a72753434b0deb82818361d45a6 3760 0xf7ce0b653d2d72a4108cf5abe912ffdd777616dbbb27a70e8204f3ae2d0f6fadf7ce0b653d2d72a4108cf5abe912ffdd777616dbbb27a70e8204f3ae2d0f6fad = 0x85a39301f6272096d67c5a7e6d825e3626118601a6ebb6dffa419ab9a299560e0efb4ec29dfcdd66336f2e7ea01eb0e4b6100ee948028bf600f6e07fc1a34923 := by
  rw [show (3760 : Nat) = 20 + 3740 from rfl, pbkdfIter_add, ckE186]
  decide!

theorem ckE188 : pbkdfIter 0xf454dead9725214f90daf2a0df1228ea64e5750fa3924181824a932bf8e04e32 0xd385480f7abb647737c9c5385dd824678e043a72753434b0deb82818361d45a6 3780 0xf7ce0b653d2d72a4108cf5abe912ffdd777616dbbb27a70e8204f3ae2d0f6fadf7ce0b653d2d72a4108cf5abe912ffdd777616dbbb27a70e8204f3ae2d0f6fad = 0x5bb2d662a9ea0db94e36862e0cb37871cc29907c7006ffdf82245f5a4db6e59311f1f136b00c1766832afeeae2623213b74e56424323b339b8c61ea0bcfd1da := by
  rw [show (3780 : Nat) = 20 + 3760 from rfl, pbkdfIter_add, ckE187]
  decide!

theorem ckE189 : pbkdfIter 0xf454dead9725214f90daf2a0df1228ea64e5750fa3924181824a932bf8e04e32 0xd385480f7abb647737c9c5385dd824678e043a72753434b0deb82818361d45a6 3800 0xf7ce0b653d2d72a4108cf5abe912ffdd777616dbbb27a70e8204f3ae2d0f6fadf7ce0b653d2d72a4108cf5abe912ffdd777616dbbb27a70e8204f3ae2d0f6fad = 0x277ee8443d71f4156012a5b3766994c51210a45c6921fdcb40e06f9c08d2efe349841cf3a4abe98fef6e73cb06c059c40ef91a527f1fdab040a91bec16920102 := by
  rw [show (3800 : Nat) = 20 + 3780 from rfl, pbkdfIter_add, ckE188]
  decide!

theorem ckE190 : pbkdfIter 0xf454dead9725214f90daf2a0df1228ea64e5750fa3924181824a932bf8e04e32 0xd385480f7abb647737c9c5385dd824678e043a72753434b0deb82818361d45a6 3820 0xf7ce0b653d2d72a4108cf5abe912ffdd777616dbbb27a70e8204f3ae2d0f6fadf7ce0b653d2d72a4108cf5abe912ffdd777616dbbb27a70e8204f3ae2d0f6fad = 0x8429f2a9234c2f03d477be0ee455688327e6569db9312d00126c31e49e56dc476df371903bf6893d9d0437f7e62dd38a0d6fb783e8335998720741cbd8baa231 := by
  rw [show (3820 : Nat) = 20 + 3800 from rfl, pbkdfIter_add, ckE189]
  decide!

theorem ckE191 : pbkdfIter 0xf454dead9725214f90daf2a0df1228ea64e5750fa3924181824a932bf8e04e32 0xd385480f7abb647737c9c5385dd824678e043a72753434b0deb82818361d45a6 3840 0xf7ce0b653d2d72a4108cf5abe912ffdd777616dbbb27a70e8204f3ae2d0f6fadf7ce0b653d2d72a4108cf5abe912ffdd777616dbbb27a70e8204f3ae2d0f6fad = 0x89ba90b42210323e863c954703e90dc37eabf27451284de8f772f3b8c1286fb839be3d073322e58e7c14606033618752772247345b4bb89bac6a59e15f32658c := by
  rw [show (3840 : Nat) = 20 + 3820 from rfl, pbkdfIter_add, ckE190]
  decide!

theorem ckE192 : pbkdfIter 0xf454dead9725214f90daf2a0df1228ea64e5750fa3924181824a932bf8e04e32 0xd385480f7abb647737c9c5385dd824678e043a72753434b0deb82818361d45a6 3860 0xf7ce0b653d2d72a4108cf5abe912ffdd777616dbbb27a70e8204f3ae2d0f6fadf7ce0b653d2d72a4108cf5abe912ffdd777616dbbb27a70e8204f3ae2d0f6fad = 0xcbcef7e2b4e2704a2023ceca80da0bbf17b3e075496320cd10c670cfe7851a298fc6c6e6f5327ab91e51f5361e8a1754d7230cb9bafa2e86a975490849d7814e := by
  rw [show (3860 : Nat) = 20 + 3840 from rfl, pbkdfIter_add, ckE191]
  decide!

theorem ckE193 : pbkdfIter 0xf454dead9725214f90daf2a0df1228ea64e5750fa3924181824a932bf8e04e32 0xd385480f7abb647737c9c5385dd824678e043a72753434b0deb82818361d45a6 3880 0xf7ce0b653d2d72a4108cf5abe912ffdd777616dbbb27a70e8204f3ae2d0f6fadf7ce0b653d2d72a4108cf5abe912ffdd777616dbbb27a70e8204f3ae2d0f6fad = 0x59c0baa6bfabffd2375d89087aa3f6de7a83b290f8d13c84716981c8ca9ae96dadb28e287814cedbbe7f1792318744002d43beb138869952ba5878f7cd6a3920 := by
  rw [show (3880 : Nat) = 20 + 3860 from rfl, pbkdfIter_add, ckE192]
  decide!

theorem ckE194 : pbkdfIter 0xf454dead9725214f90daf2a0df1228ea64e5750fa3924181824a932bf8e04e32 0xd385480f7abb647737c9c5385dd824678e043a72753434b0deb82818361d45a6 3900 0xf7ce0b653d2d72a4108cf5abe912ffdd777616dbbb27a70e8204f3ae2d0f6fadf7ce0b653d2d72a4108cf5abe912ffdd777616dbbb27a70e8204f3ae2d0f6fad = 0x5c4b07b48762c42273a8ae26c1e44503db76c08b3017647cd7dd0f8a09cd459147d4c40a44c70f00d7fa81688c3c4c385891ff6bf89e118ac20dedc68544fb04 := by
  rw [show (3900 : Nat) = 20 + 3880 from rfl, pbkdfIter_add, ckE193]
  decide!

theorem ckE195 : pbkdfIter 0xf454dead9725214f90daf2a0df1228ea64e5750fa3924181824a932bf8e04e32 0xd385480f7abb647737c9c5385dd824678e043a72753434b0deb82818361d45a6 3920 0xf7ce0b653d2d72a4108cf5abe912ffdd777616dbbb27a70e8204f3ae2d0f6fadf7ce0b653d2d72a4108cf5abe912ffdd777616dbbb27a70e8204f3ae2d0f6fad = 0xb546e20b84b41839f9aee65ee0b2edba810c07407f1dabf53f4bcf0597c0067780c7bc59cd1d6019eb3ecfdbf6a94f0228d7a852376c2a929a6e1aaf541b81f1 := by
  rw [show (3920 : Nat) = 20 + 3900 from rfl, pbkdfIter_add, ckE194]
  decide!

theorem ckE196 : pbkdfIter 0xf454dead9725214f90daf2a0df1228ea64e5750fa3924181824a932bf8e04e32 0xd385480f7abb647737c9c5385dd824678e043a72753434b0deb82818361d45a6 3940 0xf7ce0b653d2d72a4108cf5abe912ffdd777616dbbb27a70e8204f3ae2d0f6fadf7ce0b653d2d72a4108cf5abe912ffdd777616dbbb27a70e8204f3ae2d0f6fad = 0x8b07fd93b77d9a82029a597f77c4d7db0b58137101facc4f773e8e25ca4ea69049ee382c67451e23c432622297a6933263ea7a9b7d447646b61d7d3926fd0859 := by
  rw [show (3940 : Nat) = 20 + 3920 from rfl, pbkdfIter_add, ckE195]
  decide!

theorem ckE197 : pbkdfIter 0xf454dead9725214f90daf2a0df1228ea64e5750fa3924181824a932bf8e04e32 0xd385480f7abb647737c9c5385dd824678e043a72753434b0deb82818361d45a6 3960 0xf7ce0b653d2d72a4108cf5abe912ffdd777616dbbb27a70e8204f3ae2d0f6fadf7ce0b653d2d72a4108cf5abe912ffdd777616dbbb27a70e8204f3ae2d0f6fad = 0xaad144b72a24ee4166da13dc9a25e6f5bc64128276b4afe9aff9c921082d1de8d7caf8b861c27269ba6c6fe925cef8ec4cd7d3920d48bb0112c5002e5280af0a := by
  rw [show (3960 : Nat) = 20 + 3940 from rfl, pbkdfIter_add, ckE196]
  decide!

theorem ckE198 : pbkdfIter 0xf454dead9725214f90daf2a0df1228ea64e5750fa3924181824a932bf8e04e32 0xd385480f7abb647737c9c5385dd824678e043a72753434b0deb82818361d45a6 3980 0xf7ce0b653d2d72a4108cf5abe912ffdd777616dbbb27a70e8204f3ae2d0f6fadf7ce0b653d2d72a4108cf5abe912ffdd777616dbbb27a70e8204f3ae2d0f6fad = 0xab3544606103ff75ae6d1bd5fa133c8f0ed9a80ac82fa738d9d0b0dd996b0d1e037cd5fc51cb8124afe17175586ad88a1b449f3470184484d8fd7efb67994ec := by
  rw [show (3980 : Nat) = 20 + 3960 from rfl, pbkdfIter_add, ckE197]
  decide!

theorem ckE199 : pbkdfIter 0xf454dead9725214f90daf2a0df1228ea64e5750fa3924181824a932bf8e04e32 0xd385480f7abb647737c9c5385dd824678e043a72753434b0deb82818361d45a6 4000 0xf7ce0b653d2d72a4108cf5abe912ffdd777616dbbb27a70e8204f3ae2d0f6fadf7ce0b653d2d72a4108cf5abe912ffdd777616dbbb27a70e8204f3ae2d0f6fad = 0xd323bbd70bb15610d5e4d78e2b76c5f366cfa956f96c3a49d40dd72baa9257b2ce94cf43a5fcf89d9d0c23e5c36c5f958bbf671e2ea48e1f6a05ba2676da54e2 := by
  rw [show (4000 : Nat) = 20 + 3980 from rfl, pbkdfIter_add, ckE198]
  decide!

theorem ckE200 : pbkdfIter 0xf454dead9725214f90daf2a0df1228ea64e5750fa3924181824a932bf8e04e32 0xd385480f7abb647737c9c5385dd824678e043a72753434b0deb82818361d45a6 4020 0xf7ce0b653d2d72a4108cf5abe912ffdd777616dbbb27a70e8204f3ae2d0f6fadf7ce0b653d2d72a4108cf5abe912ffdd777616dbbb27a70e8204f3ae2d0f6fad = 0x8443ffced268d037557b67b8238277763ebd804fe99af712f0d566819f97b36a70881a42ca06e7a6e54c18023456bed178142607eecc1b308b3d806d9db70611 := by
  rw [show (4020 : Nat) = 20 + 4000 from rfl, pbkdfIter_add, ckE199]
  decide!

theorem ckE201 : pbkdfIter 0xf454dead9725214f90daf2a0df1228ea64e5750fa3924181824a932bf8e04e32 0xd385480f7abb647737c9c5385dd824678e043a72753434b0deb82818361d45a6 4040 0xf7ce0b653d2d72a4108cf5abe912ffdd777616dbbb27a70e8204f3ae2d0f6fadf7ce0b653d2d72a4108cf5abe912ffdd777616dbbb27a70e8204f3ae2d0f6fad = 0xbd459dca48ddfeb8e22f57279b6f8ea083805179f9e12472cf21380c8efcf3def262c322a9176ccbb1f9682fd2764e992abb1fed130b95966057fc34961ca39 := by
  rw [show (4040 : Nat) = 20 + 4020 from rfl, pbkdfIter_add, ckE200]
  decide!

theorem ckE202 : pbkdfIter 0xf454dead9725214f90daf2a0df1228ea64e5750fa3924181824a932bf8e04e32 0xd385480f7abb647737c9c5385dd824678e043a72753434b0deb82818361d45a6 4060 0xf7ce0b653d2d72a4108cf5abe912ffdd777616dbbb27a70e8204f3ae2d0f6fadf7ce0b653d2d72a4108cf5abe912ffdd777616dbbb27a70e8204f3ae2d0f6fad = 0xc39476d59dae6b347941b01ff65a897ab4fa0fdc24a8cad74331c9181b2ae0129bc949e5e7542c6908838a11759de7e26add714249e9a0466f6d16690107b3a4 := by
  rw [show (4060 : Nat) = 20 + 4040 from rfl, pbkdfIter_add, ckE201]
  decide!

theorem ckE203 : pbkdfIter 0xf454dead9725214f90daf2a0df1228ea64e5750fa3924181824a932bf8e04e32 0xd385480f7abb647737c9c5385dd824678e043a72753434b0deb82818361d45a6 4080 0xf7ce0b653d2d72a4108cf5abe912ffdd777616dbbb27a70e8204f3ae2d0f6fadf7ce0b653d2d72a4108cf5abe912ffdd777616dbbb27a70e8204f3ae2d0f6fad = 0xc53b55f90b0a0a7b724565a2ff35f9f5071e26c891031edb0e51fd05df7056547fec193c478543a0884182ec57bebfcd0a5c2ab08c76d6f6142c6f84cce4c615 := by
  rw [show (4080 : Nat) = 20 + 4060 from rfl, pbkdfIter_add, ckE202]
  decide!

theorem ckE204 : pbkdfIter 0xf454dead9725214f90daf2a0df1228ea64e5750fa3924181824a932bf8e04e32 0xd385480f7abb647737c9c5385dd824678e043a72753434b0deb82818361d45a6 4100 0xf7ce0b653d2d72a4108cf5abe912ffdd777616dbbb27a70e8204f3ae2d0f6fadf7ce0b653d2d72a4108cf5abe912ffdd777616dbbb27a70e8204f3ae2d0f6fad = 0xf0a1ed2e62a9cde4b8204765a0d85098fa4bcd723a9d6009102fbdf532f5de753b8031e725171705bab6c41ee4fc7010c054e529fc9e24c90bf5ed0a66fe2089 := by
  rw [show (4100 : Nat) = 20 + 4080 from rfl, pbkdfIter_add, ckE203]
  decide!

theorem ckE205 : pbkdfIter 0xf454dead9725214f90daf2a0df1228ea64e5750fa3924181824a932bf8e04e32 0xd385480f7abb647737c9c5385dd824678e043a72753434b0deb82818361d45a6 4120 0xf7ce0b653d2d72a4108cf5abe912ffdd777616dbbb27a70e8204f3ae2d0f6fadf7ce0b653d2d72a4108cf5abe912ffdd777616dbbb27a70e8204f3ae2d0f6fad = 0xc1b2fe09f363d47a74ef91cedb92e7c9800a62686362b78c22f0e77be282bb8d48143857aecc58f04017ef5aeafb30079a2375b276cd00dab6c4eeab94490d8d := by
  rw [show (4120 : Nat) = 20 + 4100 from rfl, pbkdfIter_add, ckE204]
  decide!

theorem ckE206 : pbkdfIter 0xf454dead9725214f90daf2a0df1228ea64e5750fa3924181824a932bf8e04e32 0xd385480f7abb647737c9c5385dd824678e043a72753434b0deb82818361d45a6 4140 0xf7ce0b653d2d72a4108cf5abe912ffdd777616dbbb27a70e8204f3ae2d0f6fadf7ce0b653d2d72a4108cf5abe912ffdd777616dbbb27a70e8204f3ae2d0f6fad = 0xdc589928a6dbe701e9d25c5f20aa48e73c4036344ffd52ad8ee23f314adf7be1978689c2ce1ed6cbfe997e1fcaafca1ce21fa15e65f417eda47d2444d1d5f917 := by
  rw [show (4140 : Nat) = 20 + 4120 from rfl, pbkdfIter_add, ckE205]
  decide!

theorem ckE207 : pbkdfIter 0xf454dead9725214f90daf2a0df1228ea64e5750fa3924181824a932bf8e04e32 0xd385480f7abb647737c9c5385dd824678e043a72753434b0deb82818361d45a6 4160 0xf7ce0b653d2d72a4108cf5abe912ffdd777616dbbb27a70e8204f3ae2d0f6fadf7ce0b653d2d72a4108cf5abe912ffdd777616dbbb27a70e8204f3ae2d0f6fad = 0x2abda323e16ce1dd791826a96010c0e67490d04a086450ada6a63a784abda146ecd7d5a968ece9de235d9ba06573b639d5a05903efaac2504ec7772e3d5dd215 := by
  rw [show (4160 : Nat) = 20 + 4140 from rfl, pbkdfIter_add, ckE206]
  decide!

theorem ckE208 : pbkdfIter 0xf454dead9725214f90daf2a0df1228ea64e5750fa3924181824a932bf8e04e32 0xd385480f7abb647737c9c5385dd824678e043a72753434b0deb82818361d45a6 4180 0xf7ce0b653d2d72a4108cf5abe912ffdd777616dbbb27a70e8204f3ae2d0f6fadf7ce0b653d2d72a4108cf5abe912ffdd777616dbbb27a70e8204f3ae2d0f6fad = 0x967a5ba68d4a1c74525f32013c09c0804e52c3a2d0a4ce172306c9c5fc73ae7dc41ed5dc8f1c6e1e6ee185466b80f0ec90eb60782fb9924d225dbb6afbe89ec4 := by
  rw [show (4180 : Nat) = 20 + 4160 from rfl, pbkdfIter_add, ckE207]
  decide!

theorem ckE209 : pbkdfIter 0xf454dead9725214f90daf2a0df1228ea64e5750fa3924181824a932bf8e04e32 0xd385480f7abb647737c9c5385dd824678e043a72753434b0deb82818361d45a6 4200 0xf7ce0b653d2d72a4108cf5abe912ffdd777616dbbb27a70e8204f3ae2d0f6fadf7ce0b653d2d72a4108cf5abe912ffdd777616dbbb27a70e8204f3ae2d0f6fad = 0x97f1405418fcfef5cb3ca2c2ab6a428ab4432d57019d87f6d54c5f273a2a8fffccd96391715ec9b17d71e1aeb58021ccc0f681839eddbf904da95f68f996800e := by
  rw [show (4200 : Nat) = 20 + 4180 from rfl, pbkdfIter_add, ckE208]
  decide!

theorem ckE210 : pbkdfIter 0xf454dead9725214f90daf2a0df1228ea64e5750fa3924181824a932bf8e04e32 0xd385480f7abb647737c9c5385dd824678e043a72753434b0deb82818361d45a6 4220 0xf7ce0b653d2d72a4108cf5abe912ffdd777616dbbb27a70e8204f3ae2d0f6fadf7ce0b653d2d72a4108cf5abe912ffdd777616dbbb27a70e8204f3ae2d0f6fad = 0xf9aa2060f4835d690fbcf88fde619db7ef4ccbaa3606b64763a312b967c29da82d5ccd5a7f6c4a2a318a2e6ddf0490425ca62edcfc3e9304f76ff51000cef4f := by
  rw [show (4220 : Nat) = 20 + 4200 from rfl, pbkdfIter_add, ckE209]
  decide!

theorem ckE211 : pbkdfIter 0xf454dead9725214f90daf2a0df1228ea64e5750fa3924181824a932bf8e04e32 0xd385480f7abb647737c9c5385dd824678e043a72753434b0deb82818361d45a6 4240 0xf7ce0b653d2d72a4108cf5abe912ffdd777616dbbb27a70e8204f3ae2d0f6fadf7ce0b653d2d72a4108cf5abe912ffdd777616dbbb27a70e8204f3ae2d0f6fad = 0x999b60dd69bb10c4c338d3fdd6620a4be9f83e423819455c9910a49f7b51c2ea291c3a7b4bbeb821f09a59240005fa5374a6275df69bc67084602f84edad5e18 := by
  rw [show (4240 : Nat) = 20 + 4220 from rfl, pbkdfIter_add, ckE210]
  decide!

theorem ckE212 : pbkdfIter 0xf454dead9725214f90daf2a0df1228ea64e5750fa3924181824a932bf8e04e32 0xd385480f7abb647737c9c5385dd824678e043a72753434b0deb82818361d45a6 4260 0xf7ce0b653d2d72a4108cf5abe912ffdd777616dbbb27a70e8204f3ae2d0f6fadf7ce0b653d2d72a4108cf5abe912ffdd777616dbbb27a70e8204f3ae2d0f6fad = 0x904761f7fa137b63dc7696b9240b85c501005e53faeee6b31eb4ffa72c7e8c3d89e0f72ed02cbc99bcb9a738da9d21a688c0c715c85d937a1f0340242cc68893 := by
  rw [show (4260 : Nat) = 20 + 4240 from rfl, pbkdfIter_add, ckE211]
  decide!

theorem ckE213 : pbkdfIter 0xf454dead9725214f90daf2a0df1228ea64e5750fa3924181824a932bf8e04e32 0xd385480f7abb647737c9c5385dd824678e043a72753434b0deb82818361d45a6 4280 0xf7ce0b653d2d72a4108cf5abe912ffdd777616dbbb27a70e8204f3ae2d0f6fadf7ce0b653d2d72a4108cf5abe912ffdd777616dbbb27a70e8204f3ae2d0f6fad = 0x1594804c13edd1136f1d1e2e99ecc571b7f05100fe2e1eaa6f7d5ad05a251cd8b997e5b4000dea30992311001cc71ba454a1d80f34944d3a06ab25f878303f9c := by
  rw [show (4280 : Nat) = 20 + 4260 from rfl, pbkdfIter_add, ckE212]
  decide!

theorem ckE214 : pbkdfIter 0xf454dead9725214f90daf2a0df1228ea64e5750fa3924181824a932bf8e04e32 0xd385480f7abb647737c9c5385dd824678e043a72753434b0deb82818361d45a6 4300 0xf7ce0b653d2d72a4108cf5abe912ffdd777616dbbb27a70e8204f3ae2d0f6fadf7ce0b653d2d72a4108cf5abe912ffdd777616dbbb27a70e8204f3ae2d0f6fad = 0x4ae671eac934e2ace1996c13018adc57a75afe5f448b1eeea05f4739a6e5275282ef51fa7ba1c5bdb7c5412d709893d068fd2ece702d55e581d2300fadd86b14 := by
  rw [show (4300 : Nat) = 20 + 4280 from rfl, pbkdfIter_add, ckE213]
  decide!

theorem ckE215 : pbkdfIter 0xf454dead9725214f90daf2a0df1228ea64e5750fa3924181824a932bf8e04e32 0xd385480f7abb647737c9c5385dd824678e043a72753434b0deb82818361d45a6 4320 0xf7ce0b653d2d72a4108cf5abe912ffdd777616dbbb27a70e8204f3ae2d0f6fadf7ce0b653d2d72a4108cf5abe912ffdd777616dbbb27a70e8204f3ae2d0f6fad = 0xb9f9b24432d2ba8d4a2bbe2acf646716df24779ba30c389b611808310e41f43441079346076bab75ab5242da15fe4d89cd95b771b530c459241924e6c98023c5 := by
  rw [show (4320 : Nat) = 20 + 4300 from rfl, pbkdfIter_add, ckE214]
  decide!

theorem ckE216 : pbkdfIter 0xf454dead9725214f90daf2a0df1228ea64e5750fa3924181824a932bf8e04e32 0xd385480f7abb647737c9c5385dd824678e043a72753434b0deb82818361d45a6 4340 0xf7ce0b653d2d72a4108cf5abe912ffdd777616dbbb27a70e8204f3ae2d0f6fadf7ce0b653d2d72a4108cf5abe912ffdd777616dbbb27a70e8204f3ae2d0f6fad = 0x1db6eb44f1a6a381c69945434ce246ce7c84309f4ad178e018a0d2ec21c0f79bdc5d187f058ba947ffd2f25cb7c15db686187c2190de8a0be66418e98971a8c1 := by
  rw [show (4340 : Nat) = 20 + 4320 from rfl, pbkdfIter_add, ckE215]
  decide!

theorem ckE217 : pbkdfIter 0xf454dead9725214f90daf2a0df1228ea64e5750fa3924181824a932bf8e04e32 0xd385480f7abb647737c9c5385dd824678e043a72753434b0deb82818361d45a6 4360 0xf7ce0b653d2d72a4108cf5abe912ffdd777616dbbb27a70e8204f3ae2d0f6fadf7ce0b653d2d72a4108cf5abe912ffdd777616dbbb27a70e8204f3ae2d0f6fad = 0x8b963b63441ce8db43e50a49370838585441b06b9143981ee8c2382d8d4aa8a4dc63808d8dcaf9b24863a05e65025a9ee0cc1f9c622370c28a1d0fd3e6cfdf1a := by
  rw [show (4360 : Nat) = 20 + 4340 from rfl, pbkdfIter_add, ckE216]
  decide!

theorem ckE218 : pbkdfIter 0xf454dead9725214f90daf2a0df1228ea64e5750fa3924181824a932bf8e04e32 0xd385480f7abb647737c9c5385dd824678e043a72753434b0deb82818361d45a6 4380 0xf7ce0b653d2d72a4108cf5abe912ffdd777616dbbb27a70e8204f3ae2d0f6fadf7ce0b653d2d72a4108cf5abe912ffdd777616dbbb27a70e8204f3ae2d0f6fad = 0xbecfc8e76b4b0266c46d29dd657bda7acf419efda71094717e85068b6b829cac5cb7cc64cff617e43d92f78d0ef7a4373f36e1083f90d5f4cf76765e2fa29a6e := by
  rw [show (4380 : Nat) = 20 + 4360 from rfl, pbkdfIter_add, ckE217]
  decide!

theorem ckE219 : pbkdfIter 0xf454dead9725214f90daf2a0df1228ea64e5750fa3924181824a932bf8e04e32 0xd385480f7abb647737c9c5385dd824678e043a72753434b0deb82818361d45a6 4400 0xf7ce0b653d2d72a4108cf5abe912ffdd777616dbbb27a70e8204f3ae2d0f6fadf7ce0b653d2d72a4108cf5abe912ffdd777616dbbb27a70e8204f3ae2d0f6fad = 0x257d4e60bf3bca48bc325a386f0b9fdfb012c58f1d789022e7a8cd7bb333c314abf5836b90a4f065da1ff4198ded7e8fca7a2c4650f14de795c76555a712a746 := by
  rw [show (4400 : Nat) = 20 + 4380 from rfl, pbkdfIter_add, ckE218]
  decide!

theorem ckE220 : pbkdfIter 0xf454dead9725214f90daf2a0df1228ea64e5750fa3924181824a932bf8e04e32 0xd385480f7abb647737c9c5385dd824678e043a72753434b0deb82818361d45a6 4420 0xf7ce0b653d2d72a4108cf5abe912ffdd777616dbbb27a70e8204f3ae2d0f6fadf7ce0b653d2d72a4108cf5abe912ffdd777616dbbb27a70e8204f3ae2d0f6fad = 0x3fc01dcd8072490ac49a64b85ba62d8f4b571d031aeb726a708ff42adfc91e0266f0a00d7fc5c4d00e029b7bfcab1bfbc05b56d8df621d01f913e892f450951c := by
  rw [show (4420 : Nat) = 20 + 4400 from rfl, pbkdfIter_add, ckE219]
  decide!

theorem ckE221 : pbkdfIter 0xf454dead9725214f90daf2a0df1228ea64e5750fa3924181824a932bf8e04e32 0xd385480f7abb647737c9c5385dd824678e043a72753434b0deb82818361d45a6 4440 0xf7ce0b653d2d72a4108cf5abe912ffdd777616dbbb27a70e8204f3ae2d0f6fadf7ce0b653d2d72a4108cf5abe912ffdd777616dbbb27a70e8204f3ae2d0f6fad = 0xb49e97d0c87f7e923e3a141fb9e711c1cc410f16a86938618c678d554d955a21703da45d4f2454e7418be5e4800f825cbe502f8ae4079dd5ed554546866a2fa2 := by
  rw [show (4440 : Nat) = 20 + 4420 from rfl, pbkdfIter_add, ckE220]
  decide!

theorem ckE222 : pbkdfIter 0xf454dead9725214f90daf2a0df1228ea64e5750fa3924181824a932bf8e04e32 0xd385480f7abb647737c9c5385dd824678e043a72753434b0deb82818361d45a6 4460 0xf7ce0b653d2d72a4108cf5abe912ffdd777616dbbb27a70e8204f3ae2d0f6fadf7ce0b653d2d72a4108cf5abe912ffdd777616dbbb27a70e8204f3ae2d0f6fad = 0xc20fba69dafdac47825dc9a7caf23eefead33557afae80f6669991dbf0b8c78f7f716237e43fca95d5a7316dd5a71919c66921d30472a847c2649b2efc229090 := by
  rw [show (4460 : Nat) = 20 + 4440 from rfl, pbkdfIter_add, ckE221]
  decide!

theorem ckE223 : pbkdfIter 0xf454dead9725214f90daf2a0df1228ea64e5750fa3924181824a932bf8e04e32 0xd385480f7abb647737c9c5385dd824678e043a72753434b0deb82818361d45a6 4480 0xf7ce0b653d2d72a4108cf5abe912ffdd777616dbbb27a70e8204f3ae2d0f6fadf7ce0b653d2d72a4108cf5abe912ffdd777616dbbb27a70e8204f3ae2d0f6fad = 0x6b75d94a2174fdc887779dbbb7bbdbd92f8a8b440827c4360fc8a12e9afed658cea187866a285e2670d036e405799b3aeff0a94f000194a49fc521c5fff0b480 := by
  rw [show (4480 : Nat) = 20 + 4460 from rfl, pbkdfIter_add, ckE222]
  decide!

theorem ckE224 : pbkdfIter 0xf454dead9725214f90daf2a0df1228ea64e5750fa3924181824a932bf8e04e32 0xd385480f7abb647737c9c5385dd824678e043a72753434b0deb82818361d45a6 4500 0xf7ce0b653d2d72a4108cf5abe912ffdd777616dbbb27a70e8204f3ae2d0f6fadf7ce0b653d2d72a4108cf5abe912ffdd777616dbbb27a70e8204f3ae2d0f6fad = 0xf4083832678ecd76335520a7af2485a38e13c0ae9488ee0a6bed4ffe5d8f86a2f46772540cb9e8b9994af61a1e3c7cf3434bb5566e83a94e032754aa83edd08e := by
  rw [show (4500 : Nat) = 20 + 4480 from rfl, pbkdfIter_add, ckE223]
  decide!

theorem ckE225 : pbkdfIter 0xf454dead9725214f90daf2a0df1228ea64e5750fa3924181824a932bf8e04e32 0xd385480f7abb647737c9c5385dd824678e043a72753434b0deb82818361d45a6 4520 0xf7ce0b653d2d72a4108cf5abe912ffdd777616dbbb27a70e8204f3ae2d0f6fadf7ce0b653d2d72a4108cf5abe912ffdd777616dbbb27a70e8204f3ae2d0f6fad = 0xc7c05f5bb53ab30e25191d66dbec5c86d94968b1b8498997bd40c61fc52487d00e2f89e5677dfb9e369cd2c3f2846fcb705d32c3c90e2b583c7f5d777d2ec466 := by
  rw [show (4520 : Nat) = 20 + 4500 from rfl, pbkdfIter_add, ckE224]
  decide!

theorem ckE226 : pbkdfIter 0xf454dead9725214f90daf2a0df1228ea64e5750fa3924181824a932bf8e04e32 0xd385480f7abb647737c9c5385dd824678e043a72753434b0deb82818361d45a6 4540 0xf7ce0b653d2d72a4108cf5abe912ffdd777616dbbb27a70e8204f3ae2d0f6fadf7ce0b653d2d72a4108cf5abe912ffdd777616dbbb27a70e8204f3ae2d0f6fad = 0xe48abb6913bb37a9911f0eb16a501a71de965cbba7fdb742dc963e6627f814e402069571e1f8847cc55ec0ef50a85ef60c21cc7c8d3a89ddcb42c7a25caeba1d := by
  rw [show (4540 : Nat) = 20 + 4520 from rfl, pbkdfIter_add, ckE225]
  decide!

theorem ckE227 : pbkdfIter 0xf454dead9725214f90daf2a0df1228ea64e5750fa3924181824a932bf8e04e32 0xd385480f7abb647737c9c5385dd824678e043a72753434b0deb82818361d45a6 4560 0xf7ce0b653d2d72a4108cf5abe912ffdd777616dbbb27a70e8204f3ae2d0f6fadf7ce0b653d2d72a4108cf5abe912ffdd777616dbbb27a70e8204f3ae2d0f6fad = 0x37eb7e40d38dc6b27a94ee640041d7f532e240708c12ba354a2827510e92efb5229b0ee2097e2c114b89d8e4cb0412ae571633bfae54821e420ceb320251fbad := by
  rw [show (4560 : Nat) = 20 + 4540 from rfl, pbkdfIter_add, ckE226]
  decide!

theorem ckE228 : pbkdfIter 0xf454dead9725214f90daf2a0df1228ea64e5750fa3924181824a932bf8e04e32 0xd385480f7abb647737c9c5385dd824678e043a72753434b0deb82818361d45a6 4580 0xf7ce0b653d2d72a4108cf5abe912ffdd777616dbbb27a70e8204f3ae2d0f6fadf7ce0b653d2d72a4108cf5abe912ffdd777616dbbb27a70e8204f3ae2d0f6fad = 0x5fdee7caee7bedf8f191b3ab6b30e5445f80338c5424be1cf38c7454c96efab4df43b26504d3864934b143297b6d55bcfd4de70d458e6f60a806380e0a32dc78 := by
  rw [show (4580 : Nat) = 20 + 4560 from rfl, pbkdfIter_add, ckE227]
  decide!

theorem ckE229 : pbkdfIter 0xf454dead9725214f90daf2a0df1228ea64e5750fa3924181824a932bf8e04e32 0xd385480f7abb647737c9c5385dd824678e043a72753434b0deb82818361d45a6 4600 0xf7ce0b653d2d72a4108cf5abe912ffdd777616dbbb27a70e8204f3ae2d0f6fadf7ce0b653d2d72a4108cf5abe912ffdd777616dbbb27a70e8204f3ae2d0f6fad = 0xc90637f194fcad0d631d83d5de4e8050dd73f1c6f13f4fa0908e10dfb5700939f42dcfc163880574178cee2804232c941f74ca5f31c987d2e4e9e0414c3593f7 := by
  rw [show (4600 : Nat) = 20 + 4580 from rfl, pbkdfIter_add, ckE228]
  decide!

theorem ckE230 : pbkdfIter 0xf454dead9725214f90daf2a0df1228ea64e5750fa3924181824a932bf8e04e32 0xd385480f7abb647737c9c5385dd824678e043a72753434b0deb82818361d45a6 4620 0xf7ce0b653d2d72a4108cf5abe912ffdd777616dbbb27a70e8204f3ae2d0f6fadf7ce0b653d2d72a4108cf5abe912ffdd777616dbbb27a70e8204f3ae2d0f6fad = 0x72d0c17ff7433e129519710d2e0ad293d4fee59acc826c9774b97ffdd5d4f19f5f4d54e2abaa8b1875de6311bc4957bf4e348b7beb6faf7aa8f736481644f691 := by
  rw [show (4620 : Nat) = 20 + 4600 from rfl, pbkdfIter_add, ckE229]
  decide!

theorem ckE231 : pbkdfIter 0xf454dead9725214f90daf2a0df1228ea64e5750fa3924181824a932bf8e04e32 0xd385480f7abb647737c9c5385dd824678e043a72753434b0deb82818361d45a6 4640 0xf7ce0b653d2d72a4108cf5abe912ffdd777616dbbb27a70e8204f3ae2d0f6fadf7ce0b653d2d72a4108cf5abe912ffdd777616dbbb27a70e8204f3ae2d0f6fad = 0x5f13744bee697e03a76154772ebb31428578dbf13a604f63814cf7b0ec071f1d807ded600ea1d898a754a4b793da0d2fefed6a135c8a5c2912c46b91679c9d13 := by
  rw [show (4640 : Nat) = 20 + 4620 from rfl, pbkdfIter_add, ckE230]
  decide!

theorem ckE232 : pbkdfIter 0xf454dead9725214f90daf2a0df1228ea64e5750fa3924181824a932bf8e04e32 0xd385480f7abb647737c9c5385dd824678e043a72753434b0deb82818361d45a6 4660 0xf7ce0b653d2d72a4108cf5abe912ffdd777616dbbb27a70e8204f3ae2d0f6fadf7ce0b653d2d72a4108cf5abe912ffdd777616dbbb27a70e8204f3ae2d0f6fad = 0xfd67dcd671fad1f5f3aeb7caf54ba28689fc23a62636642b650b6cf5e80c9b7302ff3cf3ac8f9c76e3679021ebdde44c521f7d1f2b9b6715be8dc5a69959ca48 := by
  rw [show (4660 : Nat) = 20 + 4640 from rfl, pbkdfIter_add, ckE231]
  decide!

theorem ckE233 : pbkdfIter 0xf454dead9725214f90daf2a0df1228ea64e5750fa3924181824a932bf8e04e32 0xd385480f7abb647737c9c5385dd824678e043a72753434b0deb82818361d45a6 4680 0xf7ce0b653d2d72a4108cf5abe912ffdd777616dbbb27a70e8204f3ae2d0f6fadf7ce0b653d2d72a4108cf5abe912ffdd777616dbbb27a70e8204f3ae2d0f6fad = 0x33984a879c77c730a636d2621876f495f70fb1fa5ee6851a7fac62805bc9da99a5c1d731638d1c013a976f520634ec011a04a56098d3799075a6b9f94214b57 := by
  rw [show (4680 : Nat) = 20 + 4660 from rfl, pbkdfIter_add, ckE232]
  decide!

theorem ckE234 : pbkdfIter 0xf454dead9725214f90daf2a0df1228ea64e5750fa3924181824a932bf8e04e32 0xd385480f7abb647737c9c5385dd824678e043a72753434b0deb82818361d45a6 4700 0xf7ce0b653d2d72a4108cf5abe912ffdd777616dbbb27a70e8204f3ae2d0f6fadf7ce0b653d2d72a4108cf5abe912ffdd777616dbbb27a70e8204f3ae2d0f6fad = 0x44be286bd224ce1d5259ce19123eaccab570cf73baec81d613a583dc480f13e5a7b0b5f829a5d81d5610dcf31f30d698fcab8db274eadbf353d23815cf969c00 := by
  rw [show (4700 : Nat) = 20 + 4680 from rfl, pbkdfIter_add, ckE233]
  decide!

theorem ckE235 : pbkdfIter 0xf454dead9725214f90daf2a0df1228ea64e5750fa3924181824a932bf8e04e32 0xd385480f7abb647737c9c5385dd824678e043a72753434b0deb82818361d45a6 4720 0xf7ce0b653d2d72a4108cf5abe912ffdd777616dbbb27a70e8204f3ae2d0f6fadf7ce0b653d2d72a4108cf5abe912ffdd777616dbbb27a70e8204f3ae2d0f6fad = 0x9373bb5aedc20fd466e5cc4a47d1c5836cc7272eded742c29b20884e0c7ffcbdb4d8e18d4b0bc0a5b986b9709179ff38348ade8384188e8d8e62a38d1cdbccfc := by
  rw [show (4720 : Nat) = 20 + 4700 from rfl, pbkdfIter_add, ckE234]
  decide!

theorem ckE236 : pbkdfIter 0xf454dead9725214f90daf2a0df1228ea64e5750fa3924181824a932bf8e04e32 0xd385480f7abb647737c9c5385dd824678e043a72753434b0deb82818361d45a6 4740 0xf7ce0b653d2d72a4108cf5abe912ffdd777616dbbb27a70e8204f3ae2d0f6fadf7ce0b653d2d72a4108cf5abe912ffdd777616dbbb27a70e8204f3ae2d0f6fad = 0xbe74ef755ce16713b23657654d0575a1a4ab814ce2a23092268040c51b4707ce11dbea8ec464eb6b5ad4d2d465ac559fab8a282148f32aba17c8f71a9b7c8167 := by
  rw [show (4740 : Nat) = 20 + 4720 from rfl, pbkdfIter_add, ckE235]
  decide!

theorem ckE237 : pbkdfIter 0xf454dead9725214f90daf2a0df1228ea64e5750fa3924181824a932bf8e04e32 0xd385480f7abb647737c9c5385dd824678e043a72753434b0deb82818361d45a6 4760 0xf7ce0b653d2d72a4108cf5abe912ffdd777616dbbb27a70e8204f3ae2d0f6fadf7ce0b653d2d72a4108cf5abe912ffdd777616dbbb27a70e8204f3ae2d0f6fad = 0xcbbbf618b55d938f3f577bc42588ac2ab1f38d1a154cf8c405d12525057d54749680d3cca4c519b62014bd05fe187015682b4e77e6eaaec5d508e1cf49be0225 := by
  rw [show (4760 : Nat) = 20 + 4740 from rfl, pbkdfIter_add, ckE236]
  decide!

theorem ckE238 : pbkdfIter 0xf454dead9725214f90daf2a0df1228ea64e5750fa3924181824a932bf8e04e32 0xd385480f7abb647737c9c5385dd824678e043a72753434b0deb82818361d45a6 4780 0xf7ce0b653d2d72a4108cf5abe912ffdd777616dbbb27a70e8204f3ae2d0f6fadf7ce0b653d2d72a4108cf5abe912ffdd777616dbbb27a70e8204f3ae2d0f6fad = 0xac407facdefeb0556bd93b49b46e72a2fa92aa9cd5d6a71f9f2855d32f635f7331615a1c5f55e8a6cd60d7f16f46a9cb9e01139fb131c1f2f509826bc44f6b25 := by
  rw [show (4780 : Nat) = 20 + 4760 from rfl, pbkdfIter_add, ckE237]
  decide!

theorem ckE239 : pbkdfIter 0xf454dead9725214f90daf2a0df1228ea64e5750fa3924181824a932bf8e04e32 0xd385480f7abb647737c9c5385dd824678e043a72753434b0deb82818361d45a6 4800 0xf7ce0b653d2d72a4108cf5abe912ffdd777616dbbb27a70e8204f3ae2d0f6fadf7ce0b653d2d72a4108cf5abe912ffdd777616dbbb27a70e8204f3ae2d0f6fad = 0xf34cc6727c5f8ac69a1c7df4c5ee7ad596e4213b8bba528b479734466dc74bb39f2015356818a1324d44368d1db36a1fe64652142522350fe2537dbc1bef02d0 := by
  rw [show (4800 : Nat) = 20 + 4780 from rfl, pbkdfIter_add, ckE238]
  decide!

theorem ckE240 : pbkdfIter 0xf454dead9725214f90daf2a0df1228ea64e5750fa3924181824a932bf8e04e32 0xd385480f7abb647737c9c5385dd824678e043a72753434b0deb82818361d45a6 4820 0xf7ce0b653d2d72a4108cf5abe912ffdd777616dbbb27a70e8204f3ae2d0f6fadf7ce0b653d2d72a4108cf5abe912ffdd777616dbbb27a70e8204f3ae2d0f6fad = 0x8b6c218d63dd84c73a2c75476eb4155eab9872beb3f45bdaa10979e234994d6ae9e7483cfeee0817060a64752dbb6b5fc0348de3790a240400060f79c705923e := by
  rw [show (4820 : Nat) = 20 + 4800 from rfl, pbkdfIter_add, ckE239]
  decide!

theorem ckE241 : pbkdfIter 0xf454dead9725214f90daf2a0df1228ea64e5750fa3924181824a932bf8e04e32 0xd385480f7abb647737c9c5385dd824678e043a72753434b0deb82818361d45a6 4840 0xf7ce0b653d2d72a4108cf5abe912ffdd777616dbbb27a70e8204f3ae2d0f6fadf7ce0b653d2d72a4108cf5abe912ffdd777616dbbb27a70e8204f3ae2d0f6fad = 0x65acf7aefdc0d730cbb5d4e2fb898d55b817b8343b6babeb6d233de1c37e06783c0f1d3c1223a0a96e33d32c663eb0d135294340db4a138f8d8b6113646a36ae := by
  rw [show (4840 : Nat) = 20 + 4820 from rfl, pbkdfIter_add, ckE240]
  decide!

theorem ckE242 : pbkdfIter 0xf454dead9725214f90daf2a0df1228ea64e5750fa3924181824a932bf8e04e32 0xd385480f7abb647737c9c5385dd824678e043a72753434b0deb82818361d45a6 4860 0xf7ce0b653d2d72a4108cf5abe912ffdd777616dbbb27a70e8204f3ae2d0f6fadf7ce0b653d2d72a4108cf5abe912ffdd777616dbbb27a70e8204f3ae2d0f6fad = 0x27a877659fb3460ee5a2d3506e244da66325f8807db1b7d65df858db61823f3bc53463c355e8e3c9f5d34683d0d027a68bfd4528a29621dc85497da22c20244a := by
  rw [show (4860 : Nat) = 20 + 4840 from rfl, pbkdfIter_add, ckE241]
  decide!

theorem ckE243 : pbkdfIter 0xf454dead9725214f90daf2a0df1228ea64e5750fa3924181824a932bf8e04e32 0xd385480f7abb647737c9c5385dd824678e043a72753434b0deb82818361d45a6 4880 0xf7ce0b653d2d72a4108cf5abe912ffdd777616dbbb27a70e8204f3ae2d0f6fadf7ce0b653d2d72a4108cf5abe912ffdd777616dbbb27a70e8204f3ae2d0f6fad = 0x3c35957b5c55105100e3e1b89edc520c40cdb2a6fd9d8f53eb83367d84d9c0f8aea1aad979a5d58e3627bc872f9e2ad080ee4414608f6222eadebe024bc94ec6 := by
  rw [show (4880 : Nat) = 20 + 4860 from rfl, pbkdfIter_add, ckE242]
  decide!

theorem ckE244 : pbkdfIter 0xf454dead9725214f90daf2a0df1228ea64e5750fa3924181824a932bf8e04e32 0xd385480f7abb647737c9c5385dd824678e043a72753434b0deb82818361d45a6 4900 0xf7ce0b653d2d72a4108cf5abe912ffdd777616dbbb27a70e8204f3ae2d0f6fadf7ce0b653d2d72a4108cf5abe912ffdd777616dbbb27a70e8204f3ae2d0f6fad = 0x4e388572784b4cc10416244b9725bc51d4da2e0a4df539edaa2842e06781ad2d8f6978289477aa524c9bfcd436b2920cea07cf8d19b8ac4d5ccf6a2dcb1557d3 := by
  rw [show (4900 : Nat) = 20 + 4880 from rfl, pbkdfIter_add, ckE243]
  decide!

theorem ckE245 : pbkdfIter 0xf454dead9725214f90daf2a0df1228ea64e5750fa3924181824a932bf8e04e32 0xd385480f7abb647737c9c5385dd824678e043a72753434b0deb82818361d45a6 4920 0xf7ce0b653d2d72a4108cf5abe912ffdd777616dbbb27a70e8204f3ae2d0f6fadf7ce0b653d2d72a4108cf5abe912ffdd777616dbbb27a70e8204f3ae2d0f6fad = 0x9b342bc42e73c5f84a15f0801b11d0181bf1f18dbbd4843c1bbc5b1ca05a1604ad420c5cf9282f6d7aadc3a4801d5a4070d3c3a05f4b1a5e8336d0f80e93965d := by
  rw [show (4920 : Nat) = 20 + 4900 from rfl, pbkdfIter_add, ckE244]
  decide!

theorem ckE246 : pbkdfIter 0xf454dead9725214f90daf2a0df1228ea64e5750fa3924181824a932bf8e04e32 0xd385480f7abb647737c9c5385dd824678e043a72753434b0deb82818361d45a6 4940 0xf7ce0b653d2d72a4108cf5abe912ffdd777616dbbb27a70e8204f3ae2d0f6fadf7ce0b653d2d72a4108cf5abe912ffdd777616dbbb27a70e8204f3ae2d0f6fad = 0x43792ca39892be443ff3b0576c7ba06f94d2fa6c934068492d37d8aadda94df3b4f30874134aaf4af8e2373b019bc07f5e53befd26be8ad35ee793e3fb0cff72 := by
  rw [show (4940 : Nat) = 20 + 4920 from rfl, pbkdfIter_add, ckE245]
  decide!

theorem ckE247 : pbkdfIter 0xf454dead9725214f90daf2a0df1228ea64e5750fa3924181824a932bf8e04e32 0xd385480f7abb647737c9c5385dd824678e043a72753434b0deb82818361d45a6 4960 0xf7ce0b653d2d72a4108cf5abe912ffdd777616dbbb27a70e8204f3ae2d0f6fadf7ce0b653d2d72a4108cf5abe912ffdd777616dbbb27a70e8204f3ae2d0f6fad = 0x6a554baee93f5d730ef03e425dd5883fd8d5cf2b16ed08bd2cae2d0fd5686e8a723de2abeedcb3a47a466470a5ee06de4a768c7ed4607c301ce8a88be4695ead := by
  rw [show (4960 : Nat) = 20 + 4940 from rfl, pbkdfIter_add, ckE246]
  decide!

theorem ckE248 : pbkdfIter 0xf454dead9725214f90daf2a0df1228ea64e5750fa3924181824a932bf8e04e32 0xd385480f7abb647737c9c5385dd824678e043a72753434b0deb82818361d45a6 4980 0xf7ce0b653d2d72a4108cf5abe912ffdd777616dbbb27a70e8204f3ae2d0f6fadf7ce0b653d2d72a4108cf5abe912ffdd777616dbbb27a70e8204f3ae2d0f6fad = 0xc133f57c4c16d77eb992d1cb218cd4de75bff76a995e81b80fd8f2bb151ee4fb262279afbfa8e02389372fdeb2e5013b74f8dec79a59563646e4d8dc034104e1 := by
  rw [show (4980 : Nat) = 20 + 4960 from rfl, pbkdfIter_add, ckE247]
  decide!

theorem ckE249 : pbkdfIter 0xf454dead9725214f90daf2a0df1228ea64e5750fa3924181824a932bf8e04e32 0xd385480f7abb647737c9c5385dd824678e043a72753434b0deb82818361d45a6 4999 0xf7ce0b653d2d72a4108cf5abe912ffdd777616dbbb27a70e8204f3ae2d0f6fadf7ce0b653d2d72a4108cf5abe912ffdd777616dbbb27a70e8204f3ae2d0f6fad = 0x7fc7a2a6a7cc4607e80049c24f6783cf85588190b2e7697f3715db1b64db7217145fd03403b523f1985a0b15bc7218fd6b8336bb3e7996666a74a6c97e715552 := by
  rw [show (4999 : Nat) = 19 + 4980 from rfl, pbkdfIter_add, ckE248]
  decide!

theorem ckB0 : pbkdfIter 0x2223a11b7c5e834428cfd34c672804e46726a8cb5360806ba1c77db8fcd1abe0 0x8efd7f6749d07bdb2c4694824530eb49b9ff48655eaf257140d71bec9ec8f66a 20 0xaf8a9ae8cc3fed208b5be75e9c7a7611b2aa1a6e5ce36df5058e0fcb2684fb8daf8a9ae8cc3fed208b5be75e9c7a7611b2aa1a6e5ce36df5058e0fcb2684fb8d = 0x264df8f0c871bf92de8f9d239da24de5647ae5d68b719aaf06fe82eebf7a7156feebc424c60ab5b1f306a7eecfa9b51c257554ee2cb415d480fefefd4ccfc011 := by
  decide!

theorem ckB1 : pbkdfIter 0x2223a11b7c5e834428cfd34c672804e46726a8cb5360806ba1c77db8fcd1abe0 0x8efd7f6749d07bdb2c4694824530eb49b9ff48655eaf257140d71bec9ec8f66a 40 0xaf8a9ae8cc3fed208b5be75e9c7a7611b2aa1a6e5ce36df5058e0fcb2684fb8daf8a9ae8cc3fed208b5be75e9c7a7611b2aa1a6e5ce36df5058e0fcb2684fb8d = 0x5c5d2cac81706bf22366a13a8d3fd50fce19ce509ab2925cc063706562601f87c8c74196a3961fcb653c0ff927cf6396184c2a367828bb40dd80a885d102b7f0 := by
  rw [show (40 : Nat) = 20 + 20 from rfl, pbkdfIter_add, ckB0]
  decide!

theorem ckB2 : pbkdfIter 0x2223a11b7c5e834428cfd34c672804e46726a8cb5360806ba1c77db8fcd1abe0 0x8efd7f6749d07bdb2c4694824530eb49b9ff48655eaf257140d71bec9ec8f66a 60 0xaf8a9ae8cc3fed208b5be75e9c7a7611b2aa1a6e5ce36df5058e0fcb2684fb8daf8a9ae8cc3fed208b5be75e9c7a7611b2aa1a6e5ce36df5058e0fcb2684fb8d = 0x44e73b4033c86258d58b386f5f23fd1c15fe2d71fb89f5008ed9dcc222632d637a3c5419fea3221c11132c4344bb2d1ce999f1024d864220c3b7bfd6472022be := by
  rw [show (60 : Nat) = 20 + 40 from rfl, pbkdfIter_add, ckB1]
  decide!

theorem ckB3 : pbkdfIter 0x2223a11b7c5e834428cfd34c672804e46726a8cb5360806ba1c77db8fcd1abe0 0x8efd7f6749d07bdb2c4694824530eb49b9ff48655eaf257140d71bec9ec8f66a 80 0xaf8a9ae8cc3fed208b5be75e9c7a7611b2aa1a6e5ce36df5058e0fcb2684fb8daf8a9ae8cc3fed208b5be75e9c7a7611b2aa1a6e5ce36df5058e0fcb2684fb8d = 0x457efe159e3ff2c71a9e6d6670c97fb0c715cf1d85c97e2fba9f21deef45cedad477d63d6808ac7babb87c3f93764adfa41933d0a65d06a30db265aac96fa487 := by
  rw [show (80 : Nat) = 20 + 60 from rfl, pbkdfIter_add, ckB2]
  decide!

theorem ckB4 : pbkdfIter 0x2223a11b7c5e834428cfd34c672804e46726a8cb5360806ba1c77db8fcd1abe0 0x8efd7f6749d07bdb2c4694824530eb49b9ff48655eaf257140d71bec9ec8f66a 100 0xaf8a9ae8cc3fed208b5be75e9c7a7611b2aa1a6e5ce36df5058e0fcb2684fb8daf8a9ae8cc3fed208b5be75e9c7a7611b2aa1a6e5ce36df5058e0fcb2684fb8d = 0x4dd0d1edb05e45ccb10790eea82ccfa96527fc2b069d357f4604d6ba35f7934f884b00e0e16c9f439f646188f3020b34eb4af651bdea8c3e68e6b0b3d57dedb := by
  rw [show (100 : Nat) = 20 + 80 from rfl, pbkdfIter_add, ckB3]
  decide!

theorem ckB5 : pbkdfIter 0x2223a11b7c5e834428cfd34c672804e46726a8cb5360806ba1c77db8fcd1abe0 0x8efd7f6749d07bdb2c4694824530eb49b9ff48655eaf257140d71bec9ec8f66a 120 0xaf8a9ae8cc3fed208b5be75e9c7a7611b2aa1a6e5ce36df5058e0fcb2684fb8daf8a9ae8cc3fed208b5be75e9c7a7611b2aa1a6e5ce36df5058e0fcb2684fb8d = 0xb83f2da7f742e8b677293e84b85f28d3a080c8e4713cd36514c934f79e3db3771223d04ab73f9885aeafbfbe3a486e0a3b92ee9f807b6afa455fbd63dc978241 := by
  rw [show (120 : Nat) = 20 + 100 from rfl, pbkdfIter_add, ckB4]
  decide!

theorem ckB6 : pbkdfIter 0x2223a11b7c5e834428cfd34c672804e46726a8cb5360806ba1c77db8fcd1abe0 0x8efd7f6749d07bdb2c4694824530eb49b9ff48655eaf257140d71bec9ec8f66a 140 0xaf8a9ae8cc3fed208b5be75e9c7a7611b2aa1a6e5ce36df5058e0fcb2684fb8daf8a9ae8cc3fed208b5be75e9c7a7611b2aa1a6e5ce36df5058e0fcb2684fb8d = 0x52a4ec0fe4f8c2dbde35fb7f5792f8aa043a37ffc79982aaa7d777239fc890ddb22da86761f5ada56ac63f5d402465f8b7205a31cd94a6e3ea513d2434fcd690 := by
  rw [show (140 : Nat) = 20 + 120 from rfl, pbkdfIter_add, ckB5]
  decide!

theorem ckB7 : pbkdfIter 0x2223a11b7c5e834428cfd34c672804e46726a8cb5360806ba1c77db8fcd1abe0 0x8efd7f6749d07bdb2c4694824530eb49b9ff48655eaf257140d71bec9ec8f66a 160 0xaf8a9ae8cc3fed208b5be75e9c7a7611b2aa1a6e5ce36df5058e0fcb2684fb8daf8a9ae8cc3fed208b5be75e9c7a7611b2aa1a6e5ce36df5058e0fcb2684fb8d = 0x8175d6da4d186082a901f5a05c8153cf74a64b3bdba900c8d779df13930ed788f2d9133f2407ddd1077c39802221afadec342d4ce2899f6b80a3521f032dd850 := by
  rw [show (160 : Nat) = 20 + 140 from rfl, pbkdfIter_add, ckB6]
  decide!

theorem ckB8 : pbkdfIter 0x2223a11b7c5e834428cfd34c672804e46726a8cb5360806ba1c77db8fcd1abe0 0x8efd7f6749d07bdb2c4694824530eb49b9ff48655eaf257140d71bec9ec8f66a 180 0xaf8a9ae8cc3fed208b5be75e9c7a7611b2aa1a6e5ce36df5058e0fcb2684fb8daf8a9ae8cc3fed208b5be75e9c7a7611b2aa1a6e5ce36df5058e0fcb2684fb8d = 0xabd5f63bfaa9b7e40653d68c60e31081a6479b69f9d4d597ada2094763118c0d36031c074169a4d5cec681c62938c67d7ca9e46fdbe58fc8e1ae92b7d0f5fad2 := by
  rw [show (180 : Nat) = 20 + 160 from rfl, pbkdfIter_add, ckB7]
  decide!

theorem ckB9 : pbkdfIter 0x2223a11b7c5e834428cfd34c672804e46726a8cb5360806ba1c77db8fcd1abe0 0x8efd7f6749d07bdb2c4694824530eb49b9ff48655eaf257140d71bec9ec8f66a 200 0xaf8a9ae8cc3fed208b5be75e9c7a7611b2aa1a6e5ce36df5058e0fcb2684fb8daf8a9ae8cc3fed208b5be75e9c7a7611b2aa1a6e5ce36df5058e0fcb2684fb8d = 0xbb8d0dd05e1b91b9f017563a38bf5398199ef916596353c8f60dc9b5b1b3db30426004edc0b9f9211b3bad67476e3def45488bf7a0ac2fec4aec6c1dc80afa68 := by
  rw [show (200 : Nat) = 20 + 180 from rfl, pbkdfIter_add, ckB8]
  decide!

theorem ckB10 : pbkdfIter 0x2223a11b7c5e834428cfd34c672804e46726a8cb5360806ba1c77db8fcd1abe0 0x8efd7f6749d07bdb2c4694824530eb49b9ff48655eaf257140d71bec9ec8f66a 220 0xaf8a9ae8cc3fed208b5be75e9c7a7611b2aa1a6e5ce36df5058e0fcb2684fb8daf8a9ae8cc3fed208b5be75e9c7a7611b2aa1a6e5ce36df5058e0fcb2684fb8d = 0xcf6960bd2e60e141c21100e94980549b3f807cccffd6d712dccc85c112915ecb74f1817772941163dc8e7ea3567b7d500bbcc296d10f02b2b3f2982f98291585 := by
  rw [show (220 : Nat) = 20 + 200 from rfl, pbkdfIter_add, ckB9]
  decide!

theorem ckB11 : pbkdfIter 0x2223a11b7c5e834428cfd34c672804e46726a8cb5360806ba1c77db8fcd1abe0 0x8efd7f6749d07bdb2c4694824530eb49b9ff48655eaf257140d71bec9ec8f66a 240 0xaf8a9ae8cc3fed208b5be75e9c7a7611b2aa1a6e5ce36df5058e0fcb2684fb8daf8a9ae8cc3fed208b5be75e9c7a7611b2aa1a6e5ce36df5058e0fcb2684fb8d = 0xc6696cb1ec888ba74b25694661ab898295ab6ef8f220b931d14d1b2def270cf4dcfb174b03f2f4777c2efd581fae2fbc10d12621bb8b5a7a7ee2575f9d59adb9 := by
  rw [show (240 : Nat) = 20 + 220 from rfl, pbkdfIter_add, ckB10]
  decide!

theorem ckB12 : pbkdfIter 0x2223a11b7c5e834428cfd34c672804e46726a8cb5360806ba1c77db8fcd1abe0 0x8efd7f6749d07bdb2c4694824530eb49b9ff48655eaf257140d71bec9ec8f66a 260 0xaf8a9ae8cc3fed208b5be75e9c7a7611b2aa1a6e5ce36df5058e0fcb2684fb8daf8a9ae8cc3fed208b5be75e9c7a7611b2aa1a6e5ce36df5058e0fcb2684fb8d = 0x52b352550b1802b223c242e3ecd2cc2e4ded6d24c6d7890928a234662a26b0dbf31d9a1ed884dbcd68d4c39ca3d15e504389a582620313d43d3df0633356977f := by
  rw [show (260 : Nat) = 20 + 240 from rfl, pbkdfIter_add, ckB11]
  decide!

theorem ckB13 : pbkdfIter 0x2223a11b7c5e834428cfd34c672804e46726a8cb5360806ba1c77db8fcd1abe0 0x8efd7f6749d07bdb2c4694824530eb49b9ff48655eaf257140d71bec9ec8f66a 280 0xaf8a9ae8cc3fed208b5be75e9c7a7611b2aa1a6e5ce36df5058e0fcb2684fb8daf8a9ae8cc3fed208b5be75e9c7a7611b2aa1a6e5ce36df5058e0fcb2684fb8d = 0x7dcda92b86c2677a618b7d79a2c59f1ff093ed330f069b4a111fc4a557851d6a6b79e3a04f0b84354c82594d4387005c5ba76ba758d40dec56faf818d82097b8 := by
  rw [show (280 : Nat) = 20 + 260 from rfl, pbkdfIter_add, ckB12]
  decide!

theorem ckB14 : pbkdfIter 0x2223a11b7c5e834428cfd34c672804e46726a8cb5360806ba1c77db8fcd1abe0 0x8efd7f6749d07bdb2c4694824530eb49b9ff48655eaf257140d71bec9ec8f66a 300 0xaf8a9ae8cc3fed208b5be75e9c7a7611b2aa1a6e5ce36df5058e0fcb2684fb8daf8a9ae8cc3fed208b5be75e9c7a7611b2aa1a6e5ce36df5058e0fcb2684fb8d = 0xbe83e46ebdf7b43f4bb320863ca2331b4a470c386370510b2d6da7e9e5b29e4625bd9ff5d1edb3d939f6956c48fbbd6db89bb40485340bfa91fdd6eec11b6443 := by
  rw [show (300 : Nat) = 20 + 280 from rfl, pbkdfIter_add, ckB13]
  decide!

theorem ckB15 : pbkdfIter 0x2223a11b7c5e834428cfd34c672804e46726a8cb5360806ba1c77db8fcd1abe0 0x8efd7f6749d07bdb2c4694824530eb49b9ff48655eaf257140d71bec9ec8f66a 320 0xaf8a9ae8cc3fed208b5be75e9c7a7611b2aa1a6e5ce36df5058e0fcb2684fb8daf8a9ae8cc3fed208b5be75e9c7a7611b2aa1a6e5ce36df5058e0fcb2684fb8d = 0xc1f750947dcf47b0ed0d564dfff5917aae1de9f037803f4d499e114a2ce6f04b6daf9636faadb6dea8d7ae08bc611a7e358dcee0477de8a633d8785b28f91a2b := by
  rw [show (320 : Nat) = 20 + 300 from rfl, pbkdfIter_add, ckB14]
  decide!

theorem ckB16 : pbkdfIter 0x2223a11b7c5e834428cfd34c672804e46726a8cb5360806ba1c77db8fcd1abe0 0x8efd7f6749d07bdb2c4694824530eb49b9ff48655eaf257140d71bec9ec8f66a 340 0xaf8a9ae8cc3fed208b5be75e9c7a7611b2aa1a6e5ce36df5058e0fcb2684fb8daf8a9ae8cc3fed208b5be75e9c7a7611b2aa1a6e5ce36df5058e0fcb2684fb8d = 0x76c43b888f5d2cb361f77319cd45c9de129460c29ff8f21450d0edfaa659beaa33eafd86fce4cd2543ca3a19466c6f70ff79f407a39d69b5861f8fa6e4560d8f := by
  rw [show (340 : Nat) = 20 + 320 from rfl, pbkdfIter_add, ckB15]
  decide!

theorem ckB17 : pbkdfIter 0x2223a11b7c5e834428cfd34c672804e46726a8cb5360806ba1c77db8fcd1abe0 0x8efd7f6749d07bdb2c4694824530eb49b9ff48655eaf257140d71bec9ec8f66a 360 0xaf8a9ae8cc3fed208b5be75e9c7a7611b2aa1a6e5ce36df5058e0fcb2684fb8daf8a9ae8cc3fed208b5be75e9c7a7611b2aa1a6e5ce36df5058e0fcb2684fb8d = 0xb641dfea1cc2634a76a187354373d8d22aa2e2e1778cf5fe3d2991defe193085b0c36a0b9d5eb6ce7b52ffc51f64124350a33ae62859e5cc354b98cdb6ce4331 := by
  rw [show (360 : Nat) = 20 + 340 from rfl, pbkdfIter_add, ckB16]
  decide!

theorem ckB18 : pbkdfIter 0x2223a11b7c5e834428cfd34c672804e46726a8cb5360806ba1c77db8fcd1abe0 0x8efd7f6749d07bdb2c4694824530eb49b9ff48655eaf257140d71bec9ec8f66a 380 0xaf8a9ae8cc3fed208b5be75e9c7a7611b2aa1a6e5ce36df5058e0fcb2684fb8daf8a9ae8cc3fed208b5be75e9c7a7611b2aa1a6e5ce36df5058e0fcb2684fb8d = 0xa34156b397501b9b63596cdc5728c0c8ea9ec269b70e52e1b2b3d12d3fb8ff16aed5be4d5c4c6941505966f99083505e26b3bdfee28d14f79f18ad3dace961f8 := by
  rw [show (380 : Nat) = 20 + 360 from rfl, pbkdfIter_add, ckB17]
  decide!

theorem ckB19 : pbkdfIter 0x2223a11b7c5e834428cfd34c672804e46726a8cb5360806ba1c77db8fcd1abe0 0x8efd7f6749d07bdb2c4694824530eb49b9ff48655eaf257140d71bec9ec8f66a 400 0xaf8a9ae8cc3fed208b5be75e9c7a7611b2aa1a6e5ce36df5058e0fcb2684fb8daf8a9ae8cc3fed208b5be75e9c7a7611b2aa1a6e5ce36df5058e0fcb2684fb8d = 0xf472387b78f7cb57a9311d2f3008a1515d5c17142e2e445848dfabe0d51283322c6d237ef19d60b08202038080133201de9326d688fdca474df49a82c278031 := by
  rw [show (400 : Nat) = 20 + 380 from rfl, pbkdfIter_add, ckB18]
  decide!

theorem ckB20 : pbkdfIter 0x2223a11b7c5e834428cfd34c672804e46726a8cb5360806ba1c77db8fcd1abe0 0x8efd7f6749d07bdb2c4694824530eb49b9ff48655eaf257140d71bec9ec8f66a 420 0xaf8a9ae8cc3fed208b5be75e9c7a7611b2aa1a6e5ce36df5058e0fcb2684fb8daf8a9ae8cc3fed208b5be75e9c7a7611b2aa1a6e5ce36df5058e0fcb2684fb8d = 0x8d665120b0357981974765f0eadc368bc312d6e63881acc046f61b502a93b13804d657e606a39fbf15f2b044cda7ee49bf2bebd320fc7b503a45bd4ee7d78795 := by
  rw [show (420 : Nat) = 20 + 400 from rfl, pbkdfIter_add, ckB19]
  decide!

theorem ckB21 : pbkdfIter 0x2223a11b7c5e834428cfd34c672804e46726a8cb5360806ba1c77db8fcd1abe0 0x8efd7f6749d07bdb2c4694824530eb49b9ff48655eaf257140d71bec9ec8f66a 440 0xaf8a9ae8cc3fed208b5be75e9c7a7611b2aa1a6e5ce36df5058e0fcb2684fb8daf8a9ae8cc3fed208b5be75e9c7a7611b2aa1a6e5ce36df5058e0fcb2684fb8d = 0x2b536bc5775078060cf845aca2972e26c077bf2efa17dcd3dc0383405f025f1b082b9818897a50bae0e23e8fdfb669dfbc22400e7b31c63a5f4a48cb78a30aa1 := by
  rw [show (440 : Nat) = 20 + 420 from rfl, pbkdfIter_add, ckB20]
  decide!

theorem ckB22 : pbkdfIter 0x2223a11b7c5e834428cfd34c672804e46726a8cb5360806ba1c77db8fcd1abe0 0x8efd7f6749d07bdb2c4694824530eb49b9ff48655eaf257140d71bec9ec8f66a 460 0xaf8a9ae8cc3fed208b5be75e9c7a7611b2aa1a6e5ce36df5058e0fcb2684fb8daf8a9ae8cc3fed208b5be75e9c7a7611b2aa1a6e5ce36df5058e0fcb2684fb8d = 0x59aa964e8a32c2fe49b6228fb82928f2b6d4b827b71d2c4ef1e9555f319cb6b45f97fcde873dd9b5de7603f48b0e9aa029113d3c28789d3331ddc1266450ef2b := by
  rw [show (460 : Nat) = 20 + 440 from rfl, pbkdfIter_add, ckB21]
  decide!

theorem ckB23 : pbkdfIter 0x2223a11b7c5e834428cfd34c672804e46726a8cb5360806ba1c77db8fcd1abe0 0x8efd7f6749d07bdb2c4694824530eb49b9ff48655eaf257140d71bec9ec8f66a 480 0xaf8a9ae8cc3fed208b5be75e9c7a7611b2aa1a6e5ce36df5058e0fcb2684fb8daf8a9ae8cc3fed208b5be75e9c7a7611b2aa1a6e5ce36df5058e0fcb2684fb8d = 0x821c05aaeec0c58844ce1836ae15cbcb432c30020b7f725d1b46e9212e8714be6dfba6e12e3891e12e063c768da25f7a48a586a1be40c567b388986ac7cbdc9b := by
  rw [show (480 : Nat) = 20 + 460 from rfl, pbkdfIter_add, ckB22]
  decide!

theorem ckB24 : pbkdfIter 0x2223a11b7c5e834428cfd34c672804e46726a8cb5360806ba1c77db8fcd1abe0 0x8efd7f6749d07bdb2c4694824530eb49b9ff48655eaf257140d71bec9ec8f66a 500 0xaf8a9ae8cc3fed208b5be75e9c7a7611b2aa1a6e5ce36df5058e0fcb2684fb8daf8a9ae8cc3fed208b5be75e9c7a7611b2aa1a6e5ce36df5058e0fcb2684fb8d = 0xb5a2c0934f0550e91d004383d8e55343808e8e89c934524d5bbd9c5c2e8cb32213e1f66be606c63e231d1fcbbb8d6eac8e17094bc1336932657da3a4820b1367 := by
  rw [show (500 : Nat) = 20 + 480 from rfl, pbkdfIter_add, ckB23]
  decide!

theorem ckB25 : pbkdfIter 0x2223a11b7c5e834428cfd34c672804e46726a8cb5360806ba1c77db8fcd1abe0 0x8efd7f6749d07bdb2c4694824530eb49b9ff48655eaf257140d71bec9ec8f66a 520 0xaf8a9ae8cc3fed208b5be75e9c7a7611b2aa1a6e5ce36df5058e0fcb2684fb8daf8a9ae8cc3fed208b5be75e9c7a7611b2aa1a6e5ce36df5058e0fcb2684fb8d = 0x883ac9a4144bba581bc58739053815d15165bbbc79ec59130ae519f226d350c199657a989e2369b503bcd80fd7129ad3696693b5cbe51f97aaf1d6117451cd2e := by
  rw [show (520 : Nat) = 20 + 500 from rfl, pbkdfIter_add, ckB24]
  decide!

theorem ckB26 : pbkdfIter 0x2223a11b7c5e834428cfd34c672804e46726a8cb5360806ba1c77db8fcd1abe0 0x8efd7f6749d07bdb2c4694824530eb49b9ff48655eaf257140d71bec9ec8f66a 540 0xaf8a9ae8cc3fed208b5be75e9c7a7611b2aa1a6e5ce36df5058e0fcb2684fb8daf8a9ae8cc3fed208b5be75e9c7a7611b2aa1a6e5ce36df5058e0fcb2684fb8d = 0x7693c0a6bdec778bcba046d292d548f023934f820bbfc942981e21c7b77be17b97852c9ba8ace7bcf7c87e121b54cafba198da425777a89d22556b69cd434a92 := by
  rw [show (540 : Nat) = 20 + 520 from rfl, pbkdfIter_add, ckB25]
  decide!

theorem ckB27 : pbkdfIter 0x2223a11b7c5e834428cfd34c672804e46726a8cb5360806ba1c77db8fcd1abe0 0x8efd7f6749d07bdb2c4694824530eb49b9ff48655eaf257140d71bec9ec8f66a 560 0xaf8a9ae8cc3fed208b5be75e9c7a7611b2aa1a6e5ce36df5058e0fcb2684fb8daf8a9ae8cc3fed208b5be75e9c7a7611b2aa1a6e5ce36df5058e0fcb2684fb8d = 0x1de45050c9c1331343cd82194e8231939adc41795c2dacfba75573fa36f7d11383d89205b4860a0e161ea22b769626f56521f43ce89fd882685cf73150427dbf := by
  rw [show (560 : Nat) = 20 + 540 from rfl, pbkdfIter_add, ckB26]
  decide!

theorem ckB28 : pbkdfIter 0x2223a11b7c5e834428cfd34c672804e46726a8cb5360806ba1c77db8fcd1abe0 0x8efd7f6749d07bdb2c4694824530eb49b9ff48655eaf257140d71bec9ec8f66a 580 0xaf8a9ae8cc3fed208b5be75e9c7a7611b2aa1a6e5ce36df5058e0fcb2684fb8daf8a9ae8cc3fed208b5be75e9c7a7611b2aa1a6e5ce36df5058e0fcb2684fb8d = 0xb2f45f8e8786bd1979ae10de1c6cbff431bf76cc41538169e062e324bcfcb8e5197ccfa1acdf2fb189d1fee19177a68f71771468e7e02712b98f8f14a18c6f42 := by
  rw [show (580 : Nat) = 20 + 560 from rfl, pbkdfIter_add, ckB27]
  decide!

theorem ckB29 : pbkdfIter 0x2223a11b7c5e834428cfd34c672804e46726a8cb5360806ba1c77db8fcd1abe0 0x8efd7f6749d07bdb2c4694824530eb49b9ff48655eaf257140d71bec9ec8f66a 600 0xaf8a9ae8cc3fed208b5be75e9c7a7611b2aa1a6e5ce36df5058e0fcb2684fb8daf8a9ae8cc3fed208b5be75e9c7a7611b2aa1a6e5ce36df5058e0fcb2684fb8d = 0x583f717de9db5bdfe4d2cdeb201b5d9ee827767d11c52e8fd8936d94f31af887383291c8be3ac6036b43d983f184e081cff5202de73a5e4614c580b5d392eac1 := by
  rw [show (600 : Nat) = 20 + 580 from rfl, pbkdfIter_add, ckB28]
  decide!

theorem ckB30 : pbkdfIter 0x2223a11b7c5e834428cfd34c672804e46726a8cb5360806ba1c77db8fcd1abe0 0x8efd7f6749d07bdb2c4694824530eb49b9ff48655eaf257140d71bec9ec8f66a 620 0xaf8a9ae8cc3fed208b5be75e9c7a7611b2aa1a6e5ce36df5058e0fcb2684fb8daf8a9ae8cc3fed208b5be75e9c7a7611b2aa1a6e5ce36df5058e0fcb2684fb8d = 0xbd9b35a93cb4060f42a173aa904ad3051a178dfda8bd39c98d2b456973982a972683df1ccb876877795567850654b1c7efe1f9e9b0d7d74b5c1d5169a799fff3 := by
  rw [show (620 : Nat) = 20 + 600 from rfl, pbkdfIter_add, ckB29]
  decide!

theorem ckB31 : pbkdfIter 0x2223a11b7c5e834428cfd34c672804e46726a8cb5360806ba1c77db8fcd1abe0 0x8efd7f6749d07bdb2c4694824530eb49b9ff48655eaf257140d71bec9ec8f66a 640 0xaf8a9ae8cc3fed208b5be75e9c7a7611b2aa1a6e5ce36df5058e0fcb2684fb8daf8a9ae8cc3fed208b5be75e9c7a7611b2aa1a6e5ce36df5058e0fcb2684fb8d = 0xcb49a490bffba337271d120db9273d66dc7bfbf4f590ffe1d8c16f12073e18dec6c93f7f9b07f0ec37b69ab1ffbbc5fdbc13460e5b010a2822a3114df5504ceb := by
  rw [show (640 : Nat) = 20 + 620 from rfl, pbkdfIter_add, ckB30]
  decide!

theorem ckB32 : pbkdfIter 0x2223a11b7c5e834428cfd34c672804e46726a8cb5360806ba1c77db8fcd1abe0 0x8efd7f6749d07bdb2c4694824530eb49b9ff48655eaf257140d71bec9ec8f66a 660 0xaf8a9ae8cc3fed208b5be75e9c7a7611b2aa1a6e5ce36df5058e0fcb2684fb8daf8a9ae8cc3fed208b5be75e9c7a7611b2aa1a6e5ce36df5058e0fcb2684fb8d = 0x468f27a1c06196de5f57862ecea5caedf52bfc2ea17acb3fbef696c68ba1dc1f47820bbd3e193e49a37d2cd48a38d6347fffe69c419a4e392a0ae263f12ec201 := by
  rw [show (660 : Nat) = 20 + 640 from rfl, pbkdfIter_add, ckB31]
  decide!

theorem ckB33 : pbkdfIter 0x2223a11b7c5e834428cfd34c672804e46726a8cb5360806ba1c77db8fcd1abe0 0x8efd7f6749d07bdb2c4694824530eb49b9ff48655eaf257140d71bec9ec8f66a 680 0xaf8a9ae8cc3fed208b5be75e9c7a7611b2aa1a6e5ce36df5058e0fcb2684fb8daf8a9ae8cc3fed208b5be75e9c7a7611b2aa1a6e5ce36df5058e0fcb2684fb8d = 0x920542ff413cb1f3e99f0adc4f4b3759f5879714436f057d7ba677e99f159b1287903e069686f3b1e943ad907d82d37405da8a7e9188439197c35696d9971c6f := by
  rw [show (680 : Nat) = 20 + 660 from rfl, pbkdfIter_add, ckB32]
  decide!

theorem ckB34 : pbkdfIter 0x2223a11b7c5e834428cfd34c672804e46726a8cb5360806ba1c77db8fcd1abe0 0x8efd7f6749d07bdb2c4694824530eb49b9ff48655eaf257140d71bec9ec8f66a 700 0xaf8a9ae8cc3fed208b5be75e9c7a7611b2aa1a6e5ce36df5058e0fcb2684fb8daf8a9ae8cc3fed208b5be75e9c7a7611b2aa1a6e5ce36df5058e0fcb2684fb8d = 0xaa50e3155aeb4c875f5ccb9785b3b9b9a3197d0cfaabc953701f4ec87629e9e4017f14731a0bfc6b4978fefb257bf393be11e6b2559aa5e2535fb9d8ce66099a := by
  rw [show (700 : Nat) = 20 + 680 from rfl, pbkdfIter_add, ckB33]
  decide!

theorem ckB35 : pbkdfIter 0x2223a11b7c5e834428cfd34c672804e46726a8cb5360806ba1c77db8fcd1abe0 0x8efd7f6749d07bdb2c4694824530eb49b9ff48655eaf257140d71bec9ec8f66a 720 0xaf8a9ae8cc3fed208b5be75e9c7a7611b2aa1a6e5ce36df5058e0fcb2684fb8daf8a9ae8cc3fed208b5be75e9c7a7611b2aa1a6e5ce36df5058e0fcb2684fb8d = 0x29b716fc85fb722b4b006242fe585b0f6654f53bc380beabaf89f3675c556f6b4380d49213277210b3439439fed27673f24def8aa074cf5302c97c4a65e86f64 := by
  rw [show (720 : Nat) = 20 + 700 from rfl, pbkdfIter_add, ckB34]
  decide!

theorem ckB36 : pbkdfIter 0x2223a11b7c5e834428cfd34c672804e46726a8cb5360806ba1c77db8fcd1abe0 0x8efd7f6749d07bdb2c4694824530eb49b9ff48655eaf257140d71bec9ec8f66a 740 0xaf8a9ae8cc3fed208b5be75e9c7a7611b2aa1a6e5ce36df5058e0fcb2684fb8daf8a9ae8cc3fed208b5be75e9c7a7611b2aa1a6e5ce36df5058e0fcb2684fb8d = 0xe04aa7f40778becc56fbb62c3436f99e10565e3b6c3312a3a63ba32a387d8d34a796c6979ef47fd112a5b062213bf26e022f32df604b598c4ba629c1fa1965cd := by
  rw [show (740 : Nat) = 20 + 720 from rfl, pbkdfIter_add, ckB35]
  decide!

theorem ckB37 : pbkdfIter 0x2223a11b7c5e834428cfd34c672804e46726a8cb5360806ba1c77db8fcd1abe0 0x8efd7f6749d07bdb2c4694824530eb49b9ff48655eaf257140d71bec9ec8f66a 760 0xaf8a9ae8cc3fed208b5be75e9c7a7611b2aa1a6e5ce36df5058e0fcb2684fb8daf8a9ae8cc3fed208b5be75e9c7a7611b2aa1a6e5ce36df5058e0fcb2684fb8d = 0x301cc3eaa70e1c0ebdb79f301fa9401567ec6b4c00bd55cd3d9e025911e3b811596da0f842302421e019d60e13e9c2cecae3ac09d1ccc69c81cb93f1238eb5c7 := by
  rw [show (760 : Nat) = 20 + 740 from rfl, pbkdfIter_add, ckB36]
  decide!

theorem ckB38 : pbkdfIter 0x2223a11b7c5e834428cfd34c672804e46726a8cb5360806ba1c77db8fcd1abe0 0x8efd7f6749d07bdb2c4694824530eb49b9ff48655eaf257140d71bec9ec8f66a 780 0xaf8a9ae8cc3fed208b5be75e9c7a7611b2aa1a6e5ce36df5058e0fcb2684fb8daf8a9ae8cc3fed208b5be75e9c7a7611b2aa1a6e5ce36df5058e0fcb2684fb8d = 0x85e50a1bb0f3e3dc8ba746a2bdd39b3f1f0da039e196bb5c76dc6bcc35dcb422f600039152c69c58ca611bd4e016cc1048104bf3482de7885786cdabc70f31cc := by
  rw [show (780 : Nat) = 20 + 760 from rfl, pbkdfIter_add, ckB37]
  decide!

theorem ckB39 : pbkdfIter 0x2223a11b7c5e834428cfd34c672804e46726a8cb5360806ba1c77db8fcd1abe0 0x8efd7f6749d07bdb2c4694824530eb49b9ff48655eaf257140d71bec9ec8f66a 800 0xaf8a9ae8cc3fed208b5be75e9c7a7611b2aa1a6e5ce36df5058e0fcb2684fb8daf8a9ae8cc3fed208b5be75e9c7a7611b2aa1a6e5ce36df5058e0fcb2684fb8d = 0xb3cbbcc53134aa7cbed7d5b6d824eef66ee36c20b13831692d82fb118b58905c1b02ccdc50a61a456a82f8228ddc95dcc5651a3411c8b50b0b3385f994a3bfb5 := by
  rw [show (800 : Nat) = 20 + 780 from rfl, pbkdfIter_add, ckB38]
  decide!

theorem ckB40 : pbkdfIter 0x2223a11b7c5e834428cfd34c672804e46726a8cb5360806ba1c77db8fcd1abe0 0x8efd7f6749d07bdb2c4694824530eb49b9ff48655eaf257140d71bec9ec8f66a 820 0xaf8a9ae8cc3fed208b5be75e9c7a7611b2aa1a6e5ce36df5058e0fcb2684fb8daf8a9ae8cc3fed208b5be75e9c7a7611b2aa1a6e5ce36df5058e0fcb2684fb8d = 0x429fabf453ccf0b1b782444fd1d18ce27770d2a2e044d6d0d8906f15c96940874cca3bebf119ae5737bd82f5c81b1c47d5e92ace9d343a50706c4a7bf5d9fbb8 := by
  rw [show (820 : Nat) = 20 + 800 from rfl, pbkdfIter_add, ckB39]
  decide!

theorem ckB41 : pbkdfIter 0x2223a11b7c5e834428cfd34c672804e46726a8cb5360806ba1c77db8fcd1abe0 0x8efd7f6749d07bdb2c4694824530eb49b9ff48655eaf257140d71bec9ec8f66a 840 0xaf8a9ae8cc3fed208b5be75e9c7a7611b2aa1a6e5ce36df5058e0fcb2684fb8daf8a9ae8cc3fed208b5be75e9c7a7611b2aa1a6e5ce36df5058e0fcb2684fb8d = 0x95784759c4604dc3a5dbeb02dc91ebdef7b69178c786ce06ab13a2aaa2173858b77b5b0207765edcb8f1efb8555fa550abdcf5e5e0abfe850a339096c48a0eed := by
  rw [show (840 : Nat) = 20 + 820 from rfl, pbkdfIter_add, ckB40]
  decide!

theorem ckB42 : pbkdfIter 0x2223a11b7c5e834428cfd34c672804e46726a8cb5360806ba1c77db8fcd1abe0 0x8efd7f6749d07bdb2c4694824530eb49b9ff48655eaf257140d71bec9ec8f66a 860 0xaf8a9ae8cc3fed208b5be75e9c7a7611b2aa1a6e5ce36df5058e0fcb2684fb8daf8a9ae8cc3fed208b5be75e9c7a7611b2aa1a6e5ce36df5058e0fcb2684fb8d = 0x93aedca7b02f915e8eecaac2b88710fd22d964b29e9db16edf9ea80915b70f6aea53d1a3aabd2edd19afd14129f974c676bed9c16af1535cc65c544762deaa55 := by
  rw [show (860 : Nat) = 20 + 840 from rfl, pbkdfIter_add, ckB41]
  decide!

theorem ckB43 : pbkdfIter 0x2223a11b7c5e834428cfd34c672804e46726a8cb5360806ba1c77db8fcd1abe0 0x8efd7f6749d07bdb2c4694824530eb49b9ff48655eaf257140d71bec9ec8f66a 880 0xaf8a9ae8cc3fed208b5be75e9c7a7611b2aa1a6e5ce36df5058e0fcb2684fb8daf8a9ae8cc3fed208b5be75e9c7a7611b2aa1a6e5ce36df5058e0fcb2684fb8d = 0x288f18c113df191e94215f12f857b9295483cb893a35eac617b4cd4dc26783d63188d05c570f03511e7cf7ac83396fbbe21fbbb651633c97fbd4c9938a2ebfe3 := by
  rw [show (880 : Nat) = 20 + 860 from rfl, pbkdfIter_add, ckB42]
  decide!

theorem ckB44 : pbkdfIter 0x2223a11b7c5e834428cfd34c672804e46726a8cb5360806ba1c77db8fcd1abe0 0x8efd7f6749d07bdb2c4694824530eb49b9ff48655eaf257140d71bec9ec8f66a 900 0xaf8a9ae8cc3fed208b5be75e9c7a7611b2aa1a6e5ce36df5058e0fcb2684fb8daf8a9ae8cc3fed208b5be75e9c7a7611b2aa1a6e5ce36df5058e0fcb2684fb8d = 0xb298d73803775118d03607340319e4b387fef89f98c29a48d819d3111a74aa82d127d0933b2228929abd75ff30984326b0bd5bbf38c65ef3153feea07280866e := by
  rw [show (900 : Nat) = 20 + 880 from rfl, pbkdfIter_add, ckB43]
  decide!

theorem ckB45 : pbkdfIter 0x2223a11b7c5e834428cfd34c672804e46726a8cb5360806ba1c77db8fcd1abe0 0x8efd7f6749d07bdb2c4694824530eb49b9ff48655eaf257140d71bec9ec8f66a 920 0xaf8a9ae8cc3fed208b5be75e9c7a7611b2aa1a6e5ce36df5058e0fcb2684fb8daf8a9ae8cc3fed208b5be75e9c7a7611b2aa1a6e5ce36df5058e0fcb2684fb8d = 0x2e2c0aeb0ca7ba4f5aa5d81c0d87b98842fe742be4a250aecc29c6567a2f20bcabeb26c82f30ecd487dab6b9c15f0e9c7f46fc3d2078fff1870f5b04efae8d7b := by
  rw [show (920 : Nat) = 20 + 900 from rfl, pbkdfIter_add, ckB44]
  decide!

theorem ckB46 : pbkdfIter 0x2223a11b7c5e834428cfd34c672804e46726a8cb5360806ba1c77db8fcd1abe0 0x8efd7f6749d07bdb2c4694824530eb49b9ff48655eaf257140d71bec9ec8f66a 940 0xaf8a9ae8cc3fed208b5be75e9c7a7611b2aa1a6e5ce36df5058e0fcb2684fb8daf8a9ae8cc3fed208b5be75e9c7a7611b2aa1a6e5ce36df5058e0fcb2684fb8d = 0x7fb85ab9fd3660668d1a29cb0488e698f6acd0c9b3bf71ed88ad47d278c81279a4095cc7b71532d66e8c97a4a73f358873115e2df5dc3d09187b06c020d9a522 := by
  rw [show (940 : Nat) = 20 + 920 from rfl, pbkdfIter_add, ckB45]
  decide!

theorem ckB47 : pbkdfIter 0x2223a11b7c5e834428cfd34c672804e46726a8cb5360806ba1c77db8fcd1abe0 0x8efd7f6749d07bdb2c4694824530eb49b9ff48655eaf257140d71bec9ec8f66a 960 0xaf8a9ae8cc3fed208b5be75e9c7a7611b2aa1a6e5ce36df5058e0fcb2684fb8daf8a9ae8cc3fed208b5be75e9c7a7611b2aa1a6e5ce36df5058e0fcb2684fb8d = 0x3386d8b77c8bae511aa63353efed48d2a9d253fed65c19d1d94489103e2396478d30171ef1a68e5c9da1935f8905b6446596bb5a7d4c470420abd543f0d08576 := by
  rw [show (960 : Nat) = 20 + 940 from rfl, pbkdfIter_add, ckB46]
  decide!

theorem ckB48 : pbkdfIter 0x2223a11b7c5e834428cfd34c672804e46726a8cb5360806ba1c77db8fcd1abe0 0x8efd7f6749d07bdb2c4694824530eb49b9ff48655eaf257140d71bec9ec8f66a 980 0xaf8a9ae8cc3fed208b5be75e9c7a7611b2aa1a6e5ce36df5058e0fcb2684fb8daf8a9ae8cc3fed208b5be75e9c7a7611b2aa1a6e5ce36df5058e0fcb2684fb8d = 0xd8b4947c4dc07b8dc2ffbaddbeaa7b08b33d5d7cee48668e582fd2e4736187de3a2563288b853ba3e13254b70e74cd37629519e39e530f768c2354b831746424 := by
  rw [show (980 : Nat) = 20 + 960 from rfl, pbkdfIter_add, ckB47]
  decide!

theorem ckB49 : pbkdfIter 0x2223a11b7c5e834428cfd34c672804e46726a8cb5360806ba1c77db8fcd1abe0 0x8efd7f6749d07bdb2c4694824530eb49b9ff48655eaf257140d71bec9ec8f66a 999 0xaf8a9ae8cc3fed208b5be75e9c7a7611b2aa1a6e5ce36df5058e0fcb2684fb8daf8a9ae8cc3fed208b5be75e9c7a7611b2aa1a6e5ce36df5058e0fcb2684fb8d = 0x473e2cf1ba08af961f78adccac664dda3d2b4daba95e79483b15b67403f22895d8d2db33a8a8fd13ef9873aa1de6ef1bbb2ec3997c50145df74c063b2ac93b8e := by
  rw [show (999 : Nat) = 19 + 980 from rfl, pbkdfIter_add, ckB48]
  decide!

/-- Unfolding `cryptoKeyDigest` (proved at general arguments). -/
theorem cryptoKeyDigest_def (username : String) (password : List Nat) (iterations : Nat) :
    cryptoKeyDigest username password iterations =
      pbkdf2N (packBytes password) password.length
        (packBytes (strBytes username)) (strBytes username).length iterations := rfl

/-- Unfolding `pbkdf2N` (proved at general arguments). -/
theorem pbkdf2N_def (pw pwlen salt saltlen c : Nat) :
    pbkdf2N pw pwlen salt saltlen c =
      Nat.land
        (pbkdfIter (compress shaH0 (ipadOf pw pwlen)) (compress shaH0 (opadOf pw pwlen)) (c - 1)
          (Nat.lor
            (Nat.shiftLeft (hmacN pw pwlen (Nat.lor (Nat.shiftLeft salt 32) 1) (saltlen + 4)) 256)
            (hmacN pw pwlen (Nat.lor (Nat.shiftLeft salt 32) 1) (saltlen + 4))))
        115792089237316195423570985008687907853269984665640564039457584007913129639935 := rfl

/-- Unfolding `crypto_key` (proved at general arguments). -/
theorem crypto_key_def (username : String) (password : List Nat) (iterations : Nat) :
    crypto_key username password iterations =
      (if iterations < 1000 then
        Except.error (Error.Unsupported ("Iteration count too low (" ++ toString iterations ++ ")"))
      else
        Except.ok (bytesOfDigest (cryptoKeyDigest username password iterations))) := rfl

/-- Unfolding `login_key` (proved at general arguments). -/
theorem login_key_def (username : String) (password : List Nat) (iterations : Nat) :
    login_key username password iterations =
      (if iterations < 1000 then
        Except.error (Error.Unsupported ("Iteration count too low (" ++ toString iterations ++ ")"))
      else
        match crypto_key username password iterations with
        | Except.error e => Except.error e
        | Except.ok decrypt_key =>
          Except.ok (bytesOfDigest
            (pbkdf2N (packBytes decrypt_key) decrypt_key.length
              (packBytes password) password.length 1))) := rfl

theorem ckEmptyIpadS : compress shaH0 (ipadOf (packBytes ([] : List Nat)) (List.length ([] : List Nat))) = 0xf454dead9725214f90daf2a0df1228ea64e5750fa3924181824a932bf8e04e32 := by decide!

theorem ckEmptyOpadS : compress shaH0 (opadOf (packBytes ([] : List Nat)) (List.length ([] : List Nat))) = 0xd385480f7abb647737c9c5385dd824678e043a72753434b0deb82818361d45a6 := by decide!

theorem ckEmptyU1 : Nat.lor (Nat.shiftLeft (hmacN (packBytes ([] : List Nat)) (List.length ([] : List Nat)) (Nat.lor (Nat.shiftLeft (packBytes (strBytes "")) 32) 1) ((List.length (strBytes "")) + 4)) 256) (hmacN (packBytes ([] : List Nat)) (List.length ([] : List Nat)) (Nat.lor (Nat.shiftLeft (packBytes (strBytes "")) 32) 1) ((List.length (strBytes "")) + 4)) = 0xf7ce0b653d2d72a4108cf5abe912ffdd777616dbbb27a70e8204f3ae2d0f6fadf7ce0b653d2d72a4108cf5abe912ffdd777616dbbb27a70e8204f3ae2d0f6fad := by decide!

theorem ckEmptyLand : Nat.land 0x7fc7a2a6a7cc4607e80049c24f6783cf85588190b2e7697f3715db1b64db7217145fd03403b523f1985a0b15bc7218fd6b8336bb3e7996666a74a6c97e715552 115792089237316195423570985008687907853269984665640564039457584007913129639935 = 0x145fd03403b523f1985a0b15bc7218fd6b8336bb3e7996666a74a6c97e715552 := by decide!

/-- The PBKDF2 digest behind `crypto_key("", "", 5000)`. -/
theorem ckEmptyDigest : cryptoKeyDigest "" [] 5000 = 0x145fd03403b523f1985a0b15bc7218fd6b8336bb3e7996666a74a6c97e715552 := by
  rw [cryptoKeyDigest_def, pbkdf2N_def, ckEmptyIpadS, ckEmptyOpadS, ckEmptyU1,
    show (5000 : Nat) - 1 = 4999 from rfl, ckE249, ckEmptyLand]

theorem ckBobIpadS : compress shaH0 (ipadOf (packBytes (strBytes "password")) (List.length (strBytes "password"))) = 0x2223a11b7c5e834428cfd34c672804e46726a8cb5360806ba1c77db8fcd1abe0 := by decide!

theorem ckBobOpadS : compress shaH0 (opadOf (packBytes (strBytes "password")) (List.length (strBytes "password"))) = 0x8efd7f6749d07bdb2c4694824530eb49b9ff48655eaf257140d71bec9ec8f66a := by decide!

theorem ckBobU1 : Nat.lor (Nat.shiftLeft (hmacN (packBytes (strBytes "password")) (List.length (strBytes "password")) (Nat.lor (Nat.shiftLeft (packBytes (strBytes "bob")) 32) 1) ((List.length (strBytes "bob")) + 4)) 256) (hmacN (packBytes (strBytes "password")) (List.length (strBytes "password")) (Nat.lor (Nat.shiftLeft (packBytes (strBytes "bob")) 32) 1) ((List.length (strBytes "bob")) + 4)) = 0xaf8a9ae8cc3fed208b5be75e9c7a7611b2aa1a6e5ce36df5058e0fcb2684fb8daf8a9ae8cc3fed208b5be75e9c7a7611b2aa1a6e5ce36df5058e0fcb2684fb8d := by decide!

theorem ckBobLand : Nat.land 0x473e2cf1ba08af961f78adccac664dda3d2b4daba95e79483b15b67403f22895d8d2db33a8a8fd13ef9873aa1de6ef1bbb2ec3997c50145df74c063b2ac93b8e 115792089237316195423570985008687907853269984665640564039457584007913129639935 = 0xd8d2db33a8a8fd13ef9873aa1de6ef1bbb2ec3997c50145df74c063b2ac93b8e := by decide!

/-- The PBKDF2 digest behind `crypto_key("bob", "password", 1000)`. -/
theorem ckBobDigest : cryptoKeyDigest "bob" (strBytes "password") 1000 = 0xd8d2db33a8a8fd13ef9873aa1de6ef1bbb2ec3997c50145df74c063b2ac93b8e := by
  rw [cryptoKeyDigest_def, pbkdf2N_def, ckBobIpadS, ckBobOpadS, ckBobU1,
    show (1000 : Nat) - 1 = 999 from rfl, ckB49, ckBobLand]

/-- The value `kdf::crypto_key` actually computes on the first fixture. -/
theorem ck_empty_eq :
    crypto_key "" [] 5000 = Except.ok (bytesOfDigest 0x145fd03403b523f1985a0b15bc7218fd6b8336bb3e7996666a74a6c97e715552) := by
  rw [crypto_key_def, ckEmptyDigest]
  decide!

/-- The value `kdf::crypto_key` actually computes on the second fixture. -/
theorem ck_bob_eq :
    crypto_key "bob" (strBytes "password") 1000 =
      Except.ok (bytesOfDigest 0xd8d2db33a8a8fd13ef9873aa1de6ef1bbb2ec3997c50145df74c063b2ac93b8e) := by
  rw [crypto_key_def, ckBobDigest]
  decide!

/-- C5 counterexample. The 32-byte strings the spec lists for the two
crypto-key fixtures are not the crypto keys: `crypto_key("", "", 5000)`
is `145fd034...` (not the listed `a0406b57...`) and
`crypto_key("bob", "password", 1000)` is `d8d2db33...`
(not the listed `637a4773...`). -/
theorem c5_counterexample :
    crypto_key "" [] 5000 ≠
      Except.ok (bytesOfDigest 0xa0406b57184d8c8f615ebc7968c79eab89c23514cc81543a275b10ffd2659d6b) ∧
    crypto_key "bob" (strBytes "password") 1000 ≠
      Except.ok (bytesOfDigest 0x637a4773386d153ce7fd2e281f2f9ffdb289445f79214d0fd5b52010c5667a6b) := by
  rw [ck_empty_eq, ck_bob_eq]
  decide!

/-- C5 as amended. The listed byte strings are the *login keys* of the
two fixtures (the crypto key hardened by one further PBKDF2 round with
the password as salt, as in `kdf.rs`'s own `test_login_key`):
`login_key("", "", 5000)` is `a0406b57...` and
`login_key("bob", "password", 1000)` is `637a4773...`. -/
theorem c5_theorem :
    login_key "" [] 5000 =
      Except.ok (bytesOfDigest 0xa0406b57184d8c8f615ebc7968c79eab89c23514cc81543a275b10ffd2659d6b) ∧
    login_key "bob" (strBytes "password") 1000 =
      Except.ok (bytesOfDigest 0x637a4773386d153ce7fd2e281f2f9ffdb289445f79214d0fd5b52010c5667a6b) := by
  constructor
  · rw [login_key_def, ck_empty_eq]
    decide!
  · rw [login_key_def, ck_bob_eq]
    decide!

end LPass
